import Mathlib

/-!
# Planeverb FDTD solver (`src/FDTD/FDTD.cpp`)

A shallow embedding of `Grid::GenerateResponseCPU`, `Grid::GenerateResponse`,
`Grid::GetResponse`, `GetImpulseResponse` and `GetOutput`, followed by theorems about
them.

Conventions of the embedding.

* `Real` of the source is an arbitrary field `K` (exact arithmetic); every definition is
  computable and can be evaluated at `K = ℚ`.  The only divisions are those of the
  admittances `(1 - R) / (1 + R)`; no theorem below depends on the value of a division
  by zero.
* `m_grid` is a raw `Cell*`.  The source indexes it with plain `int` arithmetic and does
  not check bounds: the pressure phase reads `m_grid[i + gridy + 1]` and `m_grid[i + 1]`
  for every `i < loopSize`.  The memory the pointer gives access to is therefore a total
  map from `Int` to cells (`Mem Int (Cell K)`); the cells of the grid are the indices
  `0 ≤ i < loopSize`, and the contents of the other indices are whatever the surrounding
  memory holds.  The solver never stores outside the grid, except for the injection when
  the listener cell lies outside of it.
* `int` values are unbounded integers; the grid sizes and the response length are
  natural numbers.
* A C++ `for (int i = lo; i < hi; ++i)` loop is `forLoop lo hi body`.
-/

namespace Planeverb

/-! ## Data model -/

/-- Simulation cell (`Cell`, declared in `FDTD/Grid.h`): pressure, the two particle
velocity components, the rigidity field `b` (an integer, read through `(int)` and
`(Real)` casts) and the absorption coefficient. -/
structure Cell (K : Type) where
  pr : K
  vx : K
  vy : K
  b : Int
  absorption : K
deriving DecidableEq

/-- Two component vector (`vec2`). -/
structure vec2 (K : Type) where
  x : K
  y : K
deriving DecidableEq

/-- Three component vector (`vec3`). -/
structure vec3 (K : Type) where
  x : K
  y : K
  z : K
deriving DecidableEq

/-- Execution mode of the configuration (`PlaneverbExecutionType`). -/
inductive PlaneverbExecutionType where
  | pv_CPU
  | pv_GPU
deriving DecidableEq

/-- Centering policy of the configuration (`PlaneverbGridCenteringType`). -/
inductive PlaneverbGridCenteringType where
  | pv_StaticCentering
  | pv_DynamicCentering
deriving DecidableEq

/-- Error codes thrown by the library (`PlaneverbErrors`); only `pv_InvalidConfig` is
thrown by the embedded code. -/
inductive PlaneverbErrors where
  | pv_InvalidConfig
deriving DecidableEq

/-- The fields of `PlaneverbConfig` that the embedded code reads. -/
structure PlaneverbConfig where
  gridCenteringType : PlaneverbGridCenteringType
  threadExecutionType : PlaneverbExecutionType
  maxThreadUsage : Nat
deriving DecidableEq

/-- The values `Context::GetGlobals()` hands to the solver.  `gridSizeX` and `gridSizeY`
are `(int)globals.gridSize.x` and `(int)globals.gridSize.y`.  `PV_C` (speed of sound) is a
constant of `PvDefinitions.h`, which is not part of the sources at hand, and is taken as a
parameter. -/
structure Globals (K : Type) where
  config : PlaneverbConfig
  gridSizeX : Nat
  gridSizeY : Nat
  gridDX : K
  simulationDT : K
  responseSampleLength : Nat
  PV_C : K

/-- A region of memory addressed by an index of type `ι`: `read` is `a[i]`.  It is a
structure (rather than a bare function) so that a stored value is computed once, when
it is stored. -/
structure Mem (ι α : Type) where
  read : ι → α

/-- The array store `a[i] = v`. -/
def Mem.write {ι α : Type} [DecidableEq ι] (a : Mem ι α) (i : ι) (v : α) : Mem ι α :=
  ⟨fun j => if j = i then v else a.read j⟩

/-- The members of `Grid` used by the solver: the cell memory reachable through the
pointer `m_grid`, the response cube `m_pulseResponse[index][t]`, the excitation
`m_pulse[t]`, and the method `WorldToGrid` (defined in `Grid.cpp`, not part of the sources
at hand, taken as a parameter). -/
structure Grid (K : Type) where
  m_grid : Mem Int (Cell K)
  m_pulseResponse : Mem Int (Mem Nat (Cell K))
  m_pulse : Nat → K
  WorldToGrid : vec2 K → Int × Int

/-- Modelled from the spec: the macro `INDEX2(row, col, dim)` of `PvDefinitions.h` is
missing from the sources; the spec describes a row-major index with the given stride. -/
def INDEX2 (row col dim : Int) : Int := row * dim + col

/-! ## Loops -/

/-- Runs `body 0`, `body 1`, ..., `body (n - 1)` in this order. -/
def forUpTo {σ : Type} (body : Nat → σ → σ) : Nat → σ → σ
  | 0, s => s
  | n + 1, s => body n (forUpTo body n s)

/-- The loop `for (int i = lo; i < hi; ++i) body(i)`. -/
def forLoop {σ : Type} (lo hi : Nat) (body : Nat → σ → σ) (s : σ) : σ :=
  forUpTo (fun k => body (lo + k)) (hi - lo) s

section Solver

variable {K : Type} [Field K]

/-! ## The phases of one timestep -/

/-- The reset of one cell: `pr`, `vx`, `vy` set to zero, `b` and `absorption` kept. -/
def resetCell (c : Cell K) : Cell K :=
  { c with pr := 0, vx := 0, vy := 0 }

/-- Body of the reset loop (`resetPtr` walks the array together with `i`). -/
def resetBody (i : Nat) (m : Mem Int (Cell K)) : Mem Int (Cell K) :=
  m.write (i : Int) (resetCell (m.read i))

/-- Value stored in cell `i` by the body of the pressure loop, computed from the
memory `m` as it is when the body runs. -/
def pressureCell (Courant : K) (gridy : Nat) (m : Mem Int (Cell K)) (i : Int) : Cell K :=
  let thisCell := m.read i
  let B : Int := thisCell.b
  let beta : K := (B : K)
  let nextCellX := m.read (i + gridy + 1)
  let nextCellY := m.read (i + 1)
  let divergence := (nextCellX.vx - thisCell.vx) + (nextCellY.vy - thisCell.vy)
  { thisCell with pr := beta * (thisCell.pr - Courant * divergence) }

/-- Body of the pressure loop. -/
def pressureBody (Courant : K) (gridy : Nat) (i : Nat) (m : Mem Int (Cell K)) :
    Mem Int (Cell K) :=
  m.write (i : Int) (pressureCell Courant gridy m i)

/-- The velocity update shared, expression for expression, by the x and the y velocity
loops: `v` is the velocity component of `thisCell` that is being updated. -/
def velocityUpdate (Courant : K) (prevCell thisCell : Cell K) (v : K) : K :=
  let beta_n : K := (prevCell.b : K)
  let Rn := prevCell.absorption
  let Yn := (1 - Rn) / (1 + Rn)
  let B : Int := thisCell.b
  let beta : K := (B : K)
  let R := thisCell.absorption
  let Y := (1 - R) / (1 + R)
  let gradient := thisCell.pr - prevCell.pr
  let airCellUpdate := v - Courant * gradient
  let Y_boundary := beta * Yn + beta_n * Y
  let wallCellUpdate := Y_boundary * (prevCell.pr * beta_n + thisCell.pr * beta)
  beta * beta_n * airCellUpdate + (beta_n - beta) * wallCellUpdate

/-- Value stored in cell `i` by the body of the x velocity loop. -/
def vxCell (Courant : K) (gridy : Nat) (m : Mem Int (Cell K)) (i : Int) : Cell K :=
  let prevCell := m.read (i - gridy - 1)
  let thisCell := m.read i
  { thisCell with vx := velocityUpdate Courant prevCell thisCell thisCell.vx }

/-- Body of the x velocity loop. -/
def vxBody (Courant : K) (gridy : Nat) (i : Nat) (m : Mem Int (Cell K)) :
    Mem Int (Cell K) :=
  m.write (i : Int) (vxCell Courant gridy m i)

/-- Value stored in cell `i` by the body of the y velocity loop. -/
def vyCell (Courant : K) (m : Mem Int (Cell K)) (i : Int) : Cell K :=
  let prevCell := m.read (i - 1)
  let thisCell := m.read i
  { thisCell with vy := velocityUpdate Courant prevCell thisCell thisCell.vy }

/-- Body of the y velocity loop. -/
def vyBody (Courant : K) (i : Nat) (m : Mem Int (Cell K)) : Mem Int (Cell K) :=
  m.write (i : Int) (vyCell Courant m i)

/-- Body of the loop "process absorption top/bottom". -/
def absorbTopBottomBody (gridx gridy : Nat) (i : Nat) (m : Mem Int (Cell K)) :
    Mem Int (Cell K) :=
  let index1 : Int := i
  let index2 : Int := gridx * (gridy + 1) + i
  let cell1 := m.read index1
  let m1 := m.write index1 { cell1 with vx := -cell1.pr }
  let cell2 := m1.read index2
  m1.write index2 { cell2 with vx := (m1.read (index2 - gridy - 1)).pr }

/-- Body of the loop "process absorption left/right". -/
def absorbLeftRightBody (gridy : Nat) (i : Nat) (m : Mem Int (Cell K)) :
    Mem Int (Cell K) :=
  let index1 : Int := i * (gridy + 1)
  let index2 : Int := i * (gridy + 1) + gridy
  let cell1 := m.read index1
  let m1 := m.write index1 { cell1 with vy := -cell1.pr }
  let cell2 := m1.read index2
  m1.write index2 { cell2 with vy := (m1.read (index2 - 1)).pr }

/-- Body of the loop "add results to the response cube":
`m_pulseResponse[i][t] = m_grid[i]`. -/
def recordBody (t : Nat) (m : Mem Int (Cell K)) (i : Nat)
    (r : Mem Int (Mem Nat (Cell K))) : Mem Int (Mem Nat (Cell K)) :=
  r.write (i : Int) ((r.read i).write t (m.read i))

/-- The statement `m_grid[listenerPos].pr += m_pulse[t]`. -/
def injectPulse (listenerPos : Int) (p : K) (m : Mem Int (Cell K)) : Mem Int (Cell K) :=
  let cell := m.read listenerPos
  m.write listenerPos { cell with pr := cell.pr + p }

/-- The four update phases of one timestep, in the order of the source: pressure,
x velocity, y velocity, absorption top/bottom, absorption left/right. -/
def updatePhases (Courant : K) (gridx gridy : Nat) (m : Mem Int (Cell K)) :
    Mem Int (Cell K) :=
  let loopSize := (gridx + 1) * (gridy + 1)
  let m1 := forLoop 0 loopSize (pressureBody Courant gridy) m
  let m2 := forLoop (gridy + 1) loopSize (vxBody Courant gridy) m1
  let m3 := forLoop 1 loopSize (vyBody Courant) m2
  let m4 := forLoop 0 gridy (absorbTopBottomBody gridx gridy) m3
  forLoop 0 gridx (absorbLeftRightBody gridy) m4

/-- One iteration of the time loop, for the timestep `t`. -/
def timeStep (Courant : K) (gridx gridy : Nat) (listenerPos : Int) (t : Nat)
    (g : Grid K) : Grid K :=
  let loopSize := (gridx + 1) * (gridy + 1)
  let m := updatePhases Courant gridx gridy g.m_grid
  let r := forLoop 0 loopSize (recordBody t m) g.m_pulseResponse
  { g with m_grid := injectPulse listenerPos (g.m_pulse t) m, m_pulseResponse := r }

/-! ## The response driver and the queries -/

/-- The cell that receives the excitation (`listenerPos` of the source). -/
def listenerIndex (gl : Globals K) (g : Grid K) (listener : vec3 K) : Int :=
  let gridx : Int := gl.gridSizeX
  let gridy : Int := gl.gridSizeY
  let pos : Int × Int :=
    if gl.config.gridCenteringType = PlaneverbGridCenteringType.pv_StaticCentering then
      g.WorldToGrid { x := listener.x, y := listener.z }
    else
      (gridx / 2, gridy / 2)
  INDEX2 pos.1 pos.2 (gridy + 1)

/-- The Courant number computed at the start of the source function. -/
def courant (gl : Globals K) : K := gl.PV_C * gl.simulationDT / gl.gridDX

/-- Embedding of `Grid::GenerateResponseCPU`.  The calls to `omp_set_num_threads` do not
touch the state of the grid and are left out. -/
def GenerateResponseCPU (gl : Globals K) (listener : vec3 K) (g : Grid K) : Grid K :=
  let Courant := courant gl
  let gridx := gl.gridSizeX
  let gridy := gl.gridSizeY
  let listenerPos := listenerIndex gl g listener
  let responseLength := gl.responseSampleLength
  let loopSize := (gridx + 1) * (gridy + 1)
  let g0 : Grid K := { g with m_grid := forLoop 0 loopSize resetBody g.m_grid }
  forLoop 0 responseLength (timeStep Courant gridx gridy listenerPos) g0

/-- Embedding of `Grid::GenerateResponseGPU`: throws before touching the grid.  The
result pairs the outcome of the call with the state of the grid after it. -/
def GenerateResponseGPU (_listener : vec3 K) (g : Grid K) :
    Except PlaneverbErrors Unit × Grid K :=
  (Except.error PlaneverbErrors.pv_InvalidConfig, g)

/-- Embedding of `Grid::GenerateResponse`. -/
def GenerateResponse (gl : Globals K) (listener : vec3 K) (g : Grid K) :
    Except PlaneverbErrors Unit × Grid K :=
  if gl.config.threadExecutionType = PlaneverbExecutionType.pv_CPU then
    (Except.ok (), GenerateResponseCPU gl listener g)
  else
    GenerateResponseGPU listener g

/-- Embedding of `Grid::GetResponse`: the time series `m_pulseResponse[index]`. -/
def GetResponse (gl : Globals K) (g : Grid K) (worldSpace : vec2 K) :
    Mem Nat (Cell K) :=
  let pos := g.WorldToGrid worldSpace
  let index := INDEX2 pos.1 pos.2 ((gl.gridSizeY : Int) + 1)
  g.m_pulseResponse.read index

/-- Embedding of `GetImpulseResponse`: the series together with its length. -/
def GetImpulseResponse (gl : Globals K) (g : Grid K) (position : vec3 K) :
    Mem Nat (Cell K) × Nat :=
  let worldPosition : vec2 K := { x := position.x, y := position.z }
  (GetResponse gl g worldPosition, gl.responseSampleLength)

/-! ## Phases as simultaneous updates, and the states of a run

The definitions below are not part of the source.  The first group describes each loop
as an update of all cells at once, every new value being computed from the memory as it
was when the loop began.  The second group names the memory at the two points of a
timestep that the theorems talk about. -/

/-- The reset loop, all cells at once. -/
def resetSimultaneous (gridx gridy : Nat) (m : Mem Int (Cell K)) : Mem Int (Cell K) :=
  ⟨fun j => if 0 ≤ j ∧ j < (((gridx + 1) * (gridy + 1) : Nat) : Int)
    then resetCell (m.read j) else m.read j⟩

/-- The pressure loop, all cells at once. -/
def pressureSimultaneous (Courant : K) (gridx gridy : Nat) (m : Mem Int (Cell K)) :
    Mem Int (Cell K) :=
  ⟨fun j => if 0 ≤ j ∧ j < (((gridx + 1) * (gridy + 1) : Nat) : Int)
    then pressureCell Courant gridy m j else m.read j⟩

/-- The x velocity loop, all cells at once. -/
def vxSimultaneous (Courant : K) (gridx gridy : Nat) (m : Mem Int (Cell K)) :
    Mem Int (Cell K) :=
  ⟨fun j => if ((gridy + 1 : Nat) : Int) ≤ j ∧ j < (((gridx + 1) * (gridy + 1) : Nat) : Int)
    then vxCell Courant gridy m j else m.read j⟩

/-- The y velocity loop, all cells at once. -/
def vySimultaneous (Courant : K) (gridx gridy : Nat) (m : Mem Int (Cell K)) :
    Mem Int (Cell K) :=
  ⟨fun j => if 1 ≤ j ∧ j < (((gridx + 1) * (gridy + 1) : Nat) : Int)
    then vyCell Courant m j else m.read j⟩

/-- The first `k` iterations of the loop "process absorption top/bottom", all cells
at once: the cells `gridx * (gridy + 1) + i` take the pressure of the cell one row
before, the cells `i` the negative of their own pressure (`i < k`); where the two
coincide the second store of the body wins. -/
def absorbTopBottomSimultaneous (gridx gridy k : Nat) (m : Mem Int (Cell K)) :
    Mem Int (Cell K) :=
  ⟨fun j =>
    let c := m.read j
    if (gridx : Int) * (gridy + 1) ≤ j ∧ j < (gridx : Int) * (gridy + 1) + k then
      { c with vx := (m.read (j - gridy - 1)).pr }
    else if 0 ≤ j ∧ j < (k : Int) then
      { c with vx := -c.pr }
    else c⟩

/-- The first `k` iterations of the loop "process absorption left/right", all cells
at once: the cells `i * (gridy + 1) + gridy` take the pressure of the cell before them,
the cells `i * (gridy + 1)` the negative of their own pressure (`i < k`); where the two
coincide the second store of the body wins. -/
def absorbLeftRightSimultaneous (gridy k : Nat) (m : Mem Int (Cell K)) :
    Mem Int (Cell K) :=
  ⟨fun j =>
    let c := m.read j
    if ∃ i : Nat, i < k ∧ j = (i : Int) * (gridy + 1) + gridy then
      { c with vy := (m.read (j - 1)).pr }
    else if ∃ i : Nat, i < k ∧ j = (i : Int) * (gridy + 1) then
      { c with vy := -c.pr }
    else c⟩

/-- The memory at the start of the iteration for timestep `t` of the time loop, when the
memory after the reset is `m0`. -/
def gridBefore (Courant : K) (gridx gridy : Nat) (listenerPos : Int) (pulse : Nat → K)
    (m0 : Mem Int (Cell K)) : Nat → Mem Int (Cell K)
  | 0 => m0
  | t + 1 =>
    injectPulse listenerPos (pulse t)
      (updatePhases Courant gridx gridy (gridBefore Courant gridx gridy listenerPos pulse m0 t))

/-- The memory at the moment the iteration for timestep `t` copies it to the response
cube: after the four update phases, before the injection. -/
def gridRecorded (Courant : K) (gridx gridy : Nat) (listenerPos : Int) (pulse : Nat → K)
    (m0 : Mem Int (Cell K)) (t : Nat) : Mem Int (Cell K) :=
  updatePhases Courant gridx gridy (gridBefore Courant gridx gridy listenerPos pulse m0 t)

/-- Every cell of the memory has zero pressure and zero velocity. -/
def AllZero (m : Mem Int (Cell K)) : Prop :=
  ∀ j : Int, (m.read j).pr = 0 ∧ (m.read j).vx = 0 ∧ (m.read j).vy = 0

/-- The snapshot `GenerateResponseCPU` takes of the grid at timestep `t`, as a function
of the inputs of the call. -/
def snapshotCPU (gl : Globals K) (listener : vec3 K) (g : Grid K) (t : Nat) :
    Mem Int (Cell K) :=
  gridRecorded (courant gl) gl.gridSizeX gl.gridSizeY (listenerIndex gl g listener) g.m_pulse
    (forLoop 0 ((gl.gridSizeX + 1) * (gl.gridSizeY + 1)) resetBody g.m_grid) t

/-- The x velocity phase as the nested iteration that the spec and the comment in the
source give as its meaning: `for x in 1..sizeX, for y in 0..sizeY`, the cell `(x, y)`
updated from its backward neighbour `(x - 1, y)` of the previous row. -/
def vxNested (Courant : K) (gridx gridy : Nat) (m : Mem Int (Cell K)) : Mem Int (Cell K) :=
  forLoop 1 (gridx + 1) (fun x =>
    forLoop 0 (gridy + 1) (fun y m =>
      let prevCell := m.read (INDEX2 ((x : Int) - 1) y (gridy + 1))
      let thisCell := m.read (INDEX2 x y (gridy + 1))
      m.write (INDEX2 x y (gridy + 1))
        { thisCell with vx := velocityUpdate Courant prevCell thisCell thisCell.vx })) m

/-- The y velocity phase as the nested iteration that the spec and the comment in the
source give as its meaning: `for x in 0..sizeX, for y in 1..sizeY`, the cell `(x, y)`
updated from its backward neighbour `(x, y - 1)` of the same row. -/
def vyNested (Courant : K) (gridx gridy : Nat) (m : Mem Int (Cell K)) : Mem Int (Cell K) :=
  forLoop 0 (gridx + 1) (fun x =>
    forLoop 1 (gridy + 1) (fun y m =>
      let prevCell := m.read (INDEX2 x ((y : Int) - 1) (gridy + 1))
      let thisCell := m.read (INDEX2 x y (gridy + 1))
      m.write (INDEX2 x y (gridy + 1))
        { thisCell with vy := velocityUpdate Courant prevCell thisCell thisCell.vy })) m

/-- The three bulk loops of a timestep (pressure, x velocity, y velocity): the part of
`updatePhases` that precedes the two absorption loops. -/
def bulkPhases (Courant : K) (gridx gridy : Nat) (m : Mem Int (Cell K)) :
    Mem Int (Cell K) :=
  let loopSize := (gridx + 1) * (gridy + 1)
  let m1 := forLoop 0 loopSize (pressureBody Courant gridy) m
  let m2 := forLoop (gridy + 1) loopSize (vxBody Courant gridy) m1
  forLoop 1 loopSize (vyBody Courant) m2

/-- The memory `m` is the combination `a * m1 + b * m2` in pressure and velocities, and
all three memories have the same rigidity and absorption in every cell. -/
def LinComb (a b : K) (m1 m2 m : Mem Int (Cell K)) : Prop :=
  ∀ j : Int,
    (m.read j).pr = a * (m1.read j).pr + b * (m2.read j).pr ∧
    (m.read j).vx = a * (m1.read j).vx + b * (m2.read j).vx ∧
    (m.read j).vy = a * (m1.read j).vy + b * (m2.read j).vy ∧
    (m1.read j).b = (m.read j).b ∧ (m2.read j).b = (m.read j).b ∧
    (m1.read j).absorption = (m.read j).absorption ∧
    (m2.read j).absorption = (m.read j).absorption

/-- The subscripts of `m_grid` in the body of the pressure loop at iteration `i`:
`thisCell` is `m_grid[i]`, `nextCellX` is `m_grid[i + gridy + 1]` and `nextCellY` is
`m_grid[i + 1]`. -/
def pressureSubscripts (gridy : Nat) (i : Nat) : List Int :=
  [(i : Int), (i : Int) + gridy + 1, (i : Int) + 1]

/-- The subscripts of `m_grid` in the body of the x velocity loop at iteration `i`:
`prevCell` is `m_grid[i - gridy - 1]`, `thisCell` is `m_grid[i]`. -/
def vxSubscripts (gridy : Nat) (i : Nat) : List Int :=
  [(i : Int) - gridy - 1, (i : Int)]

/-- The subscripts of `m_grid` in the body of the y velocity loop at iteration `i`:
`prevCell` is `m_grid[i - 1]`, `thisCell` is `m_grid[i]`. -/
def vySubscripts (i : Nat) : List Int :=
  [(i : Int) - 1, (i : Int)]

/-- The subscripts of `m_grid` in the body of the loop "process absorption top/bottom" at
iteration `i`: `index1`, `index2` and `index2 - gridy - 1`. -/
def absorbTopBottomSubscripts (gridx gridy : Nat) (i : Nat) : List Int :=
  [(i : Int), (gridx : Int) * (gridy + 1) + i, (gridx : Int) * (gridy + 1) + i - gridy - 1]

/-- The subscripts of `m_grid` in the body of the loop "process absorption left/right" at
iteration `i`: `index1`, `index2` and `index2 - 1`. -/
def absorbLeftRightSubscripts (gridy : Nat) (i : Nat) : List Int :=
  [(i : Int) * (gridy + 1), (i : Int) * (gridy + 1) + gridy,
    (i : Int) * (gridy + 1) + gridy - 1]

/-! ## The client interface `GetOutput` -/

/-- Identifier of an emitter (`EmissionID`), an integer handle. -/
abbrev EmissionID := Int

/-- The fields of the result record of the analyzer that `GetOutput` reads (the record
is declared in `DSP/Analyzer.h`). -/
structure AnalyzerResult (K : Type) where
  occlusion : K
  wetGain : K
  lowpassIntensity : K
  rt60 : K
  direction : vec2 K
  sourceDirectivity : vec2 K

/-- The record `PlaneverbOutput` returned to the client. -/
structure PlaneverbOutput (K : Type) where
  occlusion : K
  wetGain : K
  lowpass : K
  rt60 : K
  direction : vec2 K
  sourceDirectivity : vec2 K

/-- The method of the analyzer that `GetOutput` calls: `GetResponseResult` returns a
pointer to the result for a position, or null. -/
structure Analyzer (K : Type) where
  GetResponseResult : vec3 K → Option (AnalyzerResult K)

/-- The method of the emission manager that `GetOutput` calls: `GetEmitter` returns a
pointer to the position of the emitter, or null. -/
structure EmissionManager (K : Type) where
  GetEmitter : EmissionID → Option (vec3 K)

/-- The accessors of `Context` that `GetOutput` calls. -/
structure Context (K : Type) where
  GetAnalyzer : Analyzer K
  GetEmissionManager : EmissionManager K

/-- Embedding of `GetOutput`.  `GetContext` is the pointer the global accessor returns
(`none` for null); `PV_INVALID_DRY_GAIN` is a constant of `PvDefinitions.h`, which is not
part of the sources at hand, and is taken as a parameter.  The `memset` clears every
field of `out`; the casts `(float)` are the identity on `K`. -/
def GetOutput (PV_INVALID_DRY_GAIN : K) (GetContext : Option (Context K))
    (emitter : EmissionID) : PlaneverbOutput K :=
  let out : PlaneverbOutput K :=
    { occlusion := 0, wetGain := 0, lowpass := 0, rt60 := 0, direction := ⟨0, 0⟩,
      sourceDirectivity := ⟨0, 0⟩ }
  match GetContext with
  | none => { out with occlusion := PV_INVALID_DRY_GAIN }
  | some context =>
    let analyzer := context.GetAnalyzer
    let emissions := context.GetEmissionManager
    match emissions.GetEmitter emitter with
    | none => { out with occlusion := PV_INVALID_DRY_GAIN }
    | some emitterPos =>
      match analyzer.GetResponseResult emitterPos with
      | none => { out with occlusion := 1 }
      | some result =>
        { out with
          occlusion := result.occlusion
          wetGain := result.wetGain
          lowpass := result.lowpassIntensity
          rt60 := result.rt60
          direction := result.direction
          sourceDirectivity := result.sourceDirectivity }

end Solver

/-! ## Concrete inputs -/

/-- A 2 by 3 open field (3 by 4 cells) with the listener in cell `(1, 0)`, a unit impulse
at sample 0 and zero cells outside the grid. -/
def wrapGrid : Grid ℚ :=
  { m_grid := ⟨fun i => if 0 ≤ i ∧ i < 12 then ⟨0, 0, 0, 1, 0⟩ else ⟨0, 0, 0, 0, 0⟩⟩
    m_pulseResponse := ⟨fun _ => ⟨fun _ => ⟨0, 0, 0, 0, 0⟩⟩⟩
    m_pulse := fun t => if t = 0 then 1 else 0
    WorldToGrid := fun _ => (1, 0) }

/-- The configuration for `wrapGrid`: Courant number 1, three timesteps. -/
def wrapGlobals : Globals ℚ :=
  { config := ⟨.pv_StaticCentering, .pv_CPU, 0⟩
    gridSizeX := 2, gridSizeY := 3, gridDX := 1, simulationDT := 1
    responseSampleLength := 3, PV_C := 1 }

/-- A 1 by 1 open field (2 by 2 cells) with the listener in cell `(0, 1)`, a unit impulse
at sample 0 and zero cells outside the grid. -/
def cornerGrid : Grid ℚ :=
  { m_grid := ⟨fun i => if 0 ≤ i ∧ i < 4 then ⟨0, 0, 0, 1, 0⟩ else ⟨0, 0, 0, 0, 0⟩⟩
    m_pulseResponse := ⟨fun _ => ⟨fun _ => ⟨0, 0, 0, 0, 0⟩⟩⟩
    m_pulse := fun t => if t = 0 then 1 else 0
    WorldToGrid := fun _ => (0, 1) }

/-- The configuration for `cornerGrid`: Courant number 1, two timesteps. -/
def cornerGlobals : Globals ℚ :=
  { config := ⟨.pv_StaticCentering, .pv_CPU, 0⟩
    gridSizeX := 1, gridSizeY := 1, gridDX := 1, simulationDT := 1
    responseSampleLength := 2, PV_C := 1 }

/-- The open-field scenario of the spec over `ℚ`: 4 by 4 grid (5 by 5 cells), every cell
with rigidity 1 and absorption 0, unit impulse at sample 0, `WorldToGrid` sending the
listener to `(2, 2)`, zero cells outside the grid. -/
def openFieldGrid : Grid ℚ :=
  { m_grid := ⟨fun i => if 0 ≤ i ∧ i < 25 then ⟨3, 1, 4, 1, 0⟩ else ⟨0, 0, 0, 0, 0⟩⟩
    m_pulseResponse := ⟨fun _ => ⟨fun _ => ⟨0, 0, 0, 0, 0⟩⟩⟩
    m_pulse := fun t => if t = 0 then 1 else 0
    WorldToGrid := fun _ => (2, 2) }

/-- The configuration of the open-field scenario: static centering, Courant number 1,
six timesteps. -/
def openFieldGlobals : Globals ℚ :=
  { config := ⟨.pv_StaticCentering, .pv_CPU, 0⟩
    gridSizeX := 4, gridSizeY := 4, gridDX := 1, simulationDT := 1
    responseSampleLength := 6, PV_C := 1 }

/-- A 4 by 4 grid with zero excitation, arbitrary values in the grid cells and zero
cells outside. -/
def silentGrid : Grid ℚ :=
  { m_grid := ⟨fun i => if 0 ≤ i ∧ i < 25 then ⟨3, 1, 4, 1, 1 / 2⟩ else ⟨0, 0, 0, 0, 0⟩⟩
    m_pulseResponse := ⟨fun _ => ⟨fun _ => ⟨0, 0, 0, 0, 0⟩⟩⟩
    m_pulse := fun _ => 0
    WorldToGrid := fun _ => (2, 2) }

/-- The open-field grid with a rigid listener cell. -/
def wallGrid : Grid ℚ :=
  { m_grid := ⟨fun i => if i = 12 then ⟨3, 1, 4, 0, 1 / 2⟩ else ⟨3, 1, 4, 1, 0⟩⟩
    m_pulseResponse := ⟨fun _ => ⟨fun _ => ⟨0, 0, 0, 0, 0⟩⟩⟩
    m_pulse := fun t => if t = 0 then 1 else 0
    WorldToGrid := fun _ => (2, 2) }

/-- The open-field grid with other pressures and velocities in the grid cells. -/
def openFieldGridPrior : Grid ℚ :=
  { m_grid := ⟨fun i => if 0 ≤ i ∧ i < 25 then ⟨-7, 2, 9, 1, 0⟩ else ⟨0, 0, 0, 0, 0⟩⟩
    m_pulseResponse := ⟨fun _ => ⟨fun _ => ⟨1, 1, 1, 1, 1⟩⟩⟩
    m_pulse := fun t => if t = 0 then 1 else 0
    WorldToGrid := fun _ => (2, 2) }

/-- A world position for the queries. -/
def queryPosition : vec3 ℚ := ⟨1, 5, 2⟩

/-- The open-field configuration with the GPU execution type. -/
def gpuGlobals : Globals ℚ :=
  { config := ⟨.pv_StaticCentering, .pv_GPU, 0⟩
    gridSizeX := 4, gridSizeY := 4, gridDX := 1, simulationDT := 1
    responseSampleLength := 6, PV_C := 1 }

/-- The 4 by 4 configuration in the listener-centred mode. -/
def dynamicGlobals : Globals ℚ :=
  { config := ⟨.pv_DynamicCentering, .pv_CPU, 0⟩
    gridSizeX := 4, gridSizeY := 4, gridDX := 1, simulationDT := 1
    responseSampleLength := 6, PV_C := 1 }

/-- The field that the y velocity loop receives at timestep 1 of the run of `cornerGrid`:
the memory after the pressure loop and the x velocity loop of that timestep. -/
def wrapField : Mem Int (Cell ℚ) :=
  forLoop (cornerGlobals.gridSizeY + 1)
    ((cornerGlobals.gridSizeX + 1) * (cornerGlobals.gridSizeY + 1))
    (vxBody (courant cornerGlobals) cornerGlobals.gridSizeY)
    (forLoop 0 ((cornerGlobals.gridSizeX + 1) * (cornerGlobals.gridSizeY + 1))
      (pressureBody (courant cornerGlobals) cornerGlobals.gridSizeY)
      (gridBefore (courant cornerGlobals) cornerGlobals.gridSizeX cornerGlobals.gridSizeY
        (listenerIndex cornerGlobals cornerGrid ⟨0, 0, 0⟩) cornerGrid.m_pulse
        (forLoop 0 ((cornerGlobals.gridSizeX + 1) * (cornerGlobals.gridSizeY + 1)) resetBody
          cornerGrid.m_grid) 1))

/-- The 1 by 1 open field of `cornerGrid` with other contents in the memory after the
array: the cells past index 3 hold `vx = 1`.  The four cells of the grid, the excitation
and `WorldToGrid` are those of `cornerGrid`. -/
def haloGrid : Grid ℚ :=
  { m_grid := ⟨fun i => if 0 ≤ i ∧ i < 4 then ⟨0, 0, 0, 1, 0⟩ else ⟨0, 1, 0, 0, 0⟩⟩
    m_pulseResponse := ⟨fun _ => ⟨fun _ => ⟨0, 0, 0, 0, 0⟩⟩⟩
    m_pulse := fun t => if t = 0 then 1 else 0
    WorldToGrid := fun _ => (0, 1) }

/-- The grid `haloGrid` with the zero excitation. -/
def haloSilentGrid : Grid ℚ :=
  { m_grid := ⟨fun i => if 0 ≤ i ∧ i < 4 then ⟨0, 0, 0, 1, 0⟩ else ⟨0, 1, 0, 0, 0⟩⟩
    m_pulseResponse := ⟨fun _ => ⟨fun _ => ⟨0, 0, 0, 0, 0⟩⟩⟩
    m_pulse := fun _ => 0
    WorldToGrid := fun _ => (0, 1) }

/-- The grid `haloGrid` with twice its excitation. -/
def haloDoubleGrid : Grid ℚ :=
  { m_grid := ⟨fun i => if 0 ≤ i ∧ i < 4 then ⟨0, 0, 0, 1, 0⟩ else ⟨0, 1, 0, 0, 0⟩⟩
    m_pulseResponse := ⟨fun _ => ⟨fun _ => ⟨0, 0, 0, 0, 0⟩⟩⟩
    m_pulse := fun t => if t = 0 then 2 else 0
    WorldToGrid := fun _ => (0, 1) }

/-- The memory recorded at timestep 0 of a run on `haloGrid`, cell by cell: pressures
`0, 0, -1, -1`, `vx` `0, 0, 0, 1` and `vy` `0, 0, 1, 0` in the four cells of the grid; the
memory outside the array as it was. -/
def haloSnapshot : Mem Int (Cell ℚ) :=
  ⟨fun i =>
    if i = 0 then ⟨0, 0, 0, 1, 0⟩
    else if i = 1 then ⟨0, 0, 0, 1, 0⟩
    else if i = 2 then ⟨-1, 0, 1, 1, 0⟩
    else if i = 3 then ⟨-1, 1, 0, 1, 0⟩
    else ⟨0, 1, 0, 0, 0⟩⟩

/-- A context for the queries: the emitters 0 and 1 have positions, and the analyzer has
a result for the position of emitter 0 only. -/
def queryContext : Context ℚ :=
  { GetAnalyzer :=
      ⟨fun pos => if pos.x = 1 then some ⟨1 / 2, 1 / 4, 3, 2, ⟨1, 0⟩, ⟨0, 1⟩⟩ else none⟩
    GetEmissionManager :=
      ⟨fun e => if e = 0 then some ⟨1, 5, 2⟩ else if e = 1 then some ⟨0, 0, 0⟩ else none⟩ }

/-! ## The open-field scenario in closed form

The values below are not part of the source: they are the snapshots of the 4 by 4
open-field scenario, which the theorems further down prove to be what the solver
computes. -/

section Tables

variable {K : Type} [Field K]

/-- A memory whose 25 grid cells are air cells (`b = 1`, `absorption = 0`) holding the
given pressures and velocities, and whose other cells are those of `halo`. -/
def tableMem (halo : Mem Int (Cell K)) (pr vx vy : Int → K) : Mem Int (Cell K) :=
  ⟨fun j => if 0 ≤ j ∧ j < 25 then
      { pr := pr j, vx := vx j, vy := vy j, b := 1, absorption := 0 }
    else halo.read j⟩

/-- A list of 25 values as a function of the cell index. -/
def tab (l : List K) : Int → K := fun j => l.getD j.toNat 0

/-- The `pr` of the 25 grid cells in the snapshots of timesteps 1 to 4 of the open-field
scenario, as polynomials in the Courant number `C`. -/
def openFieldPr (C : K) : Nat → List K
  | 1 =>
    [0, 0, 0, 0, 0, 0, 0, 0, 0, 0, 0, 0, 1, 0, 0, 0, 0, 0, 0, 0, 0, 0, 0, 0, 0]
  | 2 =>
    [0, 0, 0, 0, 0, 0, 0, C ^ 2, 0, 0, 0, C ^ 2, 1 - 4 * C ^ 2, C ^ 2, 0, 0, 0, C ^ 2, 0, 0, 0,
     0, 0, 0, 0]
  | 3 =>
    [0, 0, C ^ 4, 0, 0, 0, 2 * C ^ 4, 3 * C ^ 2 - 8 * C ^ 4, 2 * C ^ 4, 0, C ^ 4,
     3 * C ^ 2 - 8 * C ^ 4, 1 - 12 * C ^ 2 + 20 * C ^ 4, 3 * C ^ 2 - C ^ 3 - 7 * C ^ 4, C ^ 3,
     0, 2 * C ^ 4, 3 * C ^ 2 - C ^ 3 - 7 * C ^ 4, 2 * C ^ 4, 0, 0, 0, C ^ 3, 0, 0]
  | 4 =>
    [0, 3 * C ^ 6, 5 * C ^ 4 - C ^ 5 - 11 * C ^ 6, 3 * C ^ 6, 0, 3 * C ^ 6,
     10 * C ^ 4 - 24 * C ^ 6, 6 * C ^ 2 - 40 * C ^ 4 + 57 * C ^ 6,
     10 * C ^ 4 - 3 * C ^ 5 - 21 * C ^ 6, 4 * C ^ 5, 5 * C ^ 4 - C ^ 5 - 11 * C ^ 6,
     6 * C ^ 2 - 40 * C ^ 4 + 57 * C ^ 6,
     1 - 24 * C ^ 2 + 100 * C ^ 4 - 2 * C ^ 5 - 110 * C ^ 6,
     6 * C ^ 2 - 4 * C ^ 3 - 34 * C ^ 4 + 10 * C ^ 5 + 45 * C ^ 6,
     4 * C ^ 3 - C ^ 4 - 9 * C ^ 5, 3 * C ^ 6, 10 * C ^ 4 - 3 * C ^ 5 - 21 * C ^ 6,
     6 * C ^ 2 - 4 * C ^ 3 - 34 * C ^ 4 + 10 * C ^ 5 + 45 * C ^ 6,
     10 * C ^ 4 - 6 * C ^ 5 - 18 * C ^ 6, 3 * C ^ 5, 0, 3 * C ^ 5,
     4 * C ^ 3 - C ^ 4 - 9 * C ^ 5, 3 * C ^ 5, 0]
  | _ => []

/-- The `vx` of the 25 grid cells in the snapshots of timesteps 1 to 4 of the open-field
scenario, as polynomials in the Courant number `C`. -/
def openFieldVx (C : K) : Nat → List K
  | 1 =>
    [0, 0, 0, 0, 0, 0, 0, 0, 0, 0, 0, 0, -C, 0, 0, 0, 0, C, 0, 0, 0, 0, 0, 0, 0]
  | 2 =>
    [0, 0, 0, 0, 0, 0, 0, -C ^ 3, 0, 0, 0, -C ^ 3, -2 * C + 5 * C ^ 3, -C ^ 3, 0, 0, C ^ 3,
     2 * C - 5 * C ^ 3, C ^ 3, 0, 0, 0, C ^ 2, 0, 0]
  | 3 =>
    [0, 0, -C ^ 4, 0, 0, 0, -2 * C ^ 5, -4 * C ^ 3 + 9 * C ^ 5, -2 * C ^ 5, 0, -C ^ 5,
     -4 * C ^ 3 + 10 * C ^ 5, -3 * C + 20 * C ^ 3 - 28 * C ^ 5, -4 * C ^ 3 + C ^ 4 + 9 * C ^ 5,
     -C ^ 4, C ^ 5, 4 * C ^ 3 - 10 * C ^ 5, 3 * C - 20 * C ^ 3 + C ^ 4 + 27 * C ^ 5,
     4 * C ^ 3 - C ^ 4 - 9 * C ^ 5, C ^ 4, 0, 2 * C ^ 4, 3 * C ^ 2 - C ^ 3 - 7 * C ^ 4,
     2 * C ^ 4, 0]
  | 4 =>
    [0, -3 * C ^ 6, -5 * C ^ 4 + C ^ 5 + 11 * C ^ 6, -3 * C ^ 6, 0, -3 * C ^ 7,
     -12 * C ^ 5 + 27 * C ^ 7, -10 * C ^ 3 + 54 * C ^ 5 - C ^ 6 - 68 * C ^ 7,
     -12 * C ^ 5 + 3 * C ^ 6 + 24 * C ^ 7, -4 * C ^ 6, -6 * C ^ 5 + C ^ 6 + 14 * C ^ 7,
     -10 * C ^ 3 + 60 * C ^ 5 - 81 * C ^ 7,
     -4 * C + 50 * C ^ 3 - 168 * C ^ 5 + 2 * C ^ 6 + 167 * C ^ 7,
     -10 * C ^ 3 + 5 * C ^ 4 + 53 * C ^ 5 - 13 * C ^ 6 - 66 * C ^ 7,
     -5 * C ^ 4 + C ^ 5 + 13 * C ^ 6, 6 * C ^ 5 - C ^ 6 - 14 * C ^ 7,
     10 * C ^ 3 - 60 * C ^ 5 + 3 * C ^ 6 + 78 * C ^ 7,
     4 * C - 50 * C ^ 3 + 5 * C ^ 4 + 161 * C ^ 5 - 12 * C ^ 6 - 155 * C ^ 7,
     10 * C ^ 3 - 5 * C ^ 4 - 53 * C ^ 5 + 16 * C ^ 6 + 63 * C ^ 7,
     5 * C ^ 4 - C ^ 5 - 12 * C ^ 6, 3 * C ^ 6, 10 * C ^ 4 - 3 * C ^ 5 - 21 * C ^ 6,
     6 * C ^ 2 - 4 * C ^ 3 - 34 * C ^ 4 + 10 * C ^ 5 + 45 * C ^ 6,
     10 * C ^ 4 - 6 * C ^ 5 - 18 * C ^ 6, 3 * C ^ 6]
  | _ => []

/-- The `vy` of the 25 grid cells in the snapshots of timesteps 1 to 4 of the open-field
scenario, as polynomials in the Courant number `C`. -/
def openFieldVy (C : K) : Nat → List K
  | 1 =>
    [0, 0, 0, 0, 0, 0, 0, 0, 0, 0, 0, 0, -C, C, 0, 0, 0, 0, 0, 0, 0, 0, 0, 0, 0]
  | 2 =>
    [0, 0, 0, 0, 0, 0, 0, -C ^ 3, C ^ 3, 0, 0, -C ^ 3, -2 * C + 5 * C ^ 3, 2 * C - 5 * C ^ 3,
     C ^ 2, 0, 0, -C ^ 3, C ^ 3, 0, 0, 0, 0, 0, 0]
  | 3 =>
    [0, 0, -C ^ 5, C ^ 5, 0, 0, -2 * C ^ 5, -4 * C ^ 3 + 10 * C ^ 5, 4 * C ^ 3 - 10 * C ^ 5,
     2 * C ^ 4, -C ^ 4, -4 * C ^ 3 + 9 * C ^ 5, -3 * C + 20 * C ^ 3 - 28 * C ^ 5,
     3 * C - 20 * C ^ 3 + C ^ 4 + 27 * C ^ 5, 3 * C ^ 2 - C ^ 3 - 7 * C ^ 4, 0, -2 * C ^ 5,
     -4 * C ^ 3 + C ^ 4 + 9 * C ^ 5, 4 * C ^ 3 - C ^ 4 - 9 * C ^ 5, 2 * C ^ 4, 0, 0, -C ^ 4,
     C ^ 4, 0]
  | 4 =>
    [0, -3 * C ^ 7, -6 * C ^ 5 + C ^ 6 + 14 * C ^ 7, 6 * C ^ 5 - C ^ 6 - 14 * C ^ 7, 3 * C ^ 6,
     -3 * C ^ 6, -12 * C ^ 5 + 27 * C ^ 7, -10 * C ^ 3 + 60 * C ^ 5 - 81 * C ^ 7,
     10 * C ^ 3 - 60 * C ^ 5 + 3 * C ^ 6 + 78 * C ^ 7, 10 * C ^ 4 - 3 * C ^ 5 - 21 * C ^ 6,
     -5 * C ^ 4 + C ^ 5 + 11 * C ^ 6, -10 * C ^ 3 + 54 * C ^ 5 - C ^ 6 - 68 * C ^ 7,
     -4 * C + 50 * C ^ 3 - 168 * C ^ 5 + 2 * C ^ 6 + 167 * C ^ 7,
     4 * C - 50 * C ^ 3 + 5 * C ^ 4 + 161 * C ^ 5 - 12 * C ^ 6 - 155 * C ^ 7,
     6 * C ^ 2 - 4 * C ^ 3 - 34 * C ^ 4 + 10 * C ^ 5 + 45 * C ^ 6, -3 * C ^ 6,
     -12 * C ^ 5 + 3 * C ^ 6 + 24 * C ^ 7,
     -10 * C ^ 3 + 5 * C ^ 4 + 53 * C ^ 5 - 13 * C ^ 6 - 66 * C ^ 7,
     10 * C ^ 3 - 5 * C ^ 4 - 53 * C ^ 5 + 16 * C ^ 6 + 63 * C ^ 7,
     10 * C ^ 4 - 6 * C ^ 5 - 18 * C ^ 6, 3 * C ^ 6, -3 * C ^ 6,
     -5 * C ^ 4 + C ^ 5 + 12 * C ^ 6, 5 * C ^ 4 - C ^ 5 - 12 * C ^ 6, 3 * C ^ 6]
  | _ => []

end Tables

/-! ## Memory and loops -/

theorem Mem.ext {ι α : Type} {a b : Mem ι α} (h : ∀ j, a.read j = b.read j) : a = b := by
  cases a; cases b; congr; funext j; exact h j

theorem Mem.read_write {ι α : Type} [DecidableEq ι] (a : Mem ι α) (i j : ι) (v : α) :
    (a.write i v).read j = if j = i then v else a.read j := rfl

theorem forLoop_zero {σ : Type} (n : Nat) (body : Nat → σ → σ) (s : σ) :
    forLoop 0 n body s = forUpTo body n s := by
  unfold forLoop
  have h : (fun k => body (0 + k)) = body := by funext k; rw [Nat.zero_add]
  rw [h, Nat.sub_zero]

/-- A loop computes `spec n` when `spec` follows the iterations one by one. -/
theorem forUpTo_eq_spec {σ : Type} (body : Nat → σ → σ) (spec : Nat → σ) (n : Nat) (s : σ)
    (h0 : spec 0 = s) (hs : ∀ k, k < n → body k (spec k) = spec (k + 1)) :
    forUpTo body n s = spec n := by
  induction n with
  | zero => exact h0.symm
  | succ n ih =>
    have h := ih (fun k hk => hs k (Nat.lt_succ_of_lt hk))
    show body n (forUpTo body n s) = spec (n + 1)
    rw [h]
    exact hs n (Nat.lt_succ_self n)

/-- A property kept by every iteration is kept by the loop. -/
theorem forUpTo_invariant {σ : Type} (P : σ → Prop) (body : Nat → σ → σ) (n : Nat) (s : σ)
    (h0 : P s) (hs : ∀ k s, k < n → P s → P (body k s)) : P (forUpTo body n s) := by
  induction n with
  | zero => exact h0
  | succ n ih =>
    exact hs n _ (Nat.lt_succ_self n) (ih (fun k s hk => hs k s (Nat.lt_succ_of_lt hk)))

/-- A loop whose body stores `f m i` in cell `i` is a simultaneous update with `f`,
provided the value computed for cell `k` is not affected by the stores of the earlier
iterations. -/
theorem sweep_eq {α : Type} (f : Mem Int α → Int → α) (lo hi : Nat) (m : Mem Int α)
    (hf : ∀ k : Nat, lo ≤ k → k < hi →
      f ⟨fun j => if (lo : Int) ≤ j ∧ j < (k : Int) then f m j else m.read j⟩ k = f m k) :
    forLoop lo hi (fun i m => m.write (i : Int) (f m i)) m
      = ⟨fun j => if (lo : Int) ≤ j ∧ j < (hi : Int) then f m j else m.read j⟩ := by
  unfold forLoop
  rcases Nat.lt_or_ge lo hi with hlt | hge
  · have key := forUpTo_eq_spec (fun k m => m.write ((lo + k : Nat) : Int) (f m (lo + k : Nat)))
      (fun k => (⟨fun j => if (lo : Int) ≤ j ∧ j < ((lo + k : Nat) : Int) then f m j
        else m.read j⟩ : Mem Int α)) (hi - lo) m
      (by
        apply Mem.ext; intro j
        have : ¬ ((lo : Int) ≤ j ∧ j < ((lo + 0 : Nat) : Int)) := by
          intro h; have := h.1; have := h.2; simp at *; omega
        simp only [if_neg this])
      (by
        intro k hk
        apply Mem.ext; intro j
        rw [Mem.read_write, hf (lo + k) (Nat.le_add_right lo k) (by omega)]
        by_cases hj : j = ((lo + k : Nat) : Int)
        · subst hj
          have : (lo : Int) ≤ ((lo + k : Nat) : Int) ∧
              ((lo + k : Nat) : Int) < ((lo + (k + 1) : Nat) : Int) := by
            constructor <;> push_cast <;> omega
          simp only [if_true, if_pos this]
        · have hiff : ((lo : Int) ≤ j ∧ j < ((lo + (k + 1) : Nat) : Int)) ↔
              ((lo : Int) ≤ j ∧ j < ((lo + k : Nat) : Int)) := by
            push_cast at hj ⊢; constructor <;> intro h <;> constructor <;> omega
          simp only [if_neg hj, hiff])
    rw [key]
    have : lo + (hi - lo) = hi := by omega
    show (⟨fun j => if (lo : Int) ≤ j ∧ j < ((lo + (hi - lo) : Nat) : Int) then f m j
        else m.read j⟩ : Mem Int α) = _
    rw [this]
  · have h0 : hi - lo = 0 := by omega
    rw [h0]
    apply Mem.ext; intro j
    have : ¬ ((lo : Int) ≤ j ∧ j < (hi : Int)) := by
      intro h; have := h.1; have := h.2; omega
    simp only [if_neg this]
    rfl

theorem readField_congr {α : Type} (m : Mem Int α) {i j : Int} (h : i = j) :
    m.read i = m.read j := by
  rw [h]

theorem exists_lt_succ_iff (k : Nat) (P : Nat → Prop) :
    (∃ i : Nat, i < k + 1 ∧ P i) ↔ ((∃ i : Nat, i < k ∧ P i) ∨ P k) := by
  constructor
  · rintro ⟨i, hi, hp⟩
    rcases Nat.lt_succ_iff_lt_or_eq.mp hi with h | h
    · exact Or.inl ⟨i, h, hp⟩
    · subst h; exact Or.inr hp
  · rintro (⟨i, hi, hp⟩ | hp)
    · exact ⟨i, Nat.lt_succ_of_lt hi, hp⟩
    · exact ⟨k, Nat.lt_succ_self k, hp⟩

/-- The last cell of row `i` lies before the first cell of any later row `k`. -/
theorem row_lt (gridy i k : Nat) (h : i < k) :
    (i : Int) * (gridy + 1) + gridy < (k : Int) * (gridy + 1) := by
  have h1 : (i : Int) + 1 ≤ k := by exact_mod_cast h
  have h2 : (0 : Int) ≤ gridy := Int.natCast_nonneg gridy
  nlinarith

section Phases

variable {K : Type} [Field K]

/-! ## Every loop of a timestep is a simultaneous update -/

theorem velocityUpdate_congr (Courant : K) (p p' c c' : Cell K) (v : K)
    (hp : p'.pr = p.pr ∧ p'.b = p.b ∧ p'.absorption = p.absorption)
    (hc : c'.pr = c.pr ∧ c'.b = c.b ∧ c'.absorption = c.absorption) :
    velocityUpdate Courant p' c' v = velocityUpdate Courant p c v := by
  unfold velocityUpdate
  rw [hp.1, hp.2.1, hp.2.2, hc.1, hc.2.1, hc.2.2]

theorem resetLoop_eq (gridx gridy : Nat) (m : Mem Int (Cell K)) :
    forLoop 0 ((gridx + 1) * (gridy + 1)) resetBody m = resetSimultaneous gridx gridy m := by
  have h := sweep_eq (fun (m : Mem Int (Cell K)) i => resetCell (m.read i)) 0
    ((gridx + 1) * (gridy + 1)) m (by
      intro k _ _
      have : ¬ (((0 : Nat) : Int) ≤ (k : Int) ∧ (k : Int) < (k : Int)) := by omega
      simp only [if_neg this])
  exact h

theorem pressureLoop_eq (Courant : K) (gridx gridy : Nat) (m : Mem Int (Cell K)) :
    forLoop 0 ((gridx + 1) * (gridy + 1)) (pressureBody Courant gridy) m
      = pressureSimultaneous Courant gridx gridy m := by
  have h := sweep_eq (fun (m : Mem Int (Cell K)) i => pressureCell Courant gridy m i) 0
    ((gridx + 1) * (gridy + 1)) m (by
      intro k _ _
      have h1 : ¬ (((0 : Nat) : Int) ≤ (k : Int) ∧ (k : Int) < (k : Int)) := by omega
      have h2 : ¬ (((0 : Nat) : Int) ≤ (k : Int) + gridy + 1 ∧
          (k : Int) + gridy + 1 < (k : Int)) := by omega
      have h3 : ¬ (((0 : Nat) : Int) ≤ (k : Int) + 1 ∧ (k : Int) + 1 < (k : Int)) := by omega
      simp only [pressureCell, if_neg h1, if_neg h2, if_neg h3])
  exact h

theorem vxLoop_eq (Courant : K) (gridx gridy : Nat) (m : Mem Int (Cell K)) :
    forLoop (gridy + 1) ((gridx + 1) * (gridy + 1)) (vxBody Courant gridy) m
      = vxSimultaneous Courant gridx gridy m := by
  have h := sweep_eq (fun (m : Mem Int (Cell K)) i => vxCell Courant gridy m i) (gridy + 1)
    ((gridx + 1) * (gridy + 1)) m (by
      intro k _ _
      have h1 : ¬ (((gridy + 1 : Nat) : Int) ≤ (k : Int) ∧ (k : Int) < (k : Int)) := by omega
      simp only [vxCell, if_neg h1]
      congr 1
      apply velocityUpdate_congr
      · split_ifs <;> simp
      · simp)
  exact h

theorem vyLoop_eq (Courant : K) (gridx gridy : Nat) (m : Mem Int (Cell K)) :
    forLoop 1 ((gridx + 1) * (gridy + 1)) (vyBody Courant) m
      = vySimultaneous Courant gridx gridy m := by
  have h := sweep_eq (fun (m : Mem Int (Cell K)) i => vyCell Courant m i) 1
    ((gridx + 1) * (gridy + 1)) m (by
      intro k _ _
      have h1 : ¬ (((1 : Nat) : Int) ≤ (k : Int) ∧ (k : Int) < (k : Int)) := by omega
      simp only [vyCell, if_neg h1]
      congr 1
      apply velocityUpdate_congr
      · split_ifs <;> simp
      · simp)
  exact h

theorem absorbTopBottom_step (gridx gridy k : Nat) (hk : k < gridy) (m : Mem Int (Cell K)) :
    absorbTopBottomBody gridx gridy k (absorbTopBottomSimultaneous gridx gridy k m)
      = absorbTopBottomSimultaneous gridx gridy (k + 1) m := by
  have hX : (gridx : Int) * (gridy + 1) = 0 ∨
      (gridy : Int) + 1 ≤ (gridx : Int) * (gridy + 1) := by
    rcases Nat.eq_zero_or_pos gridx with h | h
    · left; simp [h]
    · right
      have : (1 : Int) ≤ gridx := by exact_mod_cast h
      nlinarith
  apply Mem.ext; intro j
  simp only [absorbTopBottomBody, absorbTopBottomSimultaneous, Mem.read_write]
  generalize (gridx : Int) * ((gridy : Int) + 1) = X at hX ⊢
  have hk' : (k : Int) < gridy := by exact_mod_cast hk
  push_cast
  split_ifs <;> first | omega | rfl | skip
  all_goals
    simp only [Cell.mk.injEq]
    refine ⟨?_, ?_, ?_, ?_, ?_⟩ <;>
      first
      | rfl
      | (rw [readField_congr m (show j = (k : Int) by omega)])
      | (rw [readField_congr m (show j = X + (k : Int) by omega)])
      | (rw [readField_congr m (show (k : Int) = X + k by omega)])
      | (rw [readField_congr m (show X + (k : Int) - gridy - 1 = j - gridy - 1 by omega)])
      | (rw [readField_congr m (show (k : Int) = j - gridy - 1 by omega)])

theorem absorbTopBottomLoop_eq (gridx gridy : Nat) (m : Mem Int (Cell K)) :
    forLoop 0 gridy (absorbTopBottomBody gridx gridy) m
      = absorbTopBottomSimultaneous gridx gridy gridy m := by
  rw [forLoop_zero]
  apply forUpTo_eq_spec (absorbTopBottomBody gridx gridy)
    (fun k => absorbTopBottomSimultaneous gridx gridy k m)
  · apply Mem.ext; intro j
    have h1 : ¬ ((gridx : Int) * (gridy + 1) ≤ j ∧
        j < (gridx : Int) * (gridy + 1) + ((0 : Nat) : Int)) := by
      intro h; have := h.1; have := h.2; omega
    have h2 : ¬ (0 ≤ j ∧ j < ((0 : Nat) : Int)) := by
      intro h; have := h.1; have := h.2; omega
    simp only [absorbTopBottomSimultaneous, if_neg h1, if_neg h2]
  · intro k hk
    exact absorbTopBottom_step gridx gridy k hk m

theorem absorbLeftRightBody_read (gridy k : Nat) (M : Mem Int (Cell K)) (j : Int) :
    (absorbLeftRightBody gridy k M).read j =
      if j = (k : Int) * (gridy + 1) + gridy then
        { M.read j with vy := (M.read (j - 1)).pr }
      else if j = (k : Int) * (gridy + 1) then { M.read j with vy := -(M.read j).pr }
      else M.read j := by
  simp only [absorbLeftRightBody, Mem.read_write]
  generalize (k : Int) * ((gridy : Int) + 1) = Y
  split_ifs <;> first | omega | rfl | skip
  all_goals
    simp only [Cell.mk.injEq]
    refine ⟨?_, ?_, ?_, ?_, ?_⟩ <;>
      first
      | rfl
      | (rw [readField_congr M (show j = Y by omega)])
      | (rw [readField_congr M (show j = Y + (gridy : Int) by omega)])
      | (rw [readField_congr M (show Y = Y + (gridy : Int) by omega)])
      | (rw [readField_congr M (show Y + (gridy : Int) - 1 = j - 1 by omega)])
      | (rw [readField_congr M (show Y = j - 1 by omega)])

theorem absorbLeftRightSimultaneous_pr (gridy k : Nat) (m : Mem Int (Cell K)) (j : Int) :
    ((absorbLeftRightSimultaneous gridy k m).read j).pr = (m.read j).pr := by
  simp only [absorbLeftRightSimultaneous]
  split_ifs <;> rfl

theorem absorbLeftRight_step (gridy k : Nat) (m : Mem Int (Cell K)) :
    absorbLeftRightBody gridy k (absorbLeftRightSimultaneous gridy k m)
      = absorbLeftRightSimultaneous gridy (k + 1) m := by
  have hg : (0 : Int) ≤ gridy := Int.natCast_nonneg gridy
  have n1 : ∀ d : Int, 0 ≤ d → d ≤ gridy →
      ¬ ∃ i : Nat, i < k ∧ (k : Int) * (gridy + 1) + d = (i : Int) * (gridy + 1) + gridy := by
    rintro d hd _ ⟨i, hi, he⟩
    have := row_lt gridy i k hi
    omega
  have n2 : ∀ d : Int, 0 ≤ d → d ≤ gridy →
      ¬ ∃ i : Nat, i < k ∧ (k : Int) * (gridy + 1) + d = (i : Int) * (gridy + 1) := by
    rintro d hd _ ⟨i, hi, he⟩
    have := row_lt gridy i k hi
    omega
  have a1 := n1 0 (le_refl 0) hg
  have a2 := n2 0 (le_refl 0) hg
  have b1 := n1 gridy hg (le_refl _)
  have b2 := n2 gridy hg (le_refl _)
  rw [add_zero] at a1 a2
  apply Mem.ext; intro j
  rw [absorbLeftRightBody_read, absorbLeftRightSimultaneous_pr]
  simp only [absorbLeftRightSimultaneous,
    exists_lt_succ_iff k (fun i => j = (i : Int) * (gridy + 1) + gridy),
    exists_lt_succ_iff k (fun i => j = (i : Int) * (gridy + 1))]
  by_cases h2 : j = (k : Int) * (gridy + 1) + gridy
  · subst h2
    simp only [b1, b2, if_true, or_true, if_false]
  · by_cases h1 : j = (k : Int) * (gridy + 1)
    · subst h1
      simp only [a1, a2, h2, if_true, or_true, if_false, or_false, or_self]
    · simp only [h1, h2, or_false, if_false]

theorem absorbLeftRightLoop_eq (gridx gridy : Nat) (m : Mem Int (Cell K)) :
    forLoop 0 gridx (absorbLeftRightBody gridy) m
      = absorbLeftRightSimultaneous gridy gridx m := by
  rw [forLoop_zero]
  apply forUpTo_eq_spec (absorbLeftRightBody gridy)
    (fun k => absorbLeftRightSimultaneous gridy k m)
  · apply Mem.ext; intro j
    have h1 : ¬ ∃ i : Nat, i < 0 ∧ j = (i : Int) * (gridy + 1) + gridy := by
      rintro ⟨i, hi, _⟩; exact Nat.not_lt_zero i hi
    have h2 : ¬ ∃ i : Nat, i < 0 ∧ j = (i : Int) * (gridy + 1) := by
      rintro ⟨i, hi, _⟩; exact Nat.not_lt_zero i hi
    simp only [absorbLeftRightSimultaneous, if_neg h1, if_neg h2]
  · intro k _
    exact absorbLeftRight_step gridy k m

/-- The four update phases of a timestep are five simultaneous updates in a row. -/
theorem updatePhases_eq (Courant : K) (gridx gridy : Nat) (m : Mem Int (Cell K)) :
    updatePhases Courant gridx gridy m
      = absorbLeftRightSimultaneous gridy gridx
          (absorbTopBottomSimultaneous gridx gridy gridy
            (vySimultaneous Courant gridx gridy
              (vxSimultaneous Courant gridx gridy
                (pressureSimultaneous Courant gridx gridy m)))) := by
  unfold updatePhases
  simp only [pressureLoop_eq, vxLoop_eq, vyLoop_eq, absorbTopBottomLoop_eq,
    absorbLeftRightLoop_eq]

theorem loopSize_cast (gridx gridy : Nat) :
    (((gridx + 1) * (gridy + 1) : Nat) : Int) = (gridx : Int) * (gridy + 1) + gridy + 1 := by
  push_cast; ring

theorem pressureSimultaneous_frame (Courant : K) (gridx gridy : Nat) (m : Mem Int (Cell K))
    (j : Int) :
    ((pressureSimultaneous Courant gridx gridy m).read j).vx = (m.read j).vx ∧
    ((pressureSimultaneous Courant gridx gridy m).read j).vy = (m.read j).vy ∧
    ((pressureSimultaneous Courant gridx gridy m).read j).b = (m.read j).b ∧
    ((pressureSimultaneous Courant gridx gridy m).read j).absorption = (m.read j).absorption := by
  simp only [pressureSimultaneous, pressureCell]
  split_ifs <;> exact ⟨rfl, rfl, rfl, rfl⟩

theorem vxSimultaneous_frame (Courant : K) (gridx gridy : Nat) (m : Mem Int (Cell K))
    (j : Int) :
    ((vxSimultaneous Courant gridx gridy m).read j).pr = (m.read j).pr ∧
    ((vxSimultaneous Courant gridx gridy m).read j).vy = (m.read j).vy ∧
    ((vxSimultaneous Courant gridx gridy m).read j).b = (m.read j).b ∧
    ((vxSimultaneous Courant gridx gridy m).read j).absorption = (m.read j).absorption := by
  simp only [vxSimultaneous, vxCell]
  split_ifs <;> exact ⟨rfl, rfl, rfl, rfl⟩

theorem vySimultaneous_frame (Courant : K) (gridx gridy : Nat) (m : Mem Int (Cell K))
    (j : Int) :
    ((vySimultaneous Courant gridx gridy m).read j).pr = (m.read j).pr ∧
    ((vySimultaneous Courant gridx gridy m).read j).vx = (m.read j).vx ∧
    ((vySimultaneous Courant gridx gridy m).read j).b = (m.read j).b ∧
    ((vySimultaneous Courant gridx gridy m).read j).absorption = (m.read j).absorption := by
  simp only [vySimultaneous, vyCell]
  split_ifs <;> exact ⟨rfl, rfl, rfl, rfl⟩

theorem absorbTopBottomSimultaneous_frame (gridx gridy k : Nat) (m : Mem Int (Cell K))
    (j : Int) :
    ((absorbTopBottomSimultaneous gridx gridy k m).read j).pr = (m.read j).pr ∧
    ((absorbTopBottomSimultaneous gridx gridy k m).read j).vy = (m.read j).vy ∧
    ((absorbTopBottomSimultaneous gridx gridy k m).read j).b = (m.read j).b ∧
    ((absorbTopBottomSimultaneous gridx gridy k m).read j).absorption
      = (m.read j).absorption := by
  simp only [absorbTopBottomSimultaneous]
  split_ifs <;> exact ⟨rfl, rfl, rfl, rfl⟩

theorem absorbLeftRightSimultaneous_frame (gridy k : Nat) (m : Mem Int (Cell K)) (j : Int) :
    ((absorbLeftRightSimultaneous gridy k m).read j).pr = (m.read j).pr ∧
    ((absorbLeftRightSimultaneous gridy k m).read j).vx = (m.read j).vx ∧
    ((absorbLeftRightSimultaneous gridy k m).read j).b = (m.read j).b ∧
    ((absorbLeftRightSimultaneous gridy k m).read j).absorption = (m.read j).absorption := by
  simp only [absorbLeftRightSimultaneous]
  split_ifs <;> exact ⟨rfl, rfl, rfl, rfl⟩

/-- The update phases leave the rigidity and the absorption of every cell alone. -/
theorem updatePhases_static (Courant : K) (gridx gridy : Nat) (m : Mem Int (Cell K))
    (j : Int) :
    ((updatePhases Courant gridx gridy m).read j).b = (m.read j).b ∧
    ((updatePhases Courant gridx gridy m).read j).absorption = (m.read j).absorption := by
  rw [updatePhases_eq]
  constructor
  · rw [(absorbLeftRightSimultaneous_frame _ _ _ _).2.2.1,
      (absorbTopBottomSimultaneous_frame _ _ _ _ _).2.2.1,
      (vySimultaneous_frame _ _ _ _ _).2.2.1, (vxSimultaneous_frame _ _ _ _ _).2.2.1,
      (pressureSimultaneous_frame _ _ _ _ _).2.2.1]
  · rw [(absorbLeftRightSimultaneous_frame _ _ _ _).2.2.2,
      (absorbTopBottomSimultaneous_frame _ _ _ _ _).2.2.2,
      (vySimultaneous_frame _ _ _ _ _).2.2.2, (vxSimultaneous_frame _ _ _ _ _).2.2.2,
      (pressureSimultaneous_frame _ _ _ _ _).2.2.2]

/-- The pressure recorded for a cell is the one the pressure loop gave it. -/
theorem updatePhases_pr (Courant : K) (gridx gridy : Nat) (m : Mem Int (Cell K)) (j : Int) :
    ((updatePhases Courant gridx gridy m).read j).pr
      = ((pressureSimultaneous Courant gridx gridy m).read j).pr := by
  rw [updatePhases_eq, (absorbLeftRightSimultaneous_frame _ _ _ _).1,
    (absorbTopBottomSimultaneous_frame _ _ _ _ _).1, (vySimultaneous_frame _ _ _ _ _).1,
    (vxSimultaneous_frame _ _ _ _ _).1]

/-- The update phases store only in cells of the grid. -/
theorem updatePhases_outside (Courant : K) (gridx gridy : Nat) (m : Mem Int (Cell K))
    (j : Int) (hj : j < 0 ∨ (((gridx + 1) * (gridy + 1) : Nat) : Int) ≤ j) :
    (updatePhases Courant gridx gridy m).read j = m.read j := by
  have hN := loopSize_cast gridx gridy
  have hX : (0 : Int) ≤ (gridx : Int) * (gridy + 1) := by positivity
  have c1 : ¬ (0 ≤ j ∧ j < (((gridx + 1) * (gridy + 1) : Nat) : Int)) := by
    intro h; have := h.1; have := h.2; omega
  have c2 : ¬ (((gridy + 1 : Nat) : Int) ≤ j ∧ j < (((gridx + 1) * (gridy + 1) : Nat) : Int)) := by
    intro h; have := h.1; have := h.2; push_cast at *; omega
  have c3 : ¬ (1 ≤ j ∧ j < (((gridx + 1) * (gridy + 1) : Nat) : Int)) := by
    intro h; have := h.1; have := h.2; omega
  have c4 : ¬ ((gridx : Int) * (gridy + 1) ≤ j ∧ j < (gridx : Int) * (gridy + 1) + (gridy : Nat)) := by
    intro h; have := h.1; have := h.2; omega
  have c5 : ¬ (0 ≤ j ∧ j < ((gridy : Nat) : Int)) := by
    intro h; have := h.1; have := h.2; omega
  have c6 : ¬ ∃ i : Nat, i < gridx ∧ j = (i : Int) * (gridy + 1) + gridy := by
    rintro ⟨i, hi, he⟩
    have := row_lt gridy i gridx hi
    have : (0 : Int) ≤ (i : Int) * (gridy + 1) := by positivity
    omega
  have c7 : ¬ ∃ i : Nat, i < gridx ∧ j = (i : Int) * (gridy + 1) := by
    rintro ⟨i, hi, he⟩
    have := row_lt gridy i gridx hi
    have : (0 : Int) ≤ (i : Int) * (gridy + 1) := by positivity
    omega
  rw [updatePhases_eq]
  simp only [absorbLeftRightSimultaneous, absorbTopBottomSimultaneous, vySimultaneous,
    vxSimultaneous, pressureSimultaneous, if_neg c1, if_neg c2, if_neg c3, if_neg c4, if_neg c5,
    if_neg c6, if_neg c7]
/-! ## The time loop -/

omit [Field K] in
theorem recordLoop_eq (t n : Nat) (m : Mem Int (Cell K)) (r : Mem Int (Mem Nat (Cell K))) :
    forLoop 0 n (recordBody t m) r
      = ⟨fun i => if 0 ≤ i ∧ i < (n : Int) then (r.read i).write t (m.read i) else r.read i⟩ := by
  have h := sweep_eq (fun (r : Mem Int (Mem Nat (Cell K))) i => (r.read i).write t (m.read i)) 0
    n r (by
      intro k _ _
      have : ¬ (((0 : Nat) : Int) ≤ (k : Int) ∧ (k : Int) < (k : Int)) := by omega
      simp only [if_neg this])
  exact h

/-- The state of the grid after the first `n` iterations of the time loop. -/
theorem timeLoop_state (Courant : K) (gridx gridy : Nat) (listenerPos : Int) (n : Nat)
    (g0 : Grid K) :
    (forUpTo (timeStep Courant gridx gridy listenerPos) n g0).m_pulse = g0.m_pulse ∧
    (forUpTo (timeStep Courant gridx gridy listenerPos) n g0).WorldToGrid = g0.WorldToGrid ∧
    (forUpTo (timeStep Courant gridx gridy listenerPos) n g0).m_grid
      = gridBefore Courant gridx gridy listenerPos g0.m_pulse g0.m_grid n ∧
    ∀ (i : Int) (t : Nat),
      ((forUpTo (timeStep Courant gridx gridy listenerPos) n g0).m_pulseResponse.read i).read t
        = if 0 ≤ i ∧ i < (((gridx + 1) * (gridy + 1) : Nat) : Int) ∧ t < n then
            (gridRecorded Courant gridx gridy listenerPos g0.m_pulse g0.m_grid t).read i
          else (g0.m_pulseResponse.read i).read t := by
  induction n with
  | zero =>
    refine ⟨rfl, rfl, rfl, ?_⟩
    intro i t
    have : ¬ (0 ≤ i ∧ i < (((gridx + 1) * (gridy + 1) : Nat) : Int) ∧ t < 0) := by
      intro h; exact Nat.not_lt_zero t h.2.2
    rw [if_neg this]
    rfl
  | succ n ih =>
    obtain ⟨h1, h2, h3, h4⟩ := ih
    refine ⟨?_, ?_, ?_, ?_⟩
    · show (timeStep Courant gridx gridy listenerPos n _).m_pulse = _
      simp only [timeStep, h1]
    · show (timeStep Courant gridx gridy listenerPos n _).WorldToGrid = _
      simp only [timeStep, h2]
    · show (timeStep Courant gridx gridy listenerPos n _).m_grid = _
      simp only [timeStep, h1, h3, gridBefore]
    · intro i t
      show ((timeStep Courant gridx gridy listenerPos n _).m_pulseResponse.read i).read t = _
      simp only [timeStep, recordLoop_eq, h3]
      by_cases hi : 0 ≤ i ∧ i < (((gridx + 1) * (gridy + 1) : Nat) : Int)
      · rw [if_pos hi, Mem.read_write, h4]
        by_cases ht : t = n
        · subst ht
          have : 0 ≤ i ∧ i < (((gridx + 1) * (gridy + 1) : Nat) : Int) ∧ t < t + 1 :=
            ⟨hi.1, hi.2, Nat.lt_succ_self t⟩
          rw [if_pos rfl, if_pos this]
          rfl
        · rw [if_neg ht]
          have hiff : (0 ≤ i ∧ i < (((gridx + 1) * (gridy + 1) : Nat) : Int) ∧ t < n + 1) ↔
              (0 ≤ i ∧ i < (((gridx + 1) * (gridy + 1) : Nat) : Int) ∧ t < n) := by
            constructor <;> rintro ⟨a, b, c⟩ <;> exact ⟨a, b, by omega⟩
          simp only [hiff]
      · rw [if_neg hi, h4]
        have n1 : ¬ (0 ≤ i ∧ i < (((gridx + 1) * (gridy + 1) : Nat) : Int) ∧ t < n) :=
          fun h => hi ⟨h.1, h.2.1⟩
        have n2 : ¬ (0 ≤ i ∧ i < (((gridx + 1) * (gridy + 1) : Nat) : Int) ∧ t < n + 1) :=
          fun h => hi ⟨h.1, h.2.1⟩
        rw [if_neg n1, if_neg n2]

/-- What `GenerateResponseCPU` leaves in the response cube: the entries `(i, t)` of the
grid cells `i` and the timesteps `t` of the run hold the snapshots, all others are kept. -/
theorem GenerateResponseCPU_response (gl : Globals K) (listener : vec3 K) (g : Grid K)
    (i : Int) (t : Nat) :
    ((GenerateResponseCPU gl listener g).m_pulseResponse.read i).read t
      = if 0 ≤ i ∧ i < (((gl.gridSizeX + 1) * (gl.gridSizeY + 1) : Nat) : Int) ∧
            t < gl.responseSampleLength then
          (snapshotCPU gl listener g t).read i
        else (g.m_pulseResponse.read i).read t := by
  unfold GenerateResponseCPU snapshotCPU
  simp only [forLoop_zero]
  exact (timeLoop_state _ _ _ _ _ _).2.2.2 i t

theorem velocityUpdate_zero (Courant : K) (p c : Cell K) (hp : p.pr = 0) (hc : c.pr = 0) :
    velocityUpdate Courant p c 0 = 0 := by
  simp only [velocityUpdate, hp, hc]
  ring

theorem updatePhases_allZero (Courant : K) (gridx gridy : Nat) (m : Mem Int (Cell K))
    (h : AllZero m) : AllZero (updatePhases Courant gridx gridy m) := by
  rw [updatePhases_eq]
  have h1 : AllZero (pressureSimultaneous Courant gridx gridy m) := by
    intro j
    obtain ⟨a, b, c⟩ := h j
    have hx := (h (j + gridy + 1)).2.1
    have hy := (h (j + 1)).2.2
    simp only [pressureSimultaneous, pressureCell]
    split_ifs
    · refine ⟨?_, b, c⟩
      simp only [a, b, c, hx, hy]
      ring
    · exact ⟨a, b, c⟩
  have h2 : AllZero (vxSimultaneous Courant gridx gridy
      (pressureSimultaneous Courant gridx gridy m)) := by
    intro j
    obtain ⟨a, b, c⟩ := h1 j
    simp only [vxSimultaneous, vxCell]
    split_ifs
    · refine ⟨a, ?_, c⟩
      simp only [b]
      exact velocityUpdate_zero _ _ _ (h1 _).1 a
    · exact ⟨a, b, c⟩
  have h3 : AllZero (vySimultaneous Courant gridx gridy (vxSimultaneous Courant gridx gridy
      (pressureSimultaneous Courant gridx gridy m))) := by
    intro j
    obtain ⟨a, b, c⟩ := h2 j
    simp only [vySimultaneous, vyCell]
    split_ifs
    · refine ⟨a, b, ?_⟩
      simp only [c]
      exact velocityUpdate_zero _ _ _ (h2 _).1 a
    · exact ⟨a, b, c⟩
  have h4 : AllZero (absorbTopBottomSimultaneous gridx gridy gridy
      (vySimultaneous Courant gridx gridy (vxSimultaneous Courant gridx gridy
      (pressureSimultaneous Courant gridx gridy m)))) := by
    intro j
    obtain ⟨a, b, c⟩ := h3 j
    simp only [absorbTopBottomSimultaneous]
    split_ifs
    · exact ⟨a, (h3 _).1, c⟩
    · exact ⟨a, by simp only [a, neg_zero], c⟩
    · exact ⟨a, b, c⟩
  intro j
  obtain ⟨a, b, c⟩ := h4 j
  simp only [absorbLeftRightSimultaneous]
  split_ifs
  · exact ⟨a, b, (h4 _).1⟩
  · exact ⟨a, b, by simp only [a, neg_zero]⟩
  · exact ⟨a, b, c⟩

theorem injectPulse_read (listenerPos : Int) (p : K) (m : Mem Int (Cell K)) (j : Int) :
    (injectPulse listenerPos p m).read j
      = if j = listenerPos then { m.read j with pr := (m.read j).pr + p } else m.read j := by
  simp only [injectPulse, Mem.read_write]
  split_ifs with h
  · subst h; rfl
  · rfl

theorem injectPulse_allZero (listenerPos : Int) (m : Mem Int (Cell K)) (h : AllZero m) :
    AllZero (injectPulse listenerPos 0 m) := by
  intro j
  obtain ⟨a, b, c⟩ := h j
  rw [injectPulse_read]
  split_ifs
  · exact ⟨by simp only [a, add_zero], b, c⟩
  · exact ⟨a, b, c⟩

theorem gridBefore_allZero (Courant : K) (gridx gridy : Nat) (listenerPos : Int)
    (pulse : Nat → K) (m0 : Mem Int (Cell K)) (h : AllZero m0) (n : Nat)
    (hp : ∀ t, t < n → pulse t = 0) :
    AllZero (gridBefore Courant gridx gridy listenerPos pulse m0 n) := by
  induction n with
  | zero => exact h
  | succ n ih =>
    simp only [gridBefore]
    rw [hp n (Nat.lt_succ_self n)]
    exact injectPulse_allZero _ _
      (updatePhases_allZero _ _ _ _ (ih (fun t ht => hp t (Nat.lt_succ_of_lt ht))))

theorem reset_allZero (gridx gridy : Nat) (m : Mem Int (Cell K))
    (hout : ∀ j : Int, (j < 0 ∨ (((gridx + 1) * (gridy + 1) : Nat) : Int) ≤ j) →
      (m.read j).pr = 0 ∧ (m.read j).vx = 0 ∧ (m.read j).vy = 0) :
    AllZero (forLoop 0 ((gridx + 1) * (gridy + 1)) resetBody m) := by
  rw [resetLoop_eq]
  intro j
  simp only [resetSimultaneous]
  split_ifs with hj
  · exact ⟨rfl, rfl, rfl⟩
  · apply hout
    by_contra hc
    apply hj
    constructor <;> omega

/-- Silence of a run whose excitation is zero, for pressure and velocities. -/
theorem snapshotCPU_allZero (gl : Globals K) (listener : vec3 K) (g : Grid K)
    (hpulse : ∀ t, t < gl.responseSampleLength → g.m_pulse t = 0)
    (hout : ∀ j : Int, (j < 0 ∨ (((gl.gridSizeX + 1) * (gl.gridSizeY + 1) : Nat) : Int) ≤ j) →
      (g.m_grid.read j).pr = 0 ∧ (g.m_grid.read j).vx = 0 ∧ (g.m_grid.read j).vy = 0)
    (t : Nat) (ht : t < gl.responseSampleLength) :
    AllZero (snapshotCPU gl listener g t) := by
  unfold snapshotCPU gridRecorded
  apply updatePhases_allZero
  apply gridBefore_allZero _ _ _ _ _ _ (reset_allZero _ _ _ hout)
  intro s hs
  exact hpulse s (by omega)

theorem gridBefore_static (Courant : K) (gridx gridy : Nat) (listenerPos : Int)
    (pulse : Nat → K) (m0 : Mem Int (Cell K)) (n : Nat) (j : Int) :
    ((gridBefore Courant gridx gridy listenerPos pulse m0 n).read j).b = (m0.read j).b ∧
    ((gridBefore Courant gridx gridy listenerPos pulse m0 n).read j).absorption
      = (m0.read j).absorption := by
  induction n with
  | zero => exact ⟨rfl, rfl⟩
  | succ n ih =>
    simp only [gridBefore]
    rw [injectPulse_read]
    have h := updatePhases_static Courant gridx gridy
      (gridBefore Courant gridx gridy listenerPos pulse m0 n) j
    split_ifs
    · exact ⟨h.1.trans ih.1, h.2.trans ih.2⟩
    · exact ⟨h.1.trans ih.1, h.2.trans ih.2⟩

theorem reset_static (gridx gridy : Nat) (m : Mem Int (Cell K)) (j : Int) :
    ((forLoop 0 ((gridx + 1) * (gridy + 1)) resetBody m).read j).b = (m.read j).b ∧
    ((forLoop 0 ((gridx + 1) * (gridy + 1)) resetBody m).read j).absorption
      = (m.read j).absorption := by
  rw [resetLoop_eq]
  simp only [resetSimultaneous]
  split_ifs <;> exact ⟨rfl, rfl⟩

/-- Rigidity and absorption in a snapshot are those the cell had before the call. -/
theorem snapshotCPU_static (gl : Globals K) (listener : vec3 K) (g : Grid K) (t : Nat)
    (j : Int) :
    ((snapshotCPU gl listener g t).read j).b = (g.m_grid.read j).b ∧
    ((snapshotCPU gl listener g t).read j).absorption = (g.m_grid.read j).absorption := by
  unfold snapshotCPU gridRecorded
  have h1 := updatePhases_static (courant gl) gl.gridSizeX gl.gridSizeY
    (gridBefore (courant gl) gl.gridSizeX gl.gridSizeY (listenerIndex gl g listener) g.m_pulse
      (forLoop 0 ((gl.gridSizeX + 1) * (gl.gridSizeY + 1)) resetBody g.m_grid) t) j
  have h2 := gridBefore_static (courant gl) gl.gridSizeX gl.gridSizeY
    (listenerIndex gl g listener) g.m_pulse
    (forLoop 0 ((gl.gridSizeX + 1) * (gl.gridSizeY + 1)) resetBody g.m_grid) t j
  have h3 := reset_static gl.gridSizeX gl.gridSizeY g.m_grid j
  exact ⟨h1.1.trans (h2.1.trans h3.1), h1.2.trans (h2.2.trans h3.2)⟩

/-- The memory `GenerateResponseCPU` leaves behind. -/
theorem GenerateResponseCPU_grid (gl : Globals K) (listener : vec3 K) (g : Grid K) :
    (GenerateResponseCPU gl listener g).m_grid
      = gridBefore (courant gl) gl.gridSizeX gl.gridSizeY (listenerIndex gl g listener)
          g.m_pulse (forLoop 0 ((gl.gridSizeX + 1) * (gl.gridSizeY + 1)) resetBody g.m_grid)
          gl.responseSampleLength := by
  unfold GenerateResponseCPU
  simp only [forLoop_zero]
  exact (timeLoop_state _ _ _ _ _ _).2.2.1

theorem GenerateResponseCPU_pulse (gl : Globals K) (listener : vec3 K) (g : Grid K) :
    (GenerateResponseCPU gl listener g).m_pulse = g.m_pulse ∧
    (GenerateResponseCPU gl listener g).WorldToGrid = g.WorldToGrid := by
  unfold GenerateResponseCPU
  simp only [forLoop_zero]
  exact ⟨(timeLoop_state _ _ _ _ _ _).1, (timeLoop_state _ _ _ _ _ _).2.1⟩

/-- Rigidity and absorption of the cells after the call are those before the call. -/
theorem GenerateResponseCPU_static (gl : Globals K) (listener : vec3 K) (g : Grid K)
    (j : Int) :
    ((GenerateResponseCPU gl listener g).m_grid.read j).b = (g.m_grid.read j).b ∧
    ((GenerateResponseCPU gl listener g).m_grid.read j).absorption
      = (g.m_grid.read j).absorption := by
  rw [GenerateResponseCPU_grid]
  have h2 := gridBefore_static (courant gl) gl.gridSizeX gl.gridSizeY
    (listenerIndex gl g listener) g.m_pulse
    (forLoop 0 ((gl.gridSizeX + 1) * (gl.gridSizeY + 1)) resetBody g.m_grid)
    gl.responseSampleLength j
  have h3 := reset_static gl.gridSizeX gl.gridSizeY g.m_grid j
  exact ⟨h2.1.trans h3.1, h2.2.trans h3.2⟩

theorem gridBefore_outside (Courant : K) (gridx gridy : Nat) (listenerPos : Int)
    (hl : 0 ≤ listenerPos ∧ listenerPos < (((gridx + 1) * (gridy + 1) : Nat) : Int))
    (pulse : Nat → K) (m0 : Mem Int (Cell K)) (n : Nat) (j : Int)
    (hj : j < 0 ∨ (((gridx + 1) * (gridy + 1) : Nat) : Int) ≤ j) :
    (gridBefore Courant gridx gridy listenerPos pulse m0 n).read j = m0.read j := by
  induction n with
  | zero => rfl
  | succ n ih =>
    simp only [gridBefore]
    have hne : j ≠ listenerPos := by
      intro h; have := hl.1; have := hl.2; omega
    rw [injectPulse_read, if_neg hne, updatePhases_outside _ _ _ _ _ hj, ih]

theorem reset_outside (gridx gridy : Nat) (m : Mem Int (Cell K)) (j : Int)
    (hj : j < 0 ∨ (((gridx + 1) * (gridy + 1) : Nat) : Int) ≤ j) :
    (forLoop 0 ((gridx + 1) * (gridy + 1)) resetBody m).read j = m.read j := by
  rw [resetLoop_eq]
  have : ¬ (0 ≤ j ∧ j < (((gridx + 1) * (gridy + 1) : Nat) : Int)) := by
    intro h; have := h.1; have := h.2; omega
  simp only [resetSimultaneous, if_neg this]

/-- The reset makes two memories equal when they differ only in the pressure and the
velocities of the grid cells. -/
theorem reset_congr (gridx gridy : Nat) (m1 m2 : Mem Int (Cell K))
    (hs : ∀ j : Int, (m1.read j).b = (m2.read j).b ∧
      (m1.read j).absorption = (m2.read j).absorption)
    (ho : ∀ j : Int, (j < 0 ∨ (((gridx + 1) * (gridy + 1) : Nat) : Int) ≤ j) →
      m1.read j = m2.read j) :
    forLoop 0 ((gridx + 1) * (gridy + 1)) resetBody m1
      = forLoop 0 ((gridx + 1) * (gridy + 1)) resetBody m2 := by
  rw [resetLoop_eq, resetLoop_eq]
  apply Mem.ext; intro j
  simp only [resetSimultaneous]
  split_ifs with hj
  · simp only [resetCell, Cell.mk.injEq, (hs j).1, (hs j).2, and_self]
  · apply ho
    by_contra hc
    apply hj
    constructor <;> omega

/-- The snapshots do not depend on the pressure and the velocities that the grid cells
hold before the call. -/
theorem snapshotCPU_congr (gl : Globals K) (listener : vec3 K) (g1 g2 : Grid K)
    (hp : g1.m_pulse = g2.m_pulse) (hw : g1.WorldToGrid = g2.WorldToGrid)
    (hs : ∀ j : Int, (g1.m_grid.read j).b = (g2.m_grid.read j).b ∧
      (g1.m_grid.read j).absorption = (g2.m_grid.read j).absorption)
    (ho : ∀ j : Int, (j < 0 ∨ (((gl.gridSizeX + 1) * (gl.gridSizeY + 1) : Nat) : Int) ≤ j) →
      g1.m_grid.read j = g2.m_grid.read j) (t : Nat) :
    snapshotCPU gl listener g1 t = snapshotCPU gl listener g2 t := by
  unfold snapshotCPU listenerIndex
  rw [reset_congr gl.gridSizeX gl.gridSizeY g1.m_grid g2.m_grid hs ho, hp, hw]

/-- The cells outside the grid are not changed by a run whose listener cell is a cell of
the grid. -/
theorem GenerateResponseCPU_outside (gl : Globals K) (listener : vec3 K) (g : Grid K)
    (hl : 0 ≤ listenerIndex gl g listener ∧
      listenerIndex gl g listener < (((gl.gridSizeX + 1) * (gl.gridSizeY + 1) : Nat) : Int))
    (j : Int)
    (hj : j < 0 ∨ (((gl.gridSizeX + 1) * (gl.gridSizeY + 1) : Nat) : Int) ≤ j) :
    (GenerateResponseCPU gl listener g).m_grid.read j = g.m_grid.read j := by
  rw [GenerateResponseCPU_grid, gridBefore_outside _ _ _ _ hl _ _ _ _ hj,
    reset_outside _ _ _ _ hj]

/-- The memory at the start of the iteration for timestep 1, when the run starts from a
memory that is all zero: the first excitation sample in the listener cell, zero elsewhere. -/
theorem gridBefore_one (Courant : K) (gridx gridy : Nat) (listenerPos : Int)
    (pulse : Nat → K) (m0 : Mem Int (Cell K)) (h : AllZero m0) :
    gridBefore Courant gridx gridy listenerPos pulse m0 1
      = ⟨fun j => { pr := if j = listenerPos then pulse 0 else 0, vx := 0, vy := 0,
                    b := (m0.read j).b, absorption := (m0.read j).absorption }⟩ := by
  apply Mem.ext; intro j
  simp only [gridBefore]
  rw [injectPulse_read]
  obtain ⟨z1, z2, z3⟩ := updatePhases_allZero Courant gridx gridy m0 h j
  obtain ⟨s1, s2⟩ := updatePhases_static Courant gridx gridy m0 j
  rcases hc : (updatePhases Courant gridx gridy m0).read j with ⟨a, b, c, d, e⟩
  rw [hc] at z1 z2 z3 s1 s2
  simp only at z1 z2 z3 s1 s2
  subst z1 z2 z3 s1 s2
  split_ifs <;> simp

/-- The velocities that the edge loops leave in the cells they visit. -/
theorem updatePhases_edge (Courant : K) (gridx gridy : Nat) (hx : 1 ≤ gridx) (hy : 1 ≤ gridy)
    (m : Mem Int (Cell K)) :
    (∀ y : Nat, y < gridy →
      ((updatePhases Courant gridx gridy m).read (INDEX2 0 y (gridy + 1))).vx
        = -((updatePhases Courant gridx gridy m).read (INDEX2 0 y (gridy + 1))).pr ∧
      ((updatePhases Courant gridx gridy m).read (INDEX2 gridx y (gridy + 1))).vx
        = ((updatePhases Courant gridx gridy m).read
            (INDEX2 ((gridx : Int) - 1) y (gridy + 1))).pr) ∧
    (∀ x : Nat, x < gridx →
      ((updatePhases Courant gridx gridy m).read (INDEX2 x 0 (gridy + 1))).vy
        = -((updatePhases Courant gridx gridy m).read (INDEX2 x 0 (gridy + 1))).pr ∧
      ((updatePhases Courant gridx gridy m).read (INDEX2 x gridy (gridy + 1))).vy
        = ((updatePhases Courant gridx gridy m).read
            (INDEX2 x ((gridy : Int) - 1) (gridy + 1))).pr) := by
  have hX : (gridy : Int) + 1 ≤ (gridx : Int) * (gridy + 1) := by
    have : (1 : Int) ≤ gridx := by exact_mod_cast hx
    have : (0 : Int) ≤ gridy := Int.natCast_nonneg gridy
    nlinarith
  have hy' : (1 : Int) ≤ gridy := by exact_mod_cast hy
  rw [updatePhases_eq]
  constructor
  · intro y hyy
    have hyy' : (y : Int) < gridy := by exact_mod_cast hyy
    simp only [(absorbLeftRightSimultaneous_frame _ _ _ _).1,
      (absorbLeftRightSimultaneous_frame _ _ _ _).2.1,
      (absorbTopBottomSimultaneous_frame _ _ _ _ _).1]
    unfold INDEX2
    constructor
    · have c1 : ¬ ((gridx : Int) * (gridy + 1) ≤ 0 * ((gridy : Int) + 1) + y ∧
          0 * ((gridy : Int) + 1) + y < (gridx : Int) * (gridy + 1) + gridy) := by
        intro h; have := h.1; omega
      have c2 : 0 ≤ 0 * ((gridy : Int) + 1) + (y : Int) ∧
          0 * ((gridy : Int) + 1) + (y : Int) < gridy := by
        constructor <;> omega
      simp only [absorbTopBottomSimultaneous, if_neg c1, if_pos c2]
    · have c1 : (gridx : Int) * (gridy + 1) ≤ (gridx : Int) * ((gridy : Int) + 1) + y ∧
          (gridx : Int) * ((gridy : Int) + 1) + y < (gridx : Int) * (gridy + 1) + gridy := by
        constructor <;> omega
      simp only [absorbTopBottomSimultaneous, if_pos c1]
      congr 2
      ring
  · intro x hxx
    simp only [(absorbLeftRightSimultaneous_frame _ _ _ _).1]
    unfold INDEX2
    constructor
    · have c1 : ¬ ∃ i : Nat, i < gridx ∧
          (x : Int) * ((gridy : Int) + 1) + 0 = (i : Int) * (gridy + 1) + gridy := by
        rintro ⟨i, _, he⟩
        rcases Nat.lt_or_ge i x with h | h
        · have := row_lt gridy i x h
          omega
        · have h1 : (x : Int) ≤ i := by exact_mod_cast h
          have : (x : Int) * ((gridy : Int) + 1) ≤ (i : Int) * (gridy + 1) := by nlinarith
          omega
      have c2 : ∃ i : Nat, i < gridx ∧
          (x : Int) * ((gridy : Int) + 1) + 0 = (i : Int) * (gridy + 1) :=
        ⟨x, hxx, by ring⟩
      simp only [absorbLeftRightSimultaneous, if_neg c1, if_pos c2]
    · have c1 : ∃ i : Nat, i < gridx ∧
          (x : Int) * ((gridy : Int) + 1) + gridy = (i : Int) * (gridy + 1) + gridy :=
        ⟨x, hxx, rfl⟩
      simp only [absorbLeftRightSimultaneous, if_pos c1]
      congr 2
      ring

/-- The index of the cell `(x, y)`, `x ≤ gridx`, `y ≤ gridy`, is an index of the grid. -/
theorem index_in_grid (gridx gridy : Nat) (x y : Int) (hx0 : 0 ≤ x) (hx : x ≤ gridx)
    (hy0 : 0 ≤ y) (hy : y ≤ gridy) :
    0 ≤ INDEX2 x y (gridy + 1) ∧
      INDEX2 x y (gridy + 1) < (((gridx + 1) * (gridy + 1) : Nat) : Int) := by
  rw [loopSize_cast]
  unfold INDEX2
  have h0 : (0 : Int) ≤ gridy := Int.natCast_nonneg gridy
  constructor
  · have : 0 ≤ x * ((gridy : Int) + 1) := by positivity
    omega
  · have : x * ((gridy : Int) + 1) ≤ (gridx : Int) * (gridy + 1) := by nlinarith
    omega

/-- An entry of the response cube for a grid cell and a timestep of the run is the
snapshot of that cell. -/
theorem GenerateResponseCPU_response_in (gl : Globals K) (listener : vec3 K) (g : Grid K)
    (i : Int) (t : Nat)
    (hi : 0 ≤ i ∧ i < (((gl.gridSizeX + 1) * (gl.gridSizeY + 1) : Nat) : Int))
    (ht : t < gl.responseSampleLength) :
    ((GenerateResponseCPU gl listener g).m_pulseResponse.read i).read t
      = (snapshotCPU gl listener g t).read i := by
  rw [GenerateResponseCPU_response, if_pos ⟨hi.1, hi.2, ht⟩]

/-- The first snapshot of a run is all zero, whatever the excitation. -/
theorem snapshotCPU_zero_allZero (gl : Globals K) (listener : vec3 K) (g : Grid K)
    (hout : ∀ j : Int, (j < 0 ∨ (((gl.gridSizeX + 1) * (gl.gridSizeY + 1) : Nat) : Int) ≤ j) →
      (g.m_grid.read j).pr = 0 ∧ (g.m_grid.read j).vx = 0 ∧ (g.m_grid.read j).vy = 0) :
    AllZero (snapshotCPU gl listener g 0) := by
  unfold snapshotCPU gridRecorded
  exact updatePhases_allZero _ _ _ _ (reset_allZero _ _ _ hout)

/-- The pressures of the second snapshot: the rigidity of the cell times the first
excitation sample in the listener cell, zero in the other cells of the grid. -/
theorem snapshotCPU_one_pr (gl : Globals K) (listener : vec3 K) (g : Grid K)
    (hout : ∀ j : Int, (j < 0 ∨ (((gl.gridSizeX + 1) * (gl.gridSizeY + 1) : Nat) : Int) ≤ j) →
      (g.m_grid.read j).pr = 0 ∧ (g.m_grid.read j).vx = 0 ∧ (g.m_grid.read j).vy = 0)
    (j : Int) (hj : 0 ≤ j ∧ j < (((gl.gridSizeX + 1) * (gl.gridSizeY + 1) : Nat) : Int)) :
    ((snapshotCPU gl listener g 1).read j).pr
      = if j = listenerIndex gl g listener then ((g.m_grid.read j).b : K) * g.m_pulse 0
        else 0 := by
  unfold snapshotCPU gridRecorded
  rw [gridBefore_one _ _ _ _ _ _ (reset_allZero _ _ _ hout), updatePhases_pr]
  simp only [pressureSimultaneous, if_pos hj, pressureCell, (reset_static _ _ _ _).1]
  split_ifs <;> ring

theorem openField_outside (j : Int)
    (hj : j < 0 ∨ (((openFieldGlobals.gridSizeX + 1) * (openFieldGlobals.gridSizeY + 1) : Nat)
      : Int) ≤ j) :
    (openFieldGrid.m_grid.read j).pr = 0 ∧ (openFieldGrid.m_grid.read j).vx = 0 ∧
      (openFieldGrid.m_grid.read j).vy = 0 := by
  have : ¬ (0 ≤ j ∧ j < 25) := by
    intro h; have := h.1; have := h.2; simp [openFieldGlobals] at hj; omega
  simp [openFieldGrid, this]

/-- Between two air cells the velocity update is the free-field update. -/
theorem velocityUpdate_air (Courant : K) (p c : Cell K) (v : K) (hp : p.b = 1) (hc : c.b = 1) :
    velocityUpdate Courant p c v = v - Courant * (c.pr - p.pr) := by
  simp only [velocityUpdate, hp, hc, Int.cast_one]
  ring

/-- The pressure loop on a state of the 4 by 4 open field. -/
theorem airPressure (C : K) (halo : Mem Int (Cell K)) (pr vx vy : Int → K)
    (hx : ∀ j : Int, 25 ≤ j → (halo.read j).vx = 0)
    (hy : ∀ j : Int, 25 ≤ j → (halo.read j).vy = 0) (j : Int) (h0 : 0 ≤ j) (h1 : j < 25) :
    (pressureSimultaneous C 4 4 (tableMem halo pr vx vy)).read j
      = { pr := pr j - C * (((if j + 5 < 25 then vx (j + 5) else 0) - vx j)
            + ((if j + 1 < 25 then vy (j + 1) else 0) - vy j)),
          vx := vx j, vy := vy j, b := 1, absorption := 0 } := by
  have c : 0 ≤ j ∧ j < (((4 + 1) * (4 + 1) : Nat) : Int) := ⟨h0, by norm_num; exact h1⟩
  have c' : 0 ≤ j ∧ j < 25 := ⟨h0, h1⟩
  have e5 : ((tableMem halo pr vx vy).read (j + 5)).vx
      = if j + 5 < 25 then vx (j + 5) else 0 := by
    simp only [tableMem]
    by_cases h : j + 5 < 25
    · rw [if_pos ⟨by omega, h⟩, if_pos h]
    · rw [if_neg (fun hh => h hh.2), if_neg h]; exact hx _ (by omega)
  have e1 : ((tableMem halo pr vx vy).read (j + 1)).vy
      = if j + 1 < 25 then vy (j + 1) else 0 := by
    simp only [tableMem]
    by_cases h : j + 1 < 25
    · rw [if_pos ⟨by omega, h⟩, if_pos h]
    · rw [if_neg (fun hh => h hh.2), if_neg h]; exact hy _ (by omega)
  have e0 : (tableMem halo pr vx vy).read j
      = { pr := pr j, vx := vx j, vy := vy j, b := 1, absorption := 0 } := by
    simp only [tableMem, if_pos c']
  simp only [pressureSimultaneous, if_pos c, pressureCell]
  norm_num only [Nat.cast_ofNat] at e5 ⊢
  rw [show j + 4 + 1 = j + 5 by ring, e5, e1, e0]
  simp

/-- The pressures one timestep after a state of the 4 by 4 open field. -/
theorem airStep_pr (C : K) (halo : Mem Int (Cell K)) (pr vx vy : Int → K)
    (hx : ∀ j : Int, 25 ≤ j → (halo.read j).vx = 0)
    (hy : ∀ j : Int, 25 ≤ j → (halo.read j).vy = 0) (j : Int) (h0 : 0 ≤ j) (h1 : j < 25) :
    ((updatePhases C 4 4 (tableMem halo pr vx vy)).read j).pr
      = pr j - C * (((if j + 5 < 25 then vx (j + 5) else 0) - vx j)
        + ((if j + 1 < 25 then vy (j + 1) else 0) - vy j)) := by
  rw [updatePhases_pr, airPressure C halo pr vx vy hx hy j h0 h1]

/-- One timestep of the 4 by 4 open field, cell by cell: the pressures, then the
velocities computed from the new pressures, the edge loops overriding the bulk update. -/
theorem airStep (C : K) (halo : Mem Int (Cell K)) (pr vx vy pr' vx' vy' : Int → K)
    (hx : ∀ j : Int, 25 ≤ j → (halo.read j).vx = 0)
    (hy : ∀ j : Int, 25 ≤ j → (halo.read j).vy = 0)
    (hpr : ∀ j : Int, 0 ≤ j → j < 25 →
      pr' j = pr j - C * (((if j + 5 < 25 then vx (j + 5) else 0) - vx j)
        + ((if j + 1 < 25 then vy (j + 1) else 0) - vy j)))
    (hvx : ∀ j : Int, 0 ≤ j → j < 25 →
      vx' j = if 20 ≤ j ∧ j < 24 then pr' (j - 5) else if j < 4 then -pr' j
        else if 5 ≤ j then vx j - C * (pr' j - pr' (j - 5)) else vx j)
    (hvy : ∀ j : Int, 0 ≤ j → j < 25 →
      vy' j = if j % 5 = 4 ∧ j < 20 then pr' (j - 1) else if j % 5 = 0 ∧ j < 20 then -pr' j
        else if 1 ≤ j then vy j - C * (pr' j - pr' (j - 1)) else vy j) :
    updatePhases C 4 4 (tableMem halo pr vx vy) = tableMem halo pr' vx' vy' := by
  have hP : ∀ j : Int, 0 ≤ j → j < 25 →
      (pressureSimultaneous C 4 4 (tableMem halo pr vx vy)).read j
        = { pr := pr' j, vx := vx j, vy := vy j, b := 1, absorption := 0 } := by
    intro j h0 h1
    rw [airPressure C halo pr vx vy hx hy j h0 h1, hpr j h0 h1]
  have h2 : ∀ j : Int, 0 ≤ j → j < 25 →
      (vxSimultaneous C 4 4 (pressureSimultaneous C 4 4 (tableMem halo pr vx vy))).read j
        = { pr := pr' j, vx := if 5 ≤ j then vx j - C * (pr' j - pr' (j - 5)) else vx j,
            vy := vy j, b := 1, absorption := 0 } := by
    intro j h0 h1
    simp only [vxSimultaneous, vxCell]
    by_cases h : 5 ≤ j
    · have c : (((4 + 1 : Nat) : Int) ≤ j ∧ j < (((4 + 1) * (4 + 1) : Nat) : Int)) :=
        ⟨by norm_num; exact h, by norm_num; exact h1⟩
      rw [if_pos c, if_pos h, hP j h0 h1]
      norm_num only [Nat.cast_ofNat]
      rw [show j - 4 - 1 = j - 5 by ring, hP (j - 5) (by omega) (by omega),
        velocityUpdate_air _ _ _ _ rfl rfl]
    · have c : ¬ (((4 + 1 : Nat) : Int) ≤ j ∧ j < (((4 + 1) * (4 + 1) : Nat) : Int)) := by
        intro hh; apply h; have := hh.1; norm_num at this; exact this
      rw [if_neg c, if_neg h, hP j h0 h1]
  have h3 : ∀ j : Int, 0 ≤ j → j < 25 →
      (vySimultaneous C 4 4 (vxSimultaneous C 4 4
        (pressureSimultaneous C 4 4 (tableMem halo pr vx vy)))).read j
        = { pr := pr' j, vx := if 5 ≤ j then vx j - C * (pr' j - pr' (j - 5)) else vx j,
            vy := if 1 ≤ j then vy j - C * (pr' j - pr' (j - 1)) else vy j,
            b := 1, absorption := 0 } := by
    intro j h0 h1
    simp only [vySimultaneous, vyCell]
    by_cases h : 1 ≤ j
    · have c : (1 ≤ j ∧ j < (((4 + 1) * (4 + 1) : Nat) : Int)) := ⟨h, by norm_num; exact h1⟩
      rw [if_pos c, if_pos h, h2 j h0 h1, h2 (j - 1) (by omega) (by omega),
        velocityUpdate_air _ _ _ _ rfl rfl]
    · have c : ¬ (1 ≤ j ∧ j < (((4 + 1) * (4 + 1) : Nat) : Int)) := fun hh => h hh.1
      rw [if_neg c, if_neg h, h2 j h0 h1]
  have h4 : ∀ j : Int, 0 ≤ j → j < 25 →
      (absorbTopBottomSimultaneous 4 4 4 (vySimultaneous C 4 4 (vxSimultaneous C 4 4
        (pressureSimultaneous C 4 4 (tableMem halo pr vx vy))))).read j
        = { pr := pr' j, vx := vx' j,
            vy := if 1 ≤ j then vy j - C * (pr' j - pr' (j - 1)) else vy j,
            b := 1, absorption := 0 } := by
    intro j h0 h1
    simp only [absorbTopBottomSimultaneous]
    norm_num only [Nat.cast_ofNat]
    rw [h3 j h0 h1, hvx j h0 h1]
    by_cases hA : 20 ≤ j ∧ j < 24
    · rw [if_pos hA, if_pos hA,
        show j - 4 - 1 = j - 5 by ring, h3 (j - 5) (by omega) (by omega)]
    · rw [if_neg hA, if_neg hA]
      by_cases hB : j < 4
      · rw [if_pos (show 0 ≤ j ∧ j < 4 from ⟨h0, hB⟩), if_pos hB]
      · rw [if_neg (show ¬ (0 ≤ j ∧ j < 4) from fun hh => hB hh.2), if_neg hB]
  have e2 : ∀ j : Int, 0 ≤ j → j < 25 →
      ((∃ i : Nat, i < 4 ∧ j = (i : Int) * (((4 : Nat) : Int) + 1) + ((4 : Nat) : Int))
        ↔ (j % 5 = 4 ∧ j < 20)) := by
    intro j h0 h1
    constructor
    · rintro ⟨i, hi, he⟩
      push_cast at he
      omega
    · intro h
      refine ⟨(j / 5).toNat, by omega, ?_⟩
      push_cast
      omega
  have e1 : ∀ j : Int, 0 ≤ j → j < 25 →
      ((∃ i : Nat, i < 4 ∧ j = (i : Int) * (((4 : Nat) : Int) + 1)) ↔ (j % 5 = 0 ∧ j < 20)) := by
    intro j h0 h1
    constructor
    · rintro ⟨i, hi, he⟩
      push_cast at he
      omega
    · intro h
      refine ⟨(j / 5).toNat, by omega, ?_⟩
      push_cast
      omega
  apply Mem.ext; intro j
  by_cases hj : 0 ≤ j ∧ j < 25
  · obtain ⟨h0, h1⟩ := hj
    rw [updatePhases_eq]
    simp only [absorbLeftRightSimultaneous, e2 j h0 h1, e1 j h0 h1]
    have hT : (tableMem halo pr' vx' vy').read j
        = { pr := pr' j, vx := vx' j, vy := vy' j, b := 1, absorption := 0 } := by
      simp only [tableMem, if_pos (show 0 ≤ j ∧ j < 25 from ⟨h0, h1⟩)]
    rw [hT, h4 j h0 h1, hvy j h0 h1]
    by_cases hA : j % 5 = 4 ∧ j < 20
    · rw [if_pos hA, if_pos hA, h4 (j - 1) (by omega) (by omega)]
    · rw [if_neg hA, if_neg hA]
      by_cases hB : j % 5 = 0 ∧ j < 20
      · rw [if_pos hB, if_pos hB]
      · rw [if_neg hB, if_neg hB]
  · rw [updatePhases_outside _ _ _ _ _ (by
      by_contra hc; apply hj; constructor <;> omega)]
    simp only [tableMem, if_neg hj]

theorem injectPulse_zero (listenerPos : Int) (m : Mem Int (Cell K)) :
    injectPulse listenerPos 0 m = m := by
  apply Mem.ext; intro j
  rw [injectPulse_read]
  split_ifs
  · simp
  · rfl

/-- The tables follow the solver from timestep 1 to timestep 2. -/
theorem openField_step_12 (C : K) (halo : Mem Int (Cell K))
    (hx : ∀ j : Int, 25 ≤ j → (halo.read j).vx = 0)
    (hy : ∀ j : Int, 25 ≤ j → (halo.read j).vy = 0) :
    updatePhases C 4 4
        (tableMem halo (tab (openFieldPr C 1)) (tab (openFieldVx C 1)) (tab (openFieldVy C 1)))
      = tableMem halo (tab (openFieldPr C 2)) (tab (openFieldVx C 2))
          (tab (openFieldVy C 2)) := by
  apply airStep C halo _ _ _ _ _ _ hx hy
  · intro j h0 h1
    interval_cases j <;> simp [tab, openFieldPr, openFieldVx, openFieldVy] <;> ring
  · intro j h0 h1
    interval_cases j <;> simp [tab, openFieldPr, openFieldVx, openFieldVy] <;> ring
  · intro j h0 h1
    interval_cases j <;> simp [tab, openFieldPr, openFieldVx, openFieldVy] <;> ring

set_option maxHeartbeats 1000000 in
/-- The tables follow the solver from timestep 2 to timestep 3. -/
theorem openField_step_23 (C : K) (halo : Mem Int (Cell K))
    (hx : ∀ j : Int, 25 ≤ j → (halo.read j).vx = 0)
    (hy : ∀ j : Int, 25 ≤ j → (halo.read j).vy = 0) :
    updatePhases C 4 4
        (tableMem halo (tab (openFieldPr C 2)) (tab (openFieldVx C 2)) (tab (openFieldVy C 2)))
      = tableMem halo (tab (openFieldPr C 3)) (tab (openFieldVx C 3))
          (tab (openFieldVy C 3)) := by
  apply airStep C halo _ _ _ _ _ _ hx hy
  · intro j h0 h1
    interval_cases j <;> simp [tab, openFieldPr, openFieldVx, openFieldVy] <;> ring
  · intro j h0 h1
    interval_cases j <;> simp [tab, openFieldPr, openFieldVx, openFieldVy] <;> ring
  · intro j h0 h1
    interval_cases j <;> simp [tab, openFieldPr, openFieldVx, openFieldVy] <;> ring

set_option maxHeartbeats 1000000 in
/-- The tables follow the solver from timestep 3 to timestep 4. -/
theorem openField_step_34 (C : K) (halo : Mem Int (Cell K))
    (hx : ∀ j : Int, 25 ≤ j → (halo.read j).vx = 0)
    (hy : ∀ j : Int, 25 ≤ j → (halo.read j).vy = 0) :
    updatePhases C 4 4
        (tableMem halo (tab (openFieldPr C 3)) (tab (openFieldVx C 3)) (tab (openFieldVy C 3)))
      = tableMem halo (tab (openFieldPr C 4)) (tab (openFieldVx C 4))
          (tab (openFieldVy C 4)) := by
  apply airStep C halo _ _ _ _ _ _ hx hy
  · intro j h0 h1
    interval_cases j <;> simp [tab, openFieldPr, openFieldVx, openFieldVy] <;> ring
  · intro j h0 h1
    interval_cases j <;> simp [tab, openFieldPr, openFieldVx, openFieldVy] <;> ring
  · intro j h0 h1
    interval_cases j <;> simp [tab, openFieldPr, openFieldVx, openFieldVy] <;> ring

/-- The tables start from the state the first injection leaves. -/
theorem openField_step_01 (C : K) (halo : Mem Int (Cell K))
    (hx : ∀ j : Int, 25 ≤ j → (halo.read j).vx = 0)
    (hy : ∀ j : Int, 25 ≤ j → (halo.read j).vy = 0) :
    updatePhases C 4 4
        (tableMem halo (fun j => if j = 12 then 1 else 0) (fun _ => 0) (fun _ => 0))
      = tableMem halo (tab (openFieldPr C 1)) (tab (openFieldVx C 1))
          (tab (openFieldVy C 1)) := by
  apply airStep C halo _ _ _ _ _ _ hx hy
  · intro j h0 h1
    interval_cases j <;> simp [tab, openFieldPr, openFieldVx, openFieldVy]
  · intro j h0 h1
    interval_cases j <;> simp [tab, openFieldPr, openFieldVx, openFieldVy]
  · intro j h0 h1
    interval_cases j <;> simp [tab, openFieldPr, openFieldVx, openFieldVy]

/-- The pressures of the four corner cells one timestep after the last table. -/
theorem openField_corners (C : K) (halo : Mem Int (Cell K))
    (hx : ∀ j : Int, 25 ≤ j → (halo.read j).vx = 0)
    (hy : ∀ j : Int, 25 ≤ j → (halo.read j).vy = 0) :
    ((updatePhases C 4 4 (tableMem halo (tab (openFieldPr C 4)) (tab (openFieldVx C 4))
      (tab (openFieldVy C 4)))).read 0).pr = 6 * C ^ 8 ∧
    ((updatePhases C 4 4 (tableMem halo (tab (openFieldPr C 4)) (tab (openFieldVx C 4))
      (tab (openFieldVy C 4)))).read 4).pr = 10 * C ^ 7 ∧
    ((updatePhases C 4 4 (tableMem halo (tab (openFieldPr C 4)) (tab (openFieldVx C 4))
      (tab (openFieldVy C 4)))).read 20).pr = 9 * C ^ 7 ∧
    ((updatePhases C 4 4 (tableMem halo (tab (openFieldPr C 4)) (tab (openFieldVx C 4))
      (tab (openFieldVy C 4)))).read 24).pr = 6 * C ^ 7 := by
  refine ⟨?_, ?_, ?_, ?_⟩ <;>
    (rw [airStep_pr C halo _ _ _ hx hy _ (by norm_num) (by norm_num)]
     simp [tab, openFieldPr, openFieldVx, openFieldVy]
     ring)
/-- In the open-field scenario the snapshots of timesteps 1 to 4 are the tables. -/
theorem openField_snapshots (C : K) (pulse : Nat → K) (m0 : Mem Int (Cell K))
    (hz : AllZero m0)
    (hb : ∀ j : Int, 0 ≤ j → j < 25 → (m0.read j).b = 1 ∧ (m0.read j).absorption = 0)
    (hp0 : pulse 0 = 1) (t : Nat) (h1 : 1 ≤ t) (h4 : t ≤ 4)
    (hp : ∀ s, 1 ≤ s → s < t → pulse s = 0) :
    gridRecorded C 4 4 12 pulse m0 t
      = tableMem m0 (tab (openFieldPr C t)) (tab (openFieldVx C t))
          (tab (openFieldVy C t)) := by
  have hvx : ∀ j : Int, 25 ≤ j → (m0.read j).vx = 0 := fun j _ => (hz j).2.1
  have hvy : ∀ j : Int, 25 ≤ j → (m0.read j).vy = 0 := fun j _ => (hz j).2.2
  induction t with
  | zero => omega
  | succ t ih =>
    rcases Nat.eq_zero_or_pos t with h | h
    · subst h
      unfold gridRecorded
      rw [gridBefore_one _ _ _ _ _ _ hz, ← openField_step_01 C m0 hvx hvy]
      congr 1
      apply Mem.ext; intro j
      simp only [tableMem, hp0]
      by_cases hj : 0 ≤ j ∧ j < 25
      · rw [if_pos hj, (hb j hj.1 hj.2).1, (hb j hj.1 hj.2).2]
      · obtain ⟨z1, z2, z3⟩ := hz j
        have hne : ¬ j = 12 := by intro h; apply hj; omega
        rcases hc : m0.read j with ⟨a, b, c, d, e⟩
        rw [hc] at z1 z2 z3
        simp only at z1 z2 z3
        subst z1 z2 z3
        simp only [if_neg hne, if_neg hj]
    · have ih' := ih h (by omega) (fun s hs1 hs2 => hp s hs1 (by omega))
      have h0 : pulse t = 0 := hp t h (Nat.lt_succ_self t)
      unfold gridRecorded at ih' ⊢
      simp only [gridBefore]
      rw [h0, injectPulse_zero, ih']
      have ht : t = 1 ∨ t = 2 ∨ t = 3 := by omega
      rcases ht with rfl | rfl | rfl
      · exact openField_step_12 C m0 hvx hvy
      · exact openField_step_23 C m0 hvx hvy
      · exact openField_step_34 C m0 hvx hvy

/-- In the open-field scenario the pressures of the corner cells at timestep 5. -/
theorem openField_snapshot_five (C : K) (pulse : Nat → K) (m0 : Mem Int (Cell K))
    (hz : AllZero m0)
    (hb : ∀ j : Int, 0 ≤ j → j < 25 → (m0.read j).b = 1 ∧ (m0.read j).absorption = 0)
    (hp0 : pulse 0 = 1) (hp : ∀ s, 1 ≤ s → s < 5 → pulse s = 0) :
    ((gridRecorded C 4 4 12 pulse m0 5).read 0).pr = 6 * C ^ 8 ∧
    ((gridRecorded C 4 4 12 pulse m0 5).read 4).pr = 10 * C ^ 7 ∧
    ((gridRecorded C 4 4 12 pulse m0 5).read 20).pr = 9 * C ^ 7 ∧
    ((gridRecorded C 4 4 12 pulse m0 5).read 24).pr = 6 * C ^ 7 := by
  have hvx : ∀ j : Int, 25 ≤ j → (m0.read j).vx = 0 := fun j _ => (hz j).2.1
  have hvy : ∀ j : Int, 25 ≤ j → (m0.read j).vy = 0 := fun j _ => (hz j).2.2
  have h4 := openField_snapshots C pulse m0 hz hb hp0 4 (by norm_num) (le_refl 4)
    (fun s hs1 hs2 => hp s hs1 (by omega))
  have e : gridRecorded C 4 4 12 pulse m0 5
      = updatePhases C 4 4 (tableMem m0 (tab (openFieldPr C 4)) (tab (openFieldVx C 4))
          (tab (openFieldVy C 4))) := by
    unfold gridRecorded at h4 ⊢
    simp only [gridBefore]
    rw [hp 4 (by norm_num) (by norm_num), injectPulse_zero]
    simp only [gridBefore] at h4
    rw [h4]
  rw [e]
  exact openField_corners C m0 hvx hvy

/-- In the open-field scenario the pressure of the grid cell `j` in the snapshot of
timestep `t`, `t ≤ 4`, is the entry of the table (zero at timestep 0). -/
theorem openField_pressure (gl : Globals K) (listener : vec3 K) (g : Grid K)
    (hx : gl.gridSizeX = 4) (hy : gl.gridSizeY = 4)
    (hb : ∀ j : Int, 0 ≤ j → j < 25 →
      (g.m_grid.read j).b = 1 ∧ (g.m_grid.read j).absorption = 0)
    (hp0 : g.m_pulse 0 = 1) (hp : ∀ t, 1 ≤ t → t < 5 → g.m_pulse t = 0)
    (hl : listenerIndex gl g listener = INDEX2 2 2 5)
    (hout : ∀ j : Int, (j < 0 ∨ (((gl.gridSizeX + 1) * (gl.gridSizeY + 1) : Nat) : Int) ≤ j) →
      (g.m_grid.read j).pr = 0 ∧ (g.m_grid.read j).vx = 0 ∧ (g.m_grid.read j).vy = 0) :
    (∀ (t : Nat) (j : Int), t ≤ 4 → 0 ≤ j → j < 25 →
      ((snapshotCPU gl listener g t).read j).pr = tab (openFieldPr (courant gl) t) j) ∧
    ((snapshotCPU gl listener g 5).read 0).pr = 6 * courant gl ^ 8 ∧
    ((snapshotCPU gl listener g 5).read 4).pr = 10 * courant gl ^ 7 ∧
    ((snapshotCPU gl listener g 5).read 20).pr = 9 * courant gl ^ 7 ∧
    ((snapshotCPU gl listener g 5).read 24).pr = 6 * courant gl ^ 7 := by
  have hz := reset_allZero gl.gridSizeX gl.gridSizeY g.m_grid hout
  have hb' : ∀ j : Int, 0 ≤ j → j < 25 →
      ((forLoop 0 ((gl.gridSizeX + 1) * (gl.gridSizeY + 1)) resetBody g.m_grid).read j).b = 1 ∧
      ((forLoop 0 ((gl.gridSizeX + 1) * (gl.gridSizeY + 1)) resetBody g.m_grid).read j).absorption
        = 0 := by
    intro j h0 h1
    rw [(reset_static _ _ _ _).1, (reset_static _ _ _ _).2]
    exact hb j h0 h1
  have hl' : listenerIndex gl g listener = 12 := by rw [hl]; rfl
  have S : ∀ t, snapshotCPU gl listener g t
      = gridRecorded (courant gl) 4 4 12 g.m_pulse
          (forLoop 0 ((gl.gridSizeX + 1) * (gl.gridSizeY + 1)) resetBody g.m_grid) t := by
    intro t
    unfold snapshotCPU
    rw [hl']
    simp only [hx, hy]
  refine ⟨?_, ?_⟩
  · intro t j ht h0 h1
    rcases Nat.eq_zero_or_pos t with h | h
    · subst h
      rw [(snapshotCPU_zero_allZero gl listener g hout j).1]
      simp [tab, openFieldPr]
    · rw [S, openField_snapshots (courant gl) g.m_pulse _ hz hb' hp0 t h ht
        (fun s hs1 hs2 => hp s hs1 (by omega))]
      simp only [tableMem, if_pos (show 0 ≤ j ∧ j < 25 from ⟨h0, h1⟩)]
  · rw [S]
    exact openField_snapshot_five (courant gl) g.m_pulse _ hz hb' hp0 hp

/-! ## The run on `haloGrid` -/

set_option maxHeartbeats 1000000 in
/-- The first snapshot of every run on the memory of `haloGrid`, whatever the
excitation. -/
theorem halo_snapshot (lp : Int) (pulse : Nat → ℚ) :
    gridRecorded 1 1 1 lp pulse (forLoop 0 ((1 + 1) * (1 + 1)) resetBody haloGrid.m_grid) 0
      = haloSnapshot := by
  unfold gridRecorded
  simp only [gridBefore]
  apply Mem.ext; intro j
  by_cases hj : 0 ≤ j ∧ j < 4
  · have hc : j = 0 ∨ j = 1 ∨ j = 2 ∨ j = 3 := by omega
    rw [updatePhases_eq, resetLoop_eq]
    have hn1 : ¬ ∃ i : Nat, i < 1 ∧ (2 : Int) = (i : Int) * (1 + 1) + 1 := by decide
    have hn2 : ¬ ∃ i : Nat, i < 1 ∧ (2 : Int) = (i : Int) * (1 + 1) := by decide
    have hn3 : ¬ ∃ i : Nat, i < 1 ∧ (3 : Int) = (i : Int) * (1 + 1) + 1 := by decide
    have hn4 : ¬ ∃ i : Nat, i < 1 ∧ (3 : Int) = (i : Int) * (1 + 1) := by decide
    have hn5 : ¬ ∃ i : Nat, i < 1 ∧ (0 : Int) = (i : Int) * (1 + 1) + 1 := by decide
    have hp0 : ∃ i : Nat, i < 1 ∧ (0 : Int) = (i : Int) * (1 + 1) := ⟨0, by decide, by decide⟩
    have hp1 : ∃ i : Nat, i < 1 ∧ (1 : Int) = (i : Int) * (1 + 1) + 1 :=
      ⟨0, by decide, by decide⟩
    rcases hc with h | h | h | h <;> subst h
    · simp [absorbLeftRightSimultaneous, absorbTopBottomSimultaneous, vySimultaneous,
        vxSimultaneous, pressureSimultaneous, pressureCell, vxCell, vyCell, velocityUpdate,
        resetSimultaneous, resetCell, haloGrid, haloSnapshot, hn5, hp0]
    · simp [absorbLeftRightSimultaneous, absorbTopBottomSimultaneous, vySimultaneous,
        vxSimultaneous, pressureSimultaneous, pressureCell, vxCell, vyCell, velocityUpdate,
        resetSimultaneous, resetCell, haloGrid, haloSnapshot, hp1]
    · simp [absorbLeftRightSimultaneous, absorbTopBottomSimultaneous, vySimultaneous,
        vxSimultaneous, pressureSimultaneous, pressureCell, vxCell, vyCell, velocityUpdate,
        resetSimultaneous, resetCell, haloGrid, haloSnapshot, hn1, hn2]
    · simp [absorbLeftRightSimultaneous, absorbTopBottomSimultaneous, vySimultaneous,
        vxSimultaneous, pressureSimultaneous, pressureCell, vxCell, vyCell, velocityUpdate,
        resetSimultaneous, resetCell, haloGrid, haloSnapshot, hn3, hn4]
  · have ho : j < 0 ∨ (((1 + 1) * (1 + 1) : Nat) : Int) ≤ j := by
      by_cases h0 : 0 ≤ j
      · right
        have : ¬ j < 4 := fun h => hj ⟨h0, h⟩
        simp only [Nat.reduceAdd, Nat.reduceMul, Nat.cast_ofNat]
        omega
      · left; omega
    rw [updatePhases_outside _ _ _ _ j ho, reset_outside _ _ _ j ho]
    have e0 : j ≠ 0 := fun h => hj (by subst h; decide)
    have e1 : j ≠ 1 := fun h => hj (by subst h; decide)
    have e2 : j ≠ 2 := fun h => hj (by subst h; decide)
    have e3 : j ≠ 3 := fun h => hj (by subst h; decide)
    simp [haloGrid, haloSnapshot, hj, e0, e1, e2, e3]

/-- The pressure recorded for the listener cell 1 at timestep 1 of a run on the memory of
`haloGrid`: the first excitation sample minus 2. -/
theorem halo_second_pressure (pulse : Nat → ℚ) :
    ((gridRecorded 1 1 1 1 pulse
      (forLoop 0 ((1 + 1) * (1 + 1)) resetBody haloGrid.m_grid) 1).read 1).pr
      = pulse 0 - 2 := by
  have h := halo_snapshot 1 pulse
  unfold gridRecorded at h ⊢
  simp only [gridBefore] at h ⊢
  rw [h, updatePhases_pr]
  simp [pressureSimultaneous, pressureCell, injectPulse_read, haloSnapshot]
  ring

/-- The snapshots of a run of the 1 by 1 configuration on a grid with the memory and the
listener cell of `haloGrid`. -/
theorem halo_run (g : Grid ℚ) (hm : g.m_grid = haloGrid.m_grid)
    (hw : g.WorldToGrid = haloGrid.WorldToGrid) (t : Nat) :
    snapshotCPU cornerGlobals ⟨0, 0, 0⟩ g t
      = gridRecorded 1 1 1 1 g.m_pulse
          (forLoop 0 ((1 + 1) * (1 + 1)) resetBody haloGrid.m_grid) t := by
  unfold snapshotCPU
  have hc : courant cornerGlobals = 1 := by simp [courant, cornerGlobals]
  have hl : listenerIndex cornerGlobals g ⟨0, 0, 0⟩ = 1 := by
    simp [listenerIndex, cornerGlobals, hw, haloGrid, INDEX2]
  rw [hc, hl, hm]
  rfl

/-! ## The claims -/

/-- Silence when the memory outside the array is zero: for every grid size, rigidity,
absorption, listener cell and response length, if every excitation sample is zero and the
cells outside the grid, which the reset does not reach and the stencil reads, hold zero
pressure and velocities, then every grid cell has pressure zero in every snapshot of the
response cube. -/
theorem silence_of_zero_memory (gl : Globals K) (listener : vec3 K) (g : Grid K)
    (hpulse : ∀ t, t < gl.responseSampleLength → g.m_pulse t = 0)
    (hout : ∀ j : Int, (j < 0 ∨ (((gl.gridSizeX + 1) * (gl.gridSizeY + 1) : Nat) : Int) ≤ j) →
      (g.m_grid.read j).pr = 0 ∧ (g.m_grid.read j).vx = 0 ∧ (g.m_grid.read j).vy = 0)
    (i : Int) (hi : 0 ≤ i ∧ i < (((gl.gridSizeX + 1) * (gl.gridSizeY + 1) : Nat) : Int))
    (t : Nat) (ht : t < gl.responseSampleLength) :
    (((GenerateResponseCPU gl listener g).m_pulseResponse.read i).read t).pr = 0 := by
  rw [GenerateResponseCPU_response, if_pos ⟨hi.1, hi.2, ht⟩]
  exact (snapshotCPU_allZero gl listener g hpulse hout t ht i).1

/-- C1, the code at a failing input: the 1 by 1 grid `haloSilentGrid` has the zero
excitation and zero pressure and velocities in its four cells, and `vx = 1` in the memory
after the array, which the reset does not reach and the pressure loop reads.  The
pressure recorded for the cells 2 and 3 at timestep 0 is -1, and for the listener cell 1
at timestep 1 it is -2. -/
theorem initial_silence_violated :
    (∀ t : Nat, haloSilentGrid.m_pulse t = 0) ∧
    (∀ j : Int, 0 ≤ j ∧ j < 4 → (haloSilentGrid.m_grid.read j).pr = 0 ∧
      (haloSilentGrid.m_grid.read j).vx = 0 ∧ (haloSilentGrid.m_grid.read j).vy = 0) ∧
    (((GenerateResponseCPU cornerGlobals ⟨0, 0, 0⟩ haloSilentGrid).m_pulseResponse.read
      2).read 0).pr = -1 ∧
    (((GenerateResponseCPU cornerGlobals ⟨0, 0, 0⟩ haloSilentGrid).m_pulseResponse.read
      3).read 0).pr = -1 ∧
    (((GenerateResponseCPU cornerGlobals ⟨0, 0, 0⟩ haloSilentGrid).m_pulseResponse.read
      1).read 1).pr = -2 := by
  refine ⟨fun _ => rfl, ?_, ?_, ?_, ?_⟩
  · intro j hj
    simp [haloSilentGrid, hj]
  · rw [GenerateResponseCPU_response, if_pos (by simp [cornerGlobals]),
      halo_run haloSilentGrid rfl rfl, halo_snapshot]
    simp [haloSnapshot]
  · rw [GenerateResponseCPU_response, if_pos (by simp [cornerGlobals]),
      halo_run haloSilentGrid rfl rfl, halo_snapshot]
    simp [haloSnapshot]
  · rw [GenerateResponseCPU_response, if_pos (by simp [cornerGlobals]),
      halo_run haloSilentGrid rfl rfl, halo_second_pressure]
    simp [haloSilentGrid]

/-- C2 (rigidity gating): a cell of the grid whose rigidity `b` is zero has pressure
zero in every snapshot of the response cube, for every excitation, every listener cell
and every content of the neighbouring cells. -/
theorem rigidity_gating (gl : Globals K) (listener : vec3 K) (g : Grid K)
    (i : Int) (hi : 0 ≤ i ∧ i < (((gl.gridSizeX + 1) * (gl.gridSizeY + 1) : Nat) : Int))
    (hb : (g.m_grid.read i).b = 0)
    (t : Nat) (ht : t < gl.responseSampleLength) :
    (((GenerateResponseCPU gl listener g).m_pulseResponse.read i).read t).pr = 0 := by
  rw [GenerateResponseCPU_response, if_pos ⟨hi.1, hi.2, ht⟩]
  unfold snapshotCPU gridRecorded
  rw [updatePhases_pr]
  have h2 := gridBefore_static (courant gl) gl.gridSizeX gl.gridSizeY
    (listenerIndex gl g listener) g.m_pulse
    (forLoop 0 ((gl.gridSizeX + 1) * (gl.gridSizeY + 1)) resetBody g.m_grid) t i
  have h3 := reset_static gl.gridSizeX gl.gridSizeY g.m_grid i
  simp only [pressureSimultaneous, if_pos hi, pressureCell, h2.1, h3.1, hb, Int.cast_zero,
    zero_mul]

/-- C2, witness: the rigid listener cell of `wallGrid` at timestep 1, right after the
injection. -/
theorem rigidity_gating_witness :
    (((GenerateResponseCPU openFieldGlobals ⟨0, 0, 0⟩ wallGrid).m_pulseResponse.read 12).read
      1).pr = 0 :=
  rigidity_gating openFieldGlobals ⟨0, 0, 0⟩ wallGrid 12 (by decide) (by simp [wallGrid])
    1 (by decide)

/-- C3, counterexample: in the open-field scenario the snapshot of timestep 0 does not
hold the injected pulse in the listener cell. -/
theorem open_field_first_snapshot_refuted :
    ¬ ((((GenerateResponseCPU openFieldGlobals ⟨0, 0, 0⟩ openFieldGrid).m_pulseResponse.read
          (INDEX2 2 2 5)).read 0).pr = openFieldGrid.m_pulse 0 ∧
      ∀ i : Int, 0 ≤ i → i < 25 → i ≠ INDEX2 2 2 5 →
        (((GenerateResponseCPU openFieldGlobals ⟨0, 0, 0⟩ openFieldGrid).m_pulseResponse.read
          i).read 0).pr = 0) := by
  rintro ⟨h, _⟩
  rw [GenerateResponseCPU_response_in _ _ _ _ _ (by simp [openFieldGlobals, INDEX2])
    (by simp [openFieldGlobals]),
    (snapshotCPU_zero_allZero openFieldGlobals ⟨0, 0, 0⟩ openFieldGrid openField_outside _).1]
    at h
  simp [openFieldGrid] at h

/-- C3, amended (open field, timesteps 0 and 1): in the 4 by 4 open field with the
listener at `(2, 2)` the snapshot of timestep 0 has pressure zero in every cell, the
listener cell included; the injected pulse value is the pressure of the listener cell
in the snapshot of timestep 1, where every other cell has pressure zero. -/
theorem open_field_first_snapshots (gl : Globals K) (listener : vec3 K) (g : Grid K)
    (hx : gl.gridSizeX = 4) (hy : gl.gridSizeY = 4)
    (hb : ∀ j : Int, 0 ≤ j → j < 25 →
      (g.m_grid.read j).b = 1 ∧ (g.m_grid.read j).absorption = 0)
    (hl : listenerIndex gl g listener = INDEX2 2 2 5)
    (hlen : 2 ≤ gl.responseSampleLength)
    (hout : ∀ j : Int, (j < 0 ∨ (((gl.gridSizeX + 1) * (gl.gridSizeY + 1) : Nat) : Int) ≤ j) →
      (g.m_grid.read j).pr = 0 ∧ (g.m_grid.read j).vx = 0 ∧ (g.m_grid.read j).vy = 0)
    (i : Int) (hi0 : 0 ≤ i) (hi : i < 25) :
    (((GenerateResponseCPU gl listener g).m_pulseResponse.read i).read 0).pr = 0 ∧
    (((GenerateResponseCPU gl listener g).m_pulseResponse.read i).read 1).pr
      = if i = INDEX2 2 2 5 then g.m_pulse 0 else 0 := by
  have hi' : 0 ≤ i ∧ i < (((gl.gridSizeX + 1) * (gl.gridSizeY + 1) : Nat) : Int) := by
    rw [hx, hy]; exact ⟨hi0, hi⟩
  rw [GenerateResponseCPU_response_in _ _ _ _ _ hi' (by omega),
    GenerateResponseCPU_response_in _ _ _ _ _ hi' (by omega),
    snapshotCPU_one_pr gl listener g hout i hi', hl, (hb i hi0 hi).1]
  refine ⟨(snapshotCPU_zero_allZero gl listener g hout i).1, ?_⟩
  split_ifs <;> simp

/-- C3, witness: the listener cell of the open-field scenario. -/
theorem open_field_first_snapshots_witness :
    (((GenerateResponseCPU openFieldGlobals ⟨0, 0, 0⟩ openFieldGrid).m_pulseResponse.read
        12).read 0).pr = 0 ∧
    (((GenerateResponseCPU openFieldGlobals ⟨0, 0, 0⟩ openFieldGrid).m_pulseResponse.read
        12).read 1).pr = if (12 : Int) = INDEX2 2 2 5 then openFieldGrid.m_pulse 0 else 0 :=
  open_field_first_snapshots openFieldGlobals ⟨0, 0, 0⟩ openFieldGrid rfl rfl
    (by intro j h0 h1; simp [openFieldGrid, h0, h1]) (by decide) (by decide)
    openField_outside 12 (by decide) (by decide)

/-- C4, counterexample: in the open-field scenario the neighbour `(1, 2)` of the listener
cell has pressure zero in the snapshot of timestep 1. -/
theorem open_field_propagation_refuted :
    ¬ ((((GenerateResponseCPU openFieldGlobals ⟨0, 0, 0⟩ openFieldGrid).m_pulseResponse.read
          (INDEX2 1 2 5)).read 1).pr ≠ 0) := by
  intro h
  apply h
  rw [GenerateResponseCPU_response_in _ _ _ _ _ (by simp [openFieldGlobals, INDEX2])
    (by simp [openFieldGlobals]),
    snapshotCPU_one_pr openFieldGlobals ⟨0, 0, 0⟩ openFieldGrid openField_outside _
      (by simp [openFieldGlobals, INDEX2])]
  simp [listenerIndex, openFieldGlobals, openFieldGrid, INDEX2]

set_option maxHeartbeats 2000000 in
/-- C4, amended (open field, propagation): in the 4 by 4 open field with a unit impulse
at sample 0, the listener at `(2, 2)`, a nonzero Courant number and zero pressure and
velocity in the cells outside the grid, every cell at grid distance `k ≥ 1` from the
listener has pressure zero in the snapshots of the timesteps `0, ..., k` and a nonzero
pressure in the snapshot of timestep `k + 1`; in particular the four neighbours of the
listener cell are first nonzero at timestep 2. -/
theorem open_field_propagation [CharZero K] (gl : Globals K) (listener : vec3 K) (g : Grid K)
    (hx : gl.gridSizeX = 4) (hy : gl.gridSizeY = 4)
    (hb : ∀ j : Int, 0 ≤ j → j < 25 →
      (g.m_grid.read j).b = 1 ∧ (g.m_grid.read j).absorption = 0)
    (hp0 : g.m_pulse 0 = 1) (hp : ∀ t, 1 ≤ t → g.m_pulse t = 0)
    (hl : listenerIndex gl g listener = INDEX2 2 2 5)
    (hC : courant gl ≠ 0)
    (hout : ∀ j : Int, (j < 0 ∨ (((gl.gridSizeX + 1) * (gl.gridSizeY + 1) : Nat) : Int) ≤ j) →
      (g.m_grid.read j).pr = 0 ∧ (g.m_grid.read j).vx = 0 ∧ (g.m_grid.read j).vy = 0)
    (x y : Nat) (hx4 : x ≤ 4) (hy4 : y ≤ 4) (k : Nat)
    (hk : k = ((x : Int) - 2).natAbs + ((y : Int) - 2).natAbs) (hk1 : 1 ≤ k) :
    (∀ t : Nat, t ≤ k → t < gl.responseSampleLength →
      (((GenerateResponseCPU gl listener g).m_pulseResponse.read (INDEX2 x y 5)).read t).pr
        = 0) ∧
    (k + 1 < gl.responseSampleLength →
      (((GenerateResponseCPU gl listener g).m_pulseResponse.read (INDEX2 x y 5)).read
        (k + 1)).pr ≠ 0) := by
  obtain ⟨T, c0, c4, c20, c24⟩ := openField_pressure gl listener g hx hy hb hp0
    (fun t h1 _ => hp t h1) hl hout
  have R : ∀ (t : Nat) (j : Int), t < gl.responseSampleLength → 0 ≤ j → j < 25 →
      ((GenerateResponseCPU gl listener g).m_pulseResponse.read j).read t
        = (snapshotCPU gl listener g t).read j := by
    intro t j ht h0 h1
    exact GenerateResponseCPU_response_in gl listener g j t (by rw [hx, hy]; exact ⟨h0, h1⟩) ht
  have hj : 0 ≤ INDEX2 x y 5 ∧ INDEX2 x y 5 < 25 := by
    unfold INDEX2
    constructor <;> omega
  have hk4 : k ≤ 4 := by omega
  constructor
  · intro t ht htl
    rw [R t _ htl hj.1 hj.2, T t _ (by omega) hj.1 hj.2]
    interval_cases x <;> interval_cases y <;> simp at hk <;> subst hk <;>
      interval_cases t <;> simp [tab, openFieldPr, INDEX2]
  · intro htl
    rw [R _ _ htl hj.1 hj.2]
    rcases Nat.lt_or_ge k 4 with h | h
    · rw [T (k + 1) _ h hj.1 hj.2]
      interval_cases x <;> interval_cases y <;> simp at hk <;> subst hk <;>
        first
        | omega
        | simp [tab, openFieldPr, INDEX2, hC]
    · have hk' : k = 4 := by omega
      subst hk'
      have hxy : (x = 0 ∨ x = 4) ∧ (y = 0 ∨ y = 4) := by omega
      have e0 : INDEX2 ((0 : Nat) : Int) ((0 : Nat) : Int) 5 = 0 := by decide
      have e4 : INDEX2 ((0 : Nat) : Int) ((4 : Nat) : Int) 5 = 4 := by decide
      have e20 : INDEX2 ((4 : Nat) : Int) ((0 : Nat) : Int) 5 = 20 := by decide
      have e24 : INDEX2 ((4 : Nat) : Int) ((4 : Nat) : Int) 5 = 24 := by decide
      rcases hxy with ⟨rfl | rfl, rfl | rfl⟩
      · rw [e0, c0]; simp [hC]
      · rw [e4, c4]; simp [hC]
      · rw [e20, c20]; simp [hC]
      · rw [e24, c24]; simp [hC]

/-- C4, witness: the neighbour `(1, 2)` of the listener cell in the open-field scenario:
zero at timestep 1, nonzero at timestep 2. -/
theorem open_field_propagation_witness :
    (((GenerateResponseCPU openFieldGlobals ⟨0, 0, 0⟩ openFieldGrid).m_pulseResponse.read
        (INDEX2 (1 : Nat) (2 : Nat) 5)).read 1).pr = 0 ∧
    (((GenerateResponseCPU openFieldGlobals ⟨0, 0, 0⟩ openFieldGrid).m_pulseResponse.read
        (INDEX2 (1 : Nat) (2 : Nat) 5)).read (1 + 1)).pr ≠ 0 :=
  ⟨(open_field_propagation openFieldGlobals ⟨0, 0, 0⟩ openFieldGrid rfl rfl
      (by intro j h0 h1; simp [openFieldGrid, h0, h1]) rfl
      (by intro t ht; simp [openFieldGrid]; omega) (by decide)
      (by norm_num [courant, openFieldGlobals]) openField_outside 1 2 (by decide) (by decide) 1
      (by decide) (by decide)).1 1 (by decide) (by decide),
    (open_field_propagation openFieldGlobals ⟨0, 0, 0⟩ openFieldGrid rfl rfl
      (by intro j h0 h1; simp [openFieldGrid, h0, h1]) rfl
      (by intro t ht; simp [openFieldGrid]; omega) (by decide)
      (by norm_num [courant, openFieldGlobals]) openField_outside 1 2 (by decide) (by decide) 1
      (by decide) (by decide)).2 (by decide)⟩

set_option maxHeartbeats 4000000 in
/-- C5, the code at a failing input: in the 2 by 3 open field with the listener in cell
`(1, 0)` and a unit impulse at sample 0, the cell `(0, 3)` lies at grid distance 4 from the
listener, and yet its pressure in the snapshot of timestep 2 is the Courant number 1, not
0: the pressure loop takes cell `i + 1`, here the cell `(1, 0)` of the next row, as the
forward y neighbour of the last cell of row 0. -/
theorem locality_wrap_around :
    listenerIndex wrapGlobals wrapGrid ⟨0, 0, 0⟩ = INDEX2 1 0 4 ∧
    (((GenerateResponseCPU wrapGlobals ⟨0, 0, 0⟩ wrapGrid).m_pulseResponse.read
      (INDEX2 0 3 4)).read 2).pr = 1 := by
  refine ⟨by decide, ?_⟩
  have e3 : INDEX2 0 3 4 = 3 := by decide
  rw [e3]
  have hz : AllZero (forLoop 0 ((wrapGlobals.gridSizeX + 1) * (wrapGlobals.gridSizeY + 1))
      resetBody wrapGrid.m_grid) := by
    apply reset_allZero
    intro j hj
    have : ¬ (0 ≤ j ∧ j < 12) := by
      intro h; have := h.1; have := h.2; simp [wrapGlobals] at hj; omega
    simp [wrapGrid, this]
  have hb := fun j =>
    (reset_static wrapGlobals.gridSizeX wrapGlobals.gridSizeY wrapGrid.m_grid j).1
  have ha := fun j =>
    (reset_static wrapGlobals.gridSizeX wrapGlobals.gridSizeY wrapGrid.m_grid j).2
  rw [GenerateResponseCPU_response, if_pos (by simp [wrapGlobals])]
  unfold snapshotCPU gridRecorded
  rw [updatePhases_pr]
  have h1 : wrapGrid.m_pulse 1 = 0 := rfl
  simp only [gridBefore]
  rw [h1, injectPulse_zero]
  have e := gridBefore_one (courant wrapGlobals) wrapGlobals.gridSizeX wrapGlobals.gridSizeY
    (listenerIndex wrapGlobals wrapGrid ⟨0, 0, 0⟩) wrapGrid.m_pulse _ hz
  simp only [gridBefore] at e
  rw [e, updatePhases_eq]
  simp only [hb, ha]
  simp [absorbLeftRightSimultaneous, absorbTopBottomSimultaneous, vySimultaneous,
    vxSimultaneous, pressureSimultaneous, pressureCell, vxCell, vyCell, velocityUpdate,
    wrapGlobals, wrapGrid, listenerIndex, INDEX2, courant]
  have hn : ¬ ∃ i : Nat, i < 2 ∧ (4 : Int) = (i : Int) * 4 + 3 := by decide
  simp [hn]

/-- C6, counterexample: in the 1 by 1 open field with the listener in cell `(0, 1)` the
cell `(0, sizeY)` of the outermost row has, in the snapshot of timestep 1, a `vx` (zero)
that is not the negative of its pressure (one). -/
theorem boundary_absorption_refuted :
    ¬ ((((GenerateResponseCPU cornerGlobals ⟨0, 0, 0⟩ cornerGrid).m_pulseResponse.read
          (INDEX2 0 cornerGlobals.gridSizeY (cornerGlobals.gridSizeY + 1))).read 1).vx
        = -(((GenerateResponseCPU cornerGlobals ⟨0, 0, 0⟩ cornerGrid).m_pulseResponse.read
          (INDEX2 0 cornerGlobals.gridSizeY (cornerGlobals.gridSizeY + 1))).read 1).pr) := by
  have hz : AllZero (forLoop 0 ((cornerGlobals.gridSizeX + 1) * (cornerGlobals.gridSizeY + 1))
      resetBody cornerGrid.m_grid) := by
    apply reset_allZero
    intro j hj
    have : ¬ (0 ≤ j ∧ j < 4) := by
      intro h; have := h.1; have := h.2; simp [cornerGlobals] at hj; omega
    simp [cornerGrid, this]
  have hb := fun j =>
    (reset_static cornerGlobals.gridSizeX cornerGlobals.gridSizeY cornerGrid.m_grid j).1
  have ha := fun j =>
    (reset_static cornerGlobals.gridSizeX cornerGlobals.gridSizeY cornerGrid.m_grid j).2
  rw [GenerateResponseCPU_response, if_pos (by simp [cornerGlobals, INDEX2])]
  unfold snapshotCPU gridRecorded
  rw [gridBefore_one _ _ _ _ _ _ hz, updatePhases_eq]
  simp only [hb, ha]
  simp [absorbLeftRightSimultaneous, absorbTopBottomSimultaneous, vySimultaneous,
    vxSimultaneous, pressureSimultaneous, pressureCell, vxCell, vyCell, velocityUpdate,
    cornerGlobals, cornerGrid, listenerIndex, INDEX2, courant]

/-- C6, amended (boundary absorption): in every snapshot, for `y < sizeY` the cell
`(0, y)` has `vx` equal to the negative of its own pressure and the cell `(sizeX, y)` has
`vx` equal to the pressure of `(sizeX - 1, y)`; for `x < sizeX` the cell `(x, 0)` has `vy`
equal to the negative of its own pressure and the cell `(x, sizeY)` has `vy` equal to the
pressure of `(x, sizeY - 1)`. -/
theorem boundary_absorption (gl : Globals K) (listener : vec3 K) (g : Grid K)
    (hx : 1 ≤ gl.gridSizeX) (hy : 1 ≤ gl.gridSizeY)
    (t : Nat) (ht : t < gl.responseSampleLength) :
    (∀ y : Nat, y < gl.gridSizeY →
      (((GenerateResponseCPU gl listener g).m_pulseResponse.read
          (INDEX2 0 y (gl.gridSizeY + 1))).read t).vx
        = -(((GenerateResponseCPU gl listener g).m_pulseResponse.read
          (INDEX2 0 y (gl.gridSizeY + 1))).read t).pr ∧
      (((GenerateResponseCPU gl listener g).m_pulseResponse.read
          (INDEX2 gl.gridSizeX y (gl.gridSizeY + 1))).read t).vx
        = (((GenerateResponseCPU gl listener g).m_pulseResponse.read
          (INDEX2 ((gl.gridSizeX : Int) - 1) y (gl.gridSizeY + 1))).read t).pr) ∧
    (∀ x : Nat, x < gl.gridSizeX →
      (((GenerateResponseCPU gl listener g).m_pulseResponse.read
          (INDEX2 x 0 (gl.gridSizeY + 1))).read t).vy
        = -(((GenerateResponseCPU gl listener g).m_pulseResponse.read
          (INDEX2 x 0 (gl.gridSizeY + 1))).read t).pr ∧
      (((GenerateResponseCPU gl listener g).m_pulseResponse.read
          (INDEX2 x gl.gridSizeY (gl.gridSizeY + 1))).read t).vy
        = (((GenerateResponseCPU gl listener g).m_pulseResponse.read
          (INDEX2 x ((gl.gridSizeY : Int) - 1) (gl.gridSizeY + 1))).read t).pr) := by
  have hx' : (1 : Int) ≤ gl.gridSizeX := by exact_mod_cast hx
  have hy' : (1 : Int) ≤ gl.gridSizeY := by exact_mod_cast hy
  have key := updatePhases_edge (courant gl) gl.gridSizeX gl.gridSizeY hx hy
    (gridBefore (courant gl) gl.gridSizeX gl.gridSizeY (listenerIndex gl g listener) g.m_pulse
      (forLoop 0 ((gl.gridSizeX + 1) * (gl.gridSizeY + 1)) resetBody g.m_grid) t)
  constructor
  · intro y hyy
    have hyy' : (y : Int) < gl.gridSizeY := by exact_mod_cast hyy
    rw [GenerateResponseCPU_response_in gl listener g _ t
        (index_in_grid gl.gridSizeX gl.gridSizeY 0 y (le_refl 0) (by omega) (by omega)
          (by omega)) ht,
      GenerateResponseCPU_response_in gl listener g _ t
        (index_in_grid gl.gridSizeX gl.gridSizeY gl.gridSizeX y (by omega) (le_refl _)
          (by omega) (by omega)) ht,
      GenerateResponseCPU_response_in gl listener g _ t
        (index_in_grid gl.gridSizeX gl.gridSizeY ((gl.gridSizeX : Int) - 1) y (by omega)
          (by omega) (by omega) (by omega)) ht]
    exact key.1 y hyy
  · intro x hxx
    have hxx' : (x : Int) < gl.gridSizeX := by exact_mod_cast hxx
    rw [GenerateResponseCPU_response_in gl listener g _ t
        (index_in_grid gl.gridSizeX gl.gridSizeY x 0 (by omega) (by omega) (le_refl 0)
          (by omega)) ht,
      GenerateResponseCPU_response_in gl listener g _ t
        (index_in_grid gl.gridSizeX gl.gridSizeY x gl.gridSizeY (by omega) (by omega)
          (by omega) (le_refl _)) ht,
      GenerateResponseCPU_response_in gl listener g _ t
        (index_in_grid gl.gridSizeX gl.gridSizeY x ((gl.gridSizeY : Int) - 1) (by omega)
          (by omega) (by omega) (by omega)) ht]
    exact key.2 x hxx

/-- C6, witness: the cells `(0, 0)`, `(1, 0)` and `(0, 1)` of the 1 by 1 open field at
timestep 1. -/
theorem boundary_absorption_witness :
    ((((GenerateResponseCPU cornerGlobals ⟨0, 0, 0⟩ cornerGrid).m_pulseResponse.read
          (INDEX2 0 (0 : Nat) (cornerGlobals.gridSizeY + 1))).read 1).vx
        = -(((GenerateResponseCPU cornerGlobals ⟨0, 0, 0⟩ cornerGrid).m_pulseResponse.read
          (INDEX2 0 (0 : Nat) (cornerGlobals.gridSizeY + 1))).read 1).pr ∧
      (((GenerateResponseCPU cornerGlobals ⟨0, 0, 0⟩ cornerGrid).m_pulseResponse.read
          (INDEX2 cornerGlobals.gridSizeX (0 : Nat) (cornerGlobals.gridSizeY + 1))).read 1).vx
        = (((GenerateResponseCPU cornerGlobals ⟨0, 0, 0⟩ cornerGrid).m_pulseResponse.read
          (INDEX2 ((cornerGlobals.gridSizeX : Int) - 1) (0 : Nat)
            (cornerGlobals.gridSizeY + 1))).read 1).pr) ∧
    ((((GenerateResponseCPU cornerGlobals ⟨0, 0, 0⟩ cornerGrid).m_pulseResponse.read
          (INDEX2 (0 : Nat) 0 (cornerGlobals.gridSizeY + 1))).read 1).vy
        = -(((GenerateResponseCPU cornerGlobals ⟨0, 0, 0⟩ cornerGrid).m_pulseResponse.read
          (INDEX2 (0 : Nat) 0 (cornerGlobals.gridSizeY + 1))).read 1).pr ∧
      (((GenerateResponseCPU cornerGlobals ⟨0, 0, 0⟩ cornerGrid).m_pulseResponse.read
          (INDEX2 (0 : Nat) cornerGlobals.gridSizeY (cornerGlobals.gridSizeY + 1))).read 1).vy
        = (((GenerateResponseCPU cornerGlobals ⟨0, 0, 0⟩ cornerGrid).m_pulseResponse.read
          (INDEX2 (0 : Nat) ((cornerGlobals.gridSizeY : Int) - 1)
            (cornerGlobals.gridSizeY + 1))).read 1).pr) :=
  ⟨(boundary_absorption cornerGlobals ⟨0, 0, 0⟩ cornerGrid (by decide) (by decide) 1
      (by decide)).1 0 (by decide),
    (boundary_absorption cornerGlobals ⟨0, 0, 0⟩ cornerGrid (by decide) (by decide) 1
      (by decide)).2 0 (by decide)⟩

/-- C7 (unsupported execution mode): `GenerateResponse` throws `pv_InvalidConfig` exactly
when the execution type is not `pv_CPU`; when it throws the grid (cells and response cube)
is the one before the call; with `pv_CPU` it returns normally with the grid that
`GenerateResponseCPU` produces. -/
theorem GenerateResponse_mode (gl : Globals K) (listener : vec3 K) (g : Grid K) :
    ((GenerateResponse gl listener g).1 = Except.error PlaneverbErrors.pv_InvalidConfig ↔
      gl.config.threadExecutionType ≠ PlaneverbExecutionType.pv_CPU) ∧
    (gl.config.threadExecutionType ≠ PlaneverbExecutionType.pv_CPU →
      (GenerateResponse gl listener g).2 = g) ∧
    (gl.config.threadExecutionType = PlaneverbExecutionType.pv_CPU →
      GenerateResponse gl listener g = (Except.ok (), GenerateResponseCPU gl listener g)) := by
  unfold GenerateResponse GenerateResponseGPU
  by_cases h : gl.config.threadExecutionType = PlaneverbExecutionType.pv_CPU
  · simp [h]
  · simp [h]

/-- C7, witness: the open-field grid with the GPU execution type. -/
theorem GenerateResponse_mode_witness :
    (GenerateResponse gpuGlobals ⟨0, 0, 0⟩ openFieldGrid).1
        = Except.error PlaneverbErrors.pv_InvalidConfig ∧
      (GenerateResponse gpuGlobals ⟨0, 0, 0⟩ openFieldGrid).2 = openFieldGrid :=
  ⟨(GenerateResponse_mode gpuGlobals ⟨0, 0, 0⟩ openFieldGrid).1.mpr (by decide),
    (GenerateResponse_mode gpuGlobals ⟨0, 0, 0⟩ openFieldGrid).2.1 (by decide)⟩

/-- C8 (static geometry): `GenerateResponseCPU` leaves the rigidity `b` and the absorption
of every cell as they were, and every snapshot of a grid cell in the response cube carries
the `b` and the absorption the cell had before the call. -/
theorem static_geometry (gl : Globals K) (listener : vec3 K) (g : Grid K) :
    (∀ j : Int,
      ((GenerateResponseCPU gl listener g).m_grid.read j).b = (g.m_grid.read j).b ∧
      ((GenerateResponseCPU gl listener g).m_grid.read j).absorption
        = (g.m_grid.read j).absorption) ∧
    (∀ (i : Int) (t : Nat),
      0 ≤ i → i < (((gl.gridSizeX + 1) * (gl.gridSizeY + 1) : Nat) : Int) →
      t < gl.responseSampleLength →
      (((GenerateResponseCPU gl listener g).m_pulseResponse.read i).read t).b
        = (g.m_grid.read i).b ∧
      (((GenerateResponseCPU gl listener g).m_pulseResponse.read i).read t).absorption
        = (g.m_grid.read i).absorption) := by
  constructor
  · intro j
    exact GenerateResponseCPU_static gl listener g j
  · intro i t h0 h1 ht
    rw [GenerateResponseCPU_response, if_pos ⟨h0, h1, ht⟩]
    exact snapshotCPU_static gl listener g t i

/-- C8, witness: the rigid, absorbing listener cell of `wallGrid` at timestep 3. -/
theorem static_geometry_witness :
    (((GenerateResponseCPU openFieldGlobals ⟨0, 0, 0⟩ wallGrid).m_pulseResponse.read 12).read
        3).b = (wallGrid.m_grid.read 12).b ∧
    (((GenerateResponseCPU openFieldGlobals ⟨0, 0, 0⟩ wallGrid).m_pulseResponse.read 12).read
        3).absorption = (wallGrid.m_grid.read 12).absorption :=
  (static_geometry openFieldGlobals ⟨0, 0, 0⟩ wallGrid).2 12 3 (by decide) (by decide)
    (by decide)

/-- C9 (fresh start): the response cube written by `GenerateResponseCPU` does not depend
on the pressure and velocities the grid cells held before the call; and a second run
right after a first one (listener cell inside the grid) writes the same cube again. -/
theorem fresh_start (gl : Globals K) (listener : vec3 K) (g1 g2 : Grid K)
    (hp : g1.m_pulse = g2.m_pulse) (hw : g1.WorldToGrid = g2.WorldToGrid)
    (hs : ∀ j : Int, (g1.m_grid.read j).b = (g2.m_grid.read j).b ∧
      (g1.m_grid.read j).absorption = (g2.m_grid.read j).absorption)
    (ho : ∀ j : Int, (j < 0 ∨ (((gl.gridSizeX + 1) * (gl.gridSizeY + 1) : Nat) : Int) ≤ j) →
      g1.m_grid.read j = g2.m_grid.read j) :
    (∀ (i : Int) (t : Nat),
      0 ≤ i → i < (((gl.gridSizeX + 1) * (gl.gridSizeY + 1) : Nat) : Int) →
      t < gl.responseSampleLength →
      ((GenerateResponseCPU gl listener g1).m_pulseResponse.read i).read t
        = ((GenerateResponseCPU gl listener g2).m_pulseResponse.read i).read t) ∧
    ((0 ≤ listenerIndex gl g1 listener ∧ listenerIndex gl g1 listener
        < (((gl.gridSizeX + 1) * (gl.gridSizeY + 1) : Nat) : Int)) →
      ∀ (i : Int) (t : Nat),
      0 ≤ i → i < (((gl.gridSizeX + 1) * (gl.gridSizeY + 1) : Nat) : Int) →
      t < gl.responseSampleLength →
      ((GenerateResponseCPU gl listener
          (GenerateResponseCPU gl listener g1)).m_pulseResponse.read i).read t
        = ((GenerateResponseCPU gl listener g1).m_pulseResponse.read i).read t) := by
  constructor
  · intro i t h0 h1 ht
    rw [GenerateResponseCPU_response, GenerateResponseCPU_response, if_pos ⟨h0, h1, ht⟩,
      if_pos ⟨h0, h1, ht⟩, snapshotCPU_congr gl listener g1 g2 hp hw hs ho t]
  · intro hl i t h0 h1 ht
    rw [GenerateResponseCPU_response gl listener (GenerateResponseCPU gl listener g1),
      GenerateResponseCPU_response gl listener g1, if_pos ⟨h0, h1, ht⟩, if_pos ⟨h0, h1, ht⟩,
      snapshotCPU_congr gl listener (GenerateResponseCPU gl listener g1) g1
        (GenerateResponseCPU_pulse gl listener g1).1 (GenerateResponseCPU_pulse gl listener g1).2
        (GenerateResponseCPU_static gl listener g1)
        (GenerateResponseCPU_outside gl listener g1 hl) t]

/-- C9, witness: the open-field scenario started from two different prior fields, and run
twice in a row; cell `(1, 2)`, timestep 2. -/
theorem fresh_start_witness :
    ((GenerateResponseCPU openFieldGlobals ⟨0, 0, 0⟩ openFieldGrid).m_pulseResponse.read
        7).read 2
      = ((GenerateResponseCPU openFieldGlobals ⟨0, 0, 0⟩
          openFieldGridPrior).m_pulseResponse.read 7).read 2 ∧
    ((GenerateResponseCPU openFieldGlobals ⟨0, 0, 0⟩
        (GenerateResponseCPU openFieldGlobals ⟨0, 0, 0⟩ openFieldGrid)).m_pulseResponse.read
        7).read 2
      = ((GenerateResponseCPU openFieldGlobals ⟨0, 0, 0⟩ openFieldGrid).m_pulseResponse.read
          7).read 2 :=
  ⟨(fresh_start openFieldGlobals ⟨0, 0, 0⟩ openFieldGrid openFieldGridPrior rfl rfl
      (by intro j; simp only [openFieldGrid, openFieldGridPrior]; split_ifs <;> exact ⟨rfl, rfl⟩)
      (by
        intro j hj
        have : ¬ (0 ≤ j ∧ j < 25) := by
          intro h; have := h.1; have := h.2; simp [openFieldGlobals] at hj; omega
        simp [openFieldGrid, openFieldGridPrior, this])).1 7 2 (by decide) (by decide)
      (by decide),
    (fresh_start openFieldGlobals ⟨0, 0, 0⟩ openFieldGrid openFieldGridPrior rfl rfl
      (by intro j; simp only [openFieldGrid, openFieldGridPrior]; split_ifs <;> exact ⟨rfl, rfl⟩)
      (by
        intro j hj
        have : ¬ (0 ≤ j ∧ j < 25) := by
          intro h; have := h.1; have := h.2; simp [openFieldGlobals] at hj; omega
        simp [openFieldGrid, openFieldGridPrior, this])).2 (by decide) 7 2 (by decide)
      (by decide) (by decide)⟩

/-- C10 (query consistency): `GetImpulseResponse` returns the series stored under the
index `gx * (sizeY + 1) + gy` of the cell `WorldToGrid` gives for `(p.x, p.z)`, together
with `responseSampleLength`; after a generation the element `t` of the series of a grid
cell is the snapshot taken of that cell at timestep `t`; and `p.y` plays no part. -/
theorem query_consistency (gl : Globals K) (listener : vec3 K) (g : Grid K) (p : vec3 K) :
    GetImpulseResponse gl g p
      = (g.m_pulseResponse.read
          ((g.WorldToGrid ⟨p.x, p.z⟩).1 * ((gl.gridSizeY : Int) + 1)
            + (g.WorldToGrid ⟨p.x, p.z⟩).2), gl.responseSampleLength) ∧
    (GetImpulseResponse gl (GenerateResponseCPU gl listener g) p).2
      = gl.responseSampleLength ∧
    (0 ≤ (g.WorldToGrid ⟨p.x, p.z⟩).1 * ((gl.gridSizeY : Int) + 1)
          + (g.WorldToGrid ⟨p.x, p.z⟩).2 →
      (g.WorldToGrid ⟨p.x, p.z⟩).1 * ((gl.gridSizeY : Int) + 1)
          + (g.WorldToGrid ⟨p.x, p.z⟩).2
        < (((gl.gridSizeX + 1) * (gl.gridSizeY + 1) : Nat) : Int) →
      ∀ t : Nat, t < gl.responseSampleLength →
        (GetImpulseResponse gl (GenerateResponseCPU gl listener g) p).1.read t
          = (snapshotCPU gl listener g t).read
              ((g.WorldToGrid ⟨p.x, p.z⟩).1 * ((gl.gridSizeY : Int) + 1)
                + (g.WorldToGrid ⟨p.x, p.z⟩).2)) ∧
    (∀ y : K, GetImpulseResponse gl g ⟨p.x, y, p.z⟩ = GetImpulseResponse gl g p) := by
  refine ⟨rfl, rfl, ?_, fun _ => rfl⟩
  intro h0 h1 t ht
  show (((GenerateResponseCPU gl listener g).m_pulseResponse.read
    (INDEX2 _ _ _)).read t) = _
  rw [(GenerateResponseCPU_pulse gl listener g).2, GenerateResponseCPU_response]
  unfold INDEX2
  rw [if_pos ⟨h0, h1, ht⟩]

/-- C10, witness: the query at `queryPosition` after a generation of the open-field
scenario, element 3 of the series. -/
theorem query_consistency_witness :
    (GetImpulseResponse openFieldGlobals
        (GenerateResponseCPU openFieldGlobals ⟨0, 0, 0⟩ openFieldGrid) queryPosition).1.read 3
      = (snapshotCPU openFieldGlobals ⟨0, 0, 0⟩ openFieldGrid 3).read
          ((openFieldGrid.WorldToGrid ⟨queryPosition.x, queryPosition.z⟩).1
              * ((openFieldGlobals.gridSizeY : Int) + 1)
            + (openFieldGrid.WorldToGrid ⟨queryPosition.x, queryPosition.z⟩).2) :=
  (query_consistency openFieldGlobals ⟨0, 0, 0⟩ openFieldGrid queryPosition).2.2.1
    (by decide) (by decide) 3 (by decide)

omit [Field K] in
theorem listenerIndex_dynamic (gl : Globals K) (g : Grid K) (listener : vec3 K)
    (h : gl.config.gridCenteringType ≠ PlaneverbGridCenteringType.pv_StaticCentering) :
    listenerIndex gl g listener
      = INDEX2 ((gl.gridSizeX / 2 : Nat) : Int) ((gl.gridSizeY / 2 : Nat) : Int)
          ((gl.gridSizeY : Int) + 1) := by
  have hx : ((gl.gridSizeX / 2 : Nat) : Int) = (gl.gridSizeX : Int) / 2 := by omega
  have hy : ((gl.gridSizeY / 2 : Nat) : Int) = (gl.gridSizeY : Int) / 2 := by omega
  simp only [listenerIndex, if_neg h, hx, hy]

/-- One iteration of the time loop leaves in `m_grid` the field of the update phases with
`m_pulse[t]` added to the pressure of the cell `listenerPos`, and nothing else changed. -/
theorem timeStep_injection (Courant : K) (gridx gridy : Nat) (listenerPos : Int) (t : Nat)
    (g : Grid K) (j : Int) :
    ((timeStep Courant gridx gridy listenerPos t g).m_grid.read j).pr
      = ((updatePhases Courant gridx gridy g.m_grid).read j).pr
          + (if j = listenerPos then g.m_pulse t else 0) ∧
    ((timeStep Courant gridx gridy listenerPos t g).m_grid.read j).vx
      = ((updatePhases Courant gridx gridy g.m_grid).read j).vx ∧
    ((timeStep Courant gridx gridy listenerPos t g).m_grid.read j).vy
      = ((updatePhases Courant gridx gridy g.m_grid).read j).vy := by
  show ((injectPulse listenerPos (g.m_pulse t) _).read j).pr = _ ∧
    ((injectPulse listenerPos (g.m_pulse t) _).read j).vx = _ ∧
    ((injectPulse listenerPos (g.m_pulse t) _).read j).vy = _
  rw [injectPulse_read]
  split_ifs with h
  · exact ⟨rfl, rfl, rfl⟩
  · exact ⟨(add_zero _).symm, rfl, rfl⟩

/-- The grid after a run of at least one timestep is the last recorded snapshot with the
last excitation sample added to the pressure of the listener cell. -/
theorem GenerateResponseCPU_injection (gl : Globals K) (listener : vec3 K) (g : Grid K)
    (hlen : 0 < gl.responseSampleLength) (j : Int)
    (hj : 0 ≤ j ∧ j < (((gl.gridSizeX + 1) * (gl.gridSizeY + 1) : Nat) : Int)) :
    ((GenerateResponseCPU gl listener g).m_grid.read j).pr
      = (((GenerateResponseCPU gl listener g).m_pulseResponse.read j).read
            (gl.responseSampleLength - 1)).pr
          + (if j = listenerIndex gl g listener then g.m_pulse (gl.responseSampleLength - 1)
              else 0) ∧
    ((GenerateResponseCPU gl listener g).m_grid.read j).vx
      = (((GenerateResponseCPU gl listener g).m_pulseResponse.read j).read
            (gl.responseSampleLength - 1)).vx ∧
    ((GenerateResponseCPU gl listener g).m_grid.read j).vy
      = (((GenerateResponseCPU gl listener g).m_pulseResponse.read j).read
            (gl.responseSampleLength - 1)).vy := by
  rw [GenerateResponseCPU_response_in gl listener g j (gl.responseSampleLength - 1) hj
    (by omega), GenerateResponseCPU_grid]
  obtain ⟨n, hn⟩ : ∃ n, gl.responseSampleLength = n + 1 := ⟨gl.responseSampleLength - 1, by omega⟩
  rw [hn, Nat.add_sub_cancel]
  unfold snapshotCPU gridRecorded
  simp only [gridBefore]
  rw [injectPulse_read]
  split_ifs with h
  · exact ⟨rfl, rfl, rfl⟩
  · exact ⟨(add_zero _).symm, rfl, rfl⟩

/-- C11 (listener-centred mode): when the centering type is not `pv_StaticCentering`, the
injection index is that of cell `(sizeX div 2, sizeY div 2)`, which is
`(sizeX div 2) * (sizeY + 1) + (sizeY div 2)` and lies inside the grid, for every listener
position: the time loop runs with it, every iteration adds `m_pulse[t]` to the pressure of
that cell and of no other, the grid after the call is the last snapshot with the last
sample added to the pressure of that cell, and two listener positions give the same state
after the call (response cube included).  When it is `pv_StaticCentering`, the same holds
with the index of the cell `WorldToGrid` gives for `(listener.x, listener.z)`, with the
stride `sizeY + 1`, which is the entry `GetResponse` returns for that position. -/
theorem listener_centred_mode (gl : Globals K) (g : Grid K) (listener listener2 : vec3 K) :
    (gl.config.gridCenteringType ≠ PlaneverbGridCenteringType.pv_StaticCentering →
      listenerIndex gl g listener
        = INDEX2 ((gl.gridSizeX / 2 : Nat) : Int) ((gl.gridSizeY / 2 : Nat) : Int)
            ((gl.gridSizeY : Int) + 1) ∧
      listenerIndex gl g listener
        = ((gl.gridSizeX / 2 : Nat) : Int) * ((gl.gridSizeY : Int) + 1)
            + ((gl.gridSizeY / 2 : Nat) : Int) ∧
      GenerateResponseCPU gl listener g
        = forLoop 0 gl.responseSampleLength
            (timeStep (courant gl) gl.gridSizeX gl.gridSizeY
              (((gl.gridSizeX / 2 : Nat) : Int) * ((gl.gridSizeY : Int) + 1)
                + ((gl.gridSizeY / 2 : Nat) : Int)))
            { g with m_grid :=
                forLoop 0 ((gl.gridSizeX + 1) * (gl.gridSizeY + 1)) resetBody g.m_grid } ∧
      GenerateResponseCPU gl listener g = GenerateResponseCPU gl listener2 g ∧
      (0 ≤ ((gl.gridSizeX / 2 : Nat) : Int) * ((gl.gridSizeY : Int) + 1)
            + ((gl.gridSizeY / 2 : Nat) : Int) ∧
        ((gl.gridSizeX / 2 : Nat) : Int) * ((gl.gridSizeY : Int) + 1)
            + ((gl.gridSizeY / 2 : Nat) : Int)
          < (((gl.gridSizeX + 1) * (gl.gridSizeY + 1) : Nat) : Int)) ∧
      (∀ (t : Nat) (s : Grid K) (j : Int),
        ((timeStep (courant gl) gl.gridSizeX gl.gridSizeY (listenerIndex gl g listener) t
            s).m_grid.read j).pr
          = ((updatePhases (courant gl) gl.gridSizeX gl.gridSizeY s.m_grid).read j).pr
              + (if j = ((gl.gridSizeX / 2 : Nat) : Int) * ((gl.gridSizeY : Int) + 1)
                    + ((gl.gridSizeY / 2 : Nat) : Int) then s.m_pulse t else 0) ∧
        ((timeStep (courant gl) gl.gridSizeX gl.gridSizeY (listenerIndex gl g listener) t
            s).m_grid.read j).vx
          = ((updatePhases (courant gl) gl.gridSizeX gl.gridSizeY s.m_grid).read j).vx ∧
        ((timeStep (courant gl) gl.gridSizeX gl.gridSizeY (listenerIndex gl g listener) t
            s).m_grid.read j).vy
          = ((updatePhases (courant gl) gl.gridSizeX gl.gridSizeY s.m_grid).read j).vy) ∧
      (0 < gl.responseSampleLength → ∀ j : Int,
        0 ≤ j ∧ j < (((gl.gridSizeX + 1) * (gl.gridSizeY + 1) : Nat) : Int) →
        ((GenerateResponseCPU gl listener g).m_grid.read j).pr
          = (((GenerateResponseCPU gl listener g).m_pulseResponse.read j).read
                (gl.responseSampleLength - 1)).pr
              + (if j = ((gl.gridSizeX / 2 : Nat) : Int) * ((gl.gridSizeY : Int) + 1)
                    + ((gl.gridSizeY / 2 : Nat) : Int)
                  then g.m_pulse (gl.responseSampleLength - 1) else 0) ∧
        ((GenerateResponseCPU gl listener g).m_grid.read j).vx
          = (((GenerateResponseCPU gl listener g).m_pulseResponse.read j).read
                (gl.responseSampleLength - 1)).vx ∧
        ((GenerateResponseCPU gl listener g).m_grid.read j).vy
          = (((GenerateResponseCPU gl listener g).m_pulseResponse.read j).read
                (gl.responseSampleLength - 1)).vy)) ∧
    (gl.config.gridCenteringType = PlaneverbGridCenteringType.pv_StaticCentering →
      listenerIndex gl g listener
        = INDEX2 (g.WorldToGrid ⟨listener.x, listener.z⟩).1
            (g.WorldToGrid ⟨listener.x, listener.z⟩).2 ((gl.gridSizeY : Int) + 1) ∧
      GenerateResponseCPU gl listener g
        = forLoop 0 gl.responseSampleLength
            (timeStep (courant gl) gl.gridSizeX gl.gridSizeY
              (INDEX2 (g.WorldToGrid ⟨listener.x, listener.z⟩).1
                (g.WorldToGrid ⟨listener.x, listener.z⟩).2 ((gl.gridSizeY : Int) + 1)))
            { g with m_grid :=
                forLoop 0 ((gl.gridSizeX + 1) * (gl.gridSizeY + 1)) resetBody g.m_grid } ∧
      GetResponse gl (GenerateResponseCPU gl listener g) ⟨listener.x, listener.z⟩
        = (GenerateResponseCPU gl listener g).m_pulseResponse.read
            (listenerIndex gl g listener) ∧
      (∀ (t : Nat) (s : Grid K) (j : Int),
        ((timeStep (courant gl) gl.gridSizeX gl.gridSizeY (listenerIndex gl g listener) t
            s).m_grid.read j).pr
          = ((updatePhases (courant gl) gl.gridSizeX gl.gridSizeY s.m_grid).read j).pr
              + (if j = INDEX2 (g.WorldToGrid ⟨listener.x, listener.z⟩).1
                    (g.WorldToGrid ⟨listener.x, listener.z⟩).2 ((gl.gridSizeY : Int) + 1)
                  then s.m_pulse t else 0) ∧
        ((timeStep (courant gl) gl.gridSizeX gl.gridSizeY (listenerIndex gl g listener) t
            s).m_grid.read j).vx
          = ((updatePhases (courant gl) gl.gridSizeX gl.gridSizeY s.m_grid).read j).vx ∧
        ((timeStep (courant gl) gl.gridSizeX gl.gridSizeY (listenerIndex gl g listener) t
            s).m_grid.read j).vy
          = ((updatePhases (courant gl) gl.gridSizeX gl.gridSizeY s.m_grid).read j).vy) ∧
      (0 < gl.responseSampleLength → ∀ j : Int,
        0 ≤ j ∧ j < (((gl.gridSizeX + 1) * (gl.gridSizeY + 1) : Nat) : Int) →
        ((GenerateResponseCPU gl listener g).m_grid.read j).pr
          = (((GenerateResponseCPU gl listener g).m_pulseResponse.read j).read
                (gl.responseSampleLength - 1)).pr
              + (if j = INDEX2 (g.WorldToGrid ⟨listener.x, listener.z⟩).1
                    (g.WorldToGrid ⟨listener.x, listener.z⟩).2 ((gl.gridSizeY : Int) + 1)
                  then g.m_pulse (gl.responseSampleLength - 1) else 0) ∧
        ((GenerateResponseCPU gl listener g).m_grid.read j).vx
          = (((GenerateResponseCPU gl listener g).m_pulseResponse.read j).read
                (gl.responseSampleLength - 1)).vx ∧
        ((GenerateResponseCPU gl listener g).m_grid.read j).vy
          = (((GenerateResponseCPU gl listener g).m_pulseResponse.read j).read
                (gl.responseSampleLength - 1)).vy)) := by
  constructor
  · intro h
    have h1 := listenerIndex_dynamic gl g listener h
    have h2 := listenerIndex_dynamic gl g listener2 h
    have h3 : listenerIndex gl g listener
        = ((gl.gridSizeX / 2 : Nat) : Int) * ((gl.gridSizeY : Int) + 1)
            + ((gl.gridSizeY / 2 : Nat) : Int) := h1
    have hin := index_in_grid gl.gridSizeX gl.gridSizeY ((gl.gridSizeX / 2 : Nat) : Int)
      ((gl.gridSizeY / 2 : Nat) : Int) (Int.natCast_nonneg _) (by omega)
      (Int.natCast_nonneg _) (by omega)
    refine ⟨h1, h1, ?_, ?_, hin, ?_, ?_⟩
    · simp only [GenerateResponseCPU, h1, INDEX2]
    · simp only [GenerateResponseCPU, h1, h2]
    · intro t s j
      have := timeStep_injection (courant gl) gl.gridSizeX gl.gridSizeY
        (listenerIndex gl g listener) t s j
      rw [h3] at this ⊢
      exact this
    · intro hlen j hj
      have := GenerateResponseCPU_injection gl listener g hlen j hj
      rw [h3] at this
      exact this
  · intro h
    have h1 : listenerIndex gl g listener
        = INDEX2 (g.WorldToGrid ⟨listener.x, listener.z⟩).1
            (g.WorldToGrid ⟨listener.x, listener.z⟩).2 ((gl.gridSizeY : Int) + 1) := by
      simp only [listenerIndex, if_pos h]
    refine ⟨h1, ?_, ?_, ?_, ?_⟩
    · simp only [GenerateResponseCPU, h1]
    · simp only [GetResponse, (GenerateResponseCPU_pulse gl listener g).2, h1]
    · intro t s j
      have := timeStep_injection (courant gl) gl.gridSizeX gl.gridSizeY
        (listenerIndex gl g listener) t s j
      rw [h1] at this ⊢
      exact this
    · intro hlen j hj
      have := GenerateResponseCPU_injection gl listener g hlen j hj
      rw [h1] at this
      exact this

/-- C11, witness: in the listener-centred 4 by 4 configuration two listener positions give
the same state, and the pressure of the centre cell 12 after the call is the one of the
last snapshot plus the last excitation sample; in the static open-field configuration the
injection index is the one of the cell `WorldToGrid` returns. -/
theorem listener_centred_mode_witness :
    GenerateResponseCPU dynamicGlobals ⟨0, 0, 0⟩ openFieldGrid
      = GenerateResponseCPU dynamicGlobals queryPosition openFieldGrid ∧
    ((GenerateResponseCPU dynamicGlobals ⟨0, 0, 0⟩ openFieldGrid).m_grid.read 12).pr
      = (((GenerateResponseCPU dynamicGlobals ⟨0, 0, 0⟩ openFieldGrid).m_pulseResponse.read
            12).read (dynamicGlobals.responseSampleLength - 1)).pr
          + (if (12 : Int)
                = ((dynamicGlobals.gridSizeX / 2 : Nat) : Int)
                    * ((dynamicGlobals.gridSizeY : Int) + 1)
                  + ((dynamicGlobals.gridSizeY / 2 : Nat) : Int)
              then openFieldGrid.m_pulse (dynamicGlobals.responseSampleLength - 1) else 0) ∧
    listenerIndex openFieldGlobals openFieldGrid queryPosition
      = INDEX2 (openFieldGrid.WorldToGrid ⟨queryPosition.x, queryPosition.z⟩).1
          (openFieldGrid.WorldToGrid ⟨queryPosition.x, queryPosition.z⟩).2
          ((openFieldGlobals.gridSizeY : Int) + 1) :=
  ⟨((listener_centred_mode dynamicGlobals openFieldGrid ⟨0, 0, 0⟩ queryPosition).1
      (by decide)).2.2.2.1,
   (((listener_centred_mode dynamicGlobals openFieldGrid ⟨0, 0, 0⟩ queryPosition).1
      (by decide)).2.2.2.2.2.2 (by decide) 12 (by decide)).1,
   ((listener_centred_mode openFieldGlobals openFieldGrid queryPosition queryPosition).2
      rfl).1⟩

/-- C12 (branch-free boundary blending): the value the x velocity loop stores in `vx` of
cell `i`, with backward neighbour `i - (sizeY + 1)`, and the value the y velocity loop
stores in `vy` of cell `i`, with backward neighbour `i - 1`, are: the free-field update
`v - Courant * (pr - pr_prev)` when both cells are air; the admittance of this cell times
the pressure of the neighbour when this cell is the wall; minus the admittance of the
neighbour times the pressure of this cell when the neighbour is the wall; zero when both
are walls.  The admittance of a cell is `(1 - absorption) / (1 + absorption)`. -/
theorem boundary_blending (Courant : K) (gridy : Nat) (m : Mem Int (Cell K)) (i : Int) :
    ((m.read i).b = 1 → (m.read (i - gridy - 1)).b = 1 →
      (vxCell Courant gridy m i).vx
        = (m.read i).vx - Courant * ((m.read i).pr - (m.read (i - gridy - 1)).pr)) ∧
    ((m.read i).b = 0 → (m.read (i - gridy - 1)).b = 1 →
      (vxCell Courant gridy m i).vx
        = (1 - (m.read i).absorption) / (1 + (m.read i).absorption)
            * (m.read (i - gridy - 1)).pr) ∧
    ((m.read i).b = 1 → (m.read (i - gridy - 1)).b = 0 →
      (vxCell Courant gridy m i).vx
        = -((1 - (m.read (i - gridy - 1)).absorption)
              / (1 + (m.read (i - gridy - 1)).absorption)) * (m.read i).pr) ∧
    ((m.read i).b = 0 → (m.read (i - gridy - 1)).b = 0 →
      (vxCell Courant gridy m i).vx = 0) ∧
    ((m.read i).b = 1 → (m.read (i - 1)).b = 1 →
      (vyCell Courant m i).vy
        = (m.read i).vy - Courant * ((m.read i).pr - (m.read (i - 1)).pr)) ∧
    ((m.read i).b = 0 → (m.read (i - 1)).b = 1 →
      (vyCell Courant m i).vy
        = (1 - (m.read i).absorption) / (1 + (m.read i).absorption) * (m.read (i - 1)).pr) ∧
    ((m.read i).b = 1 → (m.read (i - 1)).b = 0 →
      (vyCell Courant m i).vy
        = -((1 - (m.read (i - 1)).absorption) / (1 + (m.read (i - 1)).absorption))
            * (m.read i).pr) ∧
    ((m.read i).b = 0 → (m.read (i - 1)).b = 0 → (vyCell Courant m i).vy = 0) := by
  refine ⟨?_, ?_, ?_, ?_, ?_, ?_, ?_, ?_⟩ <;> intro hb hp <;>
    simp only [vxCell, vyCell, velocityUpdate, hb, hp, Int.cast_one, Int.cast_zero] <;> ring

/-- C12, witness: in `wallGrid` cell 12 is a wall and its backward neighbours 7 and 11 are
air; the velocities stored there are the reflection term alone. -/
theorem boundary_blending_witness :
    (vxCell (1 : ℚ) 4 wallGrid.m_grid 12).vx
      = (1 - (wallGrid.m_grid.read 12).absorption) / (1 + (wallGrid.m_grid.read 12).absorption)
          * (wallGrid.m_grid.read (12 - ((4 : Nat) : Int) - 1)).pr ∧
    (vyCell (1 : ℚ) wallGrid.m_grid 12).vy
      = (1 - (wallGrid.m_grid.read 12).absorption) / (1 + (wallGrid.m_grid.read 12).absorption)
          * (wallGrid.m_grid.read (12 - 1)).pr :=
  ⟨(boundary_blending (1 : ℚ) 4 wallGrid.m_grid 12).2.1 (by simp [wallGrid])
      (by simp [wallGrid]),
   (boundary_blending (1 : ℚ) 4 wallGrid.m_grid 12).2.2.2.2.2.1 (by simp [wallGrid])
      (by simp [wallGrid])⟩

/-! ## Loops and visiting orders -/

omit [Field K] in
theorem forUpTo_eq_foldl {σ : Type} (body : Nat → σ → σ) (n : Nat) (s : σ) :
    forUpTo body n s = (List.range n).foldl (fun s i => body i s) s := by
  induction n with
  | zero => rfl
  | succ n ih =>
    rw [List.range_succ, List.foldl_append]
    show body n (forUpTo body n s) = _
    rw [ih]
    rfl

omit [Field K] in
theorem forLoop_eq_foldl {σ : Type} (lo hi : Nat) (body : Nat → σ → σ) (s : σ) :
    forLoop lo hi body s = (List.range' lo (hi - lo)).foldl (fun s i => body i s) s := by
  unfold forLoop
  rw [forUpTo_eq_foldl, List.range'_eq_map_range, List.foldl_map]

omit [Field K] in
/-- A loop whose iterations commute pairwise gives the same state in every visiting
order of its index range. -/
theorem forLoop_perm {σ : Type} (lo hi : Nat) (body : Nat → σ → σ)
    (hc : ∀ i j, lo ≤ i → i < hi → lo ≤ j → j < hi → i ≠ j →
      ∀ s, body j (body i s) = body i (body j s))
    (l : List Nat) (hl : l.Perm (List.range' lo (hi - lo))) (s : σ) :
    l.foldl (fun s i => body i s) s = forLoop lo hi body s := by
  rw [forLoop_eq_foldl]
  apply List.Perm.foldl_eq' hl
  intro x hx y hy z
  have hx2 := List.mem_range'_1.mp ((List.Perm.mem_iff hl).mp hx)
  have hy2 := List.mem_range'_1.mp ((List.Perm.mem_iff hl).mp hy)
  by_cases hxy : x = y
  · subst hxy; rfl
  · exact hc x y hx2.1 (by omega) hy2.1 (by omega) hxy z

omit [Field K] in
theorem write_comm_of_stable {α : Type} (f : Mem Int α → Int → α) (i j : Int) (hij : i ≠ j)
    (m : Mem Int α) (h1 : f (m.write j (f m j)) i = f m i)
    (h2 : f (m.write i (f m i)) j = f m j) :
    (m.write j (f m j)).write i (f (m.write j (f m j)) i)
      = (m.write i (f m i)).write j (f (m.write i (f m i)) j) := by
  rw [h1, h2]
  apply Mem.ext
  intro k
  simp only [Mem.read_write]
  by_cases hki : k = i
  · have hkj : k ≠ j := fun h => hij (hki.symm.trans h)
    rw [if_pos hki, if_neg hkj, if_pos hki]
  · rw [if_neg hki, if_neg hki]

theorem pressureCell_stable (Courant : K) (gridy : Nat) (m : Mem Int (Cell K)) (i j : Int)
    (hij : i ≠ j) :
    pressureCell Courant gridy (m.write j (pressureCell Courant gridy m j)) i
      = pressureCell Courant gridy m i := by
  have hvx : ((m.write j (pressureCell Courant gridy m j)).read (i + gridy + 1)).vx
      = (m.read (i + gridy + 1)).vx := by
    rw [Mem.read_write]
    split_ifs with h
    · rw [h]; rfl
    · rfl
  have hvy : ((m.write j (pressureCell Courant gridy m j)).read (i + 1)).vy
      = (m.read (i + 1)).vy := by
    rw [Mem.read_write]
    split_ifs with h
    · rw [h]; rfl
    · rfl
  have hi : (m.write j (pressureCell Courant gridy m j)).read i = m.read i := by
    rw [Mem.read_write, if_neg hij]
  simp only [pressureCell] at hvx hvy hi ⊢
  rw [hvx, hvy, hi]

theorem vxCell_stable (Courant : K) (gridy : Nat) (m : Mem Int (Cell K)) (i j : Int)
    (hij : i ≠ j) :
    vxCell Courant gridy (m.write j (vxCell Courant gridy m j)) i
      = vxCell Courant gridy m i := by
  simp only [vxCell, Mem.read_write, if_neg hij]
  congr 1
  apply velocityUpdate_congr
  · split_ifs with h
    · rw [h]; exact ⟨rfl, rfl, rfl⟩
    · exact ⟨rfl, rfl, rfl⟩
  · exact ⟨rfl, rfl, rfl⟩

theorem vyCell_stable (Courant : K) (m : Mem Int (Cell K)) (i j : Int) (hij : i ≠ j) :
    vyCell Courant (m.write j (vyCell Courant m j)) i = vyCell Courant m i := by
  simp only [vyCell, Mem.read_write, if_neg hij]
  congr 1
  apply velocityUpdate_congr
  · split_ifs with h
    · rw [h]; exact ⟨rfl, rfl, rfl⟩
    · exact ⟨rfl, rfl, rfl⟩
  · exact ⟨rfl, rfl, rfl⟩

theorem pressureBody_comm (Courant : K) (gridy : Nat) (i j : Nat) (hij : i ≠ j)
    (m : Mem Int (Cell K)) :
    pressureBody Courant gridy j (pressureBody Courant gridy i m)
      = pressureBody Courant gridy i (pressureBody Courant gridy j m) := by
  have h : (j : Int) ≠ (i : Int) := by omega
  exact write_comm_of_stable (fun m i => pressureCell Courant gridy m i) j i h m
    (pressureCell_stable _ _ _ _ _ h) (pressureCell_stable _ _ _ _ _ h.symm)

theorem vxBody_comm (Courant : K) (gridy : Nat) (i j : Nat) (hij : i ≠ j)
    (m : Mem Int (Cell K)) :
    vxBody Courant gridy j (vxBody Courant gridy i m)
      = vxBody Courant gridy i (vxBody Courant gridy j m) := by
  have h : (j : Int) ≠ (i : Int) := by omega
  exact write_comm_of_stable (fun m i => vxCell Courant gridy m i) j i h m
    (vxCell_stable _ _ _ _ _ h) (vxCell_stable _ _ _ _ _ h.symm)

theorem vyBody_comm (Courant : K) (i j : Nat) (hij : i ≠ j) (m : Mem Int (Cell K)) :
    vyBody Courant j (vyBody Courant i m) = vyBody Courant i (vyBody Courant j m) := by
  have h : (j : Int) ≠ (i : Int) := by omega
  exact write_comm_of_stable (fun m i => vyCell Courant m i) j i h m
    (vyCell_stable _ _ _ _ h) (vyCell_stable _ _ _ _ h.symm)

omit [Field K] in
theorem recordBody_comm (t : Nat) (m : Mem Int (Cell K)) (i j : Nat) (hij : i ≠ j)
    (r : Mem Int (Mem Nat (Cell K))) :
    recordBody t m j (recordBody t m i r) = recordBody t m i (recordBody t m j r) := by
  have h : (j : Int) ≠ (i : Int) := by omega
  exact write_comm_of_stable
    (fun (r : Mem Int (Mem Nat (Cell K))) i => (r.read i).write t (m.read i)) j i h r
    (by simp only [Mem.read_write, if_neg h]) (by simp only [Mem.read_write, if_neg h.symm])

theorem absorbTopBottomBody_read (gridx gridy k : Nat) (M : Mem Int (Cell K)) (j : Int) :
    (absorbTopBottomBody gridx gridy k M).read j =
      if j = (gridx : Int) * (gridy + 1) + k then
        { M.read j with vx := (M.read (j - gridy - 1)).pr }
      else if j = (k : Int) then { M.read j with vx := -(M.read j).pr }
      else M.read j := by
  simp only [absorbTopBottomBody, Mem.read_write]
  generalize (gridx : Int) * ((gridy : Int) + 1) = X
  split_ifs <;> first | omega | rfl | skip
  all_goals
    simp only [Cell.mk.injEq]
    refine ⟨?_, ?_, ?_, ?_, ?_⟩ <;>
      first
      | rfl
      | (rw [readField_congr M (show j = (k : Int) by omega)])
      | (rw [readField_congr M (show j = X + (k : Int) by omega)])
      | (rw [readField_congr M (show (k : Int) = X + k by omega)])
      | (rw [readField_congr M (show X + (k : Int) - gridy - 1 = j - gridy - 1 by omega)])
      | (rw [readField_congr M (show (k : Int) = j - gridy - 1 by omega)])

/-- Two iterations of the top/bottom loop store into different cells and commute. -/
theorem absorbTopBottomBody_comm (gridx gridy i j : Nat) (hi : i < gridy) (hj : j < gridy)
    (hij : i ≠ j) (m : Mem Int (Cell K)) :
    absorbTopBottomBody gridx gridy j (absorbTopBottomBody gridx gridy i m)
      = absorbTopBottomBody gridx gridy i (absorbTopBottomBody gridx gridy j m) := by
  have hX : (gridx : Int) * (gridy + 1) = 0 ∨
      (gridy : Int) + 1 ≤ (gridx : Int) * (gridy + 1) := by
    rcases Nat.eq_zero_or_pos gridx with h | h
    · left; simp [h]
    · right
      have : (1 : Int) ≤ gridx := by exact_mod_cast h
      nlinarith
  apply Mem.ext; intro k
  simp only [absorbTopBottomBody_read]
  generalize (gridx : Int) * ((gridy : Int) + 1) = X at hX ⊢
  split_ifs <;> first | omega | rfl

/-- Two iterations of the left/right loop store into different cells and commute. -/
theorem absorbLeftRightBody_comm (gridy i j : Nat) (hij : i ≠ j) (m : Mem Int (Cell K)) :
    absorbLeftRightBody gridy j (absorbLeftRightBody gridy i m)
      = absorbLeftRightBody gridy i (absorbLeftRightBody gridy j m) := by
  have hrow : (i : Int) * (gridy + 1) + gridy < (j : Int) * (gridy + 1) ∨
      (j : Int) * (gridy + 1) + gridy < (i : Int) * (gridy + 1) := by
    rcases Nat.lt_or_gt_of_ne hij with h | h
    · exact Or.inl (row_lt gridy i j h)
    · exact Or.inr (row_lt gridy j i h)
  have hg : (0 : Int) ≤ gridy := Int.natCast_nonneg gridy
  apply Mem.ext; intro k
  simp only [absorbLeftRightBody_read]
  generalize (i : Int) * ((gridy : Int) + 1) = A at hrow ⊢
  generalize (j : Int) * ((gridy : Int) + 1) = B at hrow ⊢
  split_ifs <;> first | omega | rfl

/-- C13 (phase independence): for `sizeX, sizeY ≥ 1`, each loop of a timestep (pressure,
x velocity, y velocity, the two edge-absorption loops, recording), run in place and in
the order of the source, gives the field of the simultaneous update, in which the new
value of every cell is computed from the field as it was when the loop began; and so does
the same body run over any other visiting order `l` of the index range of the loop.  No
cell is stored twice by an edge-absorption loop. -/
theorem phase_independence (Courant : K) (gridx gridy : Nat) (hx : 1 ≤ gridx)
    (hy : 1 ≤ gridy) (m : Mem Int (Cell K)) (t : Nat) (r : Mem Int (Mem Nat (Cell K))) :
    (forLoop 0 ((gridx + 1) * (gridy + 1)) (pressureBody Courant gridy) m
        = pressureSimultaneous Courant gridx gridy m ∧
      ∀ l : List Nat, l.Perm (List.range' 0 ((gridx + 1) * (gridy + 1))) →
        l.foldl (fun s i => pressureBody Courant gridy i s) m
          = pressureSimultaneous Courant gridx gridy m) ∧
    (forLoop (gridy + 1) ((gridx + 1) * (gridy + 1)) (vxBody Courant gridy) m
        = vxSimultaneous Courant gridx gridy m ∧
      ∀ l : List Nat, l.Perm (List.range' (gridy + 1) (gridx * (gridy + 1))) →
        l.foldl (fun s i => vxBody Courant gridy i s) m
          = vxSimultaneous Courant gridx gridy m) ∧
    (forLoop 1 ((gridx + 1) * (gridy + 1)) (vyBody Courant) m
        = vySimultaneous Courant gridx gridy m ∧
      ∀ l : List Nat, l.Perm (List.range' 1 ((gridx + 1) * (gridy + 1) - 1)) →
        l.foldl (fun s i => vyBody Courant i s) m = vySimultaneous Courant gridx gridy m) ∧
    (forLoop 0 gridy (absorbTopBottomBody gridx gridy) m
        = absorbTopBottomSimultaneous gridx gridy gridy m ∧
      (∀ l : List Nat, l.Perm (List.range' 0 gridy) →
        l.foldl (fun s i => absorbTopBottomBody gridx gridy i s) m
          = absorbTopBottomSimultaneous gridx gridy gridy m) ∧
      ∀ i j : Nat, i < gridy → j < gridy → (i : Int) ≠ (gridx : Int) * (gridy + 1) + j) ∧
    (forLoop 0 gridx (absorbLeftRightBody gridy) m
        = absorbLeftRightSimultaneous gridy gridx m ∧
      (∀ l : List Nat, l.Perm (List.range' 0 gridx) →
        l.foldl (fun s i => absorbLeftRightBody gridy i s) m
          = absorbLeftRightSimultaneous gridy gridx m) ∧
      ∀ i j : Nat, i < gridx → j < gridx →
        (i : Int) * (gridy + 1) ≠ (j : Int) * (gridy + 1) + gridy) ∧
    (forLoop 0 ((gridx + 1) * (gridy + 1)) (recordBody t m) r
        = ⟨fun i => if 0 ≤ i ∧ i < (((gridx + 1) * (gridy + 1) : Nat) : Int) then
            (r.read i).write t (m.read i) else r.read i⟩ ∧
      ∀ l : List Nat, l.Perm (List.range' 0 ((gridx + 1) * (gridy + 1))) →
        l.foldl (fun s i => recordBody t m i s) r
          = ⟨fun i => if 0 ≤ i ∧ i < (((gridx + 1) * (gridy + 1) : Nat) : Int) then
              (r.read i).write t (m.read i) else r.read i⟩) := by
  have hlen : (gridx + 1) * (gridy + 1) - (gridy + 1) = gridx * (gridy + 1) := by
    rw [Nat.add_mul, Nat.one_mul, Nat.add_sub_cancel]
  refine ⟨⟨pressureLoop_eq _ _ _ _, ?_⟩, ⟨vxLoop_eq _ _ _ _, ?_⟩, ⟨vyLoop_eq _ _ _ _, ?_⟩,
    ⟨absorbTopBottomLoop_eq _ _ _, ?_, ?_⟩, ⟨absorbLeftRightLoop_eq _ _ _, ?_, ?_⟩,
    ⟨recordLoop_eq _ _ _ _, ?_⟩⟩
  · intro l hl
    rw [← pressureLoop_eq]
    exact forLoop_perm 0 _ _ (fun i j _ _ _ _ hij s => pressureBody_comm _ _ i j hij s) l hl m
  · intro l hl
    rw [← vxLoop_eq]
    exact forLoop_perm (gridy + 1) _ _ (fun i j _ _ _ _ hij s => vxBody_comm _ _ i j hij s) l
      (by rw [hlen]; exact hl) m
  · intro l hl
    rw [← vyLoop_eq]
    exact forLoop_perm 1 _ _ (fun i j _ _ _ _ hij s => vyBody_comm _ i j hij s) l hl m
  · intro l hl
    rw [← absorbTopBottomLoop_eq]
    exact forLoop_perm 0 _ _
      (fun i j _ hi _ hj hij s => absorbTopBottomBody_comm _ _ i j hi hj hij s) l hl m
  · intro i j hi hj
    have h1 : (1 : Int) ≤ gridx := by exact_mod_cast hx
    have h2 : (i : Int) < gridy := by exact_mod_cast hi
    have h3 : (0 : Int) ≤ j := Int.natCast_nonneg j
    nlinarith
  · intro l hl
    rw [← absorbLeftRightLoop_eq]
    exact forLoop_perm 0 _ _ (fun i j _ _ _ _ hij s => absorbLeftRightBody_comm _ i j hij s) l
      hl m
  · intro i j hi hj heq
    have h1 : (1 : Int) ≤ gridy := by exact_mod_cast hy
    rcases Nat.lt_trichotomy i j with h | h | h
    · have := row_lt gridy i j h
      omega
    · subst h
      omega
    · have := row_lt gridy j i h
      omega
  · intro l hl
    rw [← recordLoop_eq]
    exact forLoop_perm 0 _ _ (fun i j _ _ _ _ hij s => recordBody_comm _ _ i j hij s) l hl r

/-- C13, witness: the pressure loop of the 1 by 1 grid run in the order 3, 1, 0, 2, and
the top/bottom absorption loop of the 4 by 4 grid run in the order 2, 0, 3, 1. -/
theorem phase_independence_witness :
    [3, 1, 0, 2].foldl (fun s i => pressureBody (1 : ℚ) 1 i s) cornerGrid.m_grid
      = pressureSimultaneous 1 1 1 cornerGrid.m_grid ∧
    [2, 0, 3, 1].foldl (fun s i => absorbTopBottomBody 4 4 i s) openFieldGrid.m_grid
      = absorbTopBottomSimultaneous 4 4 4 openFieldGrid.m_grid :=
  ⟨(phase_independence (1 : ℚ) 1 1 (by decide) (by decide) cornerGrid.m_grid 0
      cornerGrid.m_pulseResponse).1.2 [3, 1, 0, 2] (by decide),
   (phase_independence (1 : ℚ) 4 4 (by decide) (by decide) openFieldGrid.m_grid 0
      openFieldGrid.m_pulseResponse).2.2.2.1.2.1 [2, 0, 3, 1] (by decide)⟩

/-! ## Flat loops and nested loops -/

omit [Field K] in
theorem forUpTo_add {σ : Type} (body : Nat → σ → σ) (n k : Nat) (s : σ) :
    forUpTo body (n + k) s = forUpTo (fun i => body (n + i)) k (forUpTo body n s) := by
  induction k with
  | zero => rfl
  | succ k ih =>
    show body (n + k) (forUpTo body (n + k) s) = body (n + k) _
    rw [ih]

omit [Field K] in
theorem forUpTo_nested {σ : Type} (s n : Nat) (body : Nat → σ → σ) (st : σ) :
    forUpTo (fun x => forUpTo (fun y => body (x * s + y)) s) n st
      = forUpTo body (n * s) st := by
  induction n with
  | zero => rw [Nat.zero_mul]; rfl
  | succ n ih =>
    rw [Nat.succ_mul, forUpTo_add body (n * s) s, ← ih]
    rfl

omit [Field K] in
/-- A loop over rows with an inner loop over the `s` cells of a row is the flat loop over
the cells of these rows. -/
theorem forLoop_nested {σ : Type} (s a b : Nat) (body : Nat → σ → σ) (st : σ) :
    forLoop a b (fun x => forLoop 0 s (fun y => body (x * s + y))) st
      = forLoop (a * s) (b * s) body st := by
  unfold forLoop
  rw [← Nat.sub_mul, ← forUpTo_nested s (b - a) (fun k => body (a * s + k)) st]
  congr 1
  funext k st
  rw [Nat.sub_zero]
  show forUpTo (fun j => body ((a + k) * s + (0 + j))) s st
    = forUpTo (fun y => body (a * s + (k * s + y))) s st
  congr 1
  funext y
  rw [Nat.zero_add, Nat.add_mul, Nat.add_assoc]

theorem vxNested_eq (Courant : K) (gridx gridy : Nat) (m : Mem Int (Cell K)) :
    vxNested Courant gridx gridy m
      = forLoop (gridy + 1) ((gridx + 1) * (gridy + 1)) (vxBody Courant gridy) m := by
  have h := forLoop_nested (gridy + 1) 1 (gridx + 1) (vxBody Courant gridy) m
  rw [Nat.one_mul] at h
  rw [← h]
  unfold vxNested
  congr 1
  funext x st
  congr 1
  funext y m
  have h1 : INDEX2 (x : Int) (y : Int) ((gridy : Int) + 1)
      = ((x * (gridy + 1) + y : Nat) : Int) := by
    unfold INDEX2; push_cast; ring
  have h2 : INDEX2 ((x : Int) - 1) (y : Int) ((gridy : Int) + 1)
      = ((x * (gridy + 1) + y : Nat) : Int) - gridy - 1 := by
    unfold INDEX2; push_cast; ring
  simp only [h1, h2, vxBody, vxCell]

/-- The nested iteration never stores into a cell of the column `y = 0`. -/
theorem vyNested_column_zero (Courant : K) (gridx gridy : Nat) (m : Mem Int (Cell K))
    (x : Nat) :
    (vyNested Courant gridx gridy m).read (INDEX2 x 0 (gridy + 1))
      = m.read (INDEX2 x 0 (gridy + 1)) := by
  unfold vyNested forLoop
  apply forUpTo_invariant
    (fun m' : Mem Int (Cell K) => m'.read (INDEX2 x 0 (gridy + 1)) = m.read (INDEX2 x 0 (gridy + 1)))
  · rfl
  · intro k s _ hs
    apply forUpTo_invariant
      (fun m' : Mem Int (Cell K) =>
        m'.read (INDEX2 x 0 (gridy + 1)) = m.read (INDEX2 x 0 (gridy + 1)))
    · exact hs
    · intro y s2 hy hs2
      have hne : INDEX2 (x : Int) 0 ((gridy : Int) + 1)
          ≠ INDEX2 ((0 + k : Nat) : Int) ((1 + y : Nat) : Int) ((gridy : Int) + 1) := by
        unfold INDEX2
        have hy2 : ((1 + y : Nat) : Int) ≤ gridy := by
          have : 1 + y ≤ gridy := by omega
          exact_mod_cast this
        have hy1 : (1 : Int) ≤ ((1 + y : Nat) : Int) := by push_cast; omega
        generalize ((1 + y : Nat) : Int) = y' at hy1 hy2 ⊢
        rcases Nat.lt_trichotomy x (0 + k) with h | h | h
        · have := row_lt gridy x (0 + k) h
          omega
        · rw [h]; omega
        · have := row_lt gridy (0 + k) x h
          omega
      simp only [Mem.read_write, if_neg hne]
      exact hs2

set_option maxHeartbeats 4000000 in
/-- C14, the code at a failing input: in the run of the 1 by 1 open field `cornerGrid`
(listener in cell `(0, 1)`, unit impulse at sample 0, Courant number 1) the y velocity
loop of timestep 1 receives the field `wrapField`.  The flat loop of the source stores
`vy = 1` in the cell `(1, 0)` of column 0, computed from the pressure of the cell `(0, 1)`
of the row before; the nested iteration leaves `vy = 0` there.  The value 1 stays in the
response cube. -/
theorem y_velocity_wrap_around :
    snapshotCPU cornerGlobals ⟨0, 0, 0⟩ cornerGrid 1
      = forLoop 0 cornerGlobals.gridSizeX (absorbLeftRightBody cornerGlobals.gridSizeY)
          (forLoop 0 cornerGlobals.gridSizeY
            (absorbTopBottomBody cornerGlobals.gridSizeX cornerGlobals.gridSizeY)
            (forLoop 1 ((cornerGlobals.gridSizeX + 1) * (cornerGlobals.gridSizeY + 1))
              (vyBody (courant cornerGlobals)) wrapField)) ∧
    ((forLoop 1 ((cornerGlobals.gridSizeX + 1) * (cornerGlobals.gridSizeY + 1))
        (vyBody (courant cornerGlobals)) wrapField).read (INDEX2 1 0 2)).vy = 1 ∧
    ((vyNested (courant cornerGlobals) cornerGlobals.gridSizeX cornerGlobals.gridSizeY
        wrapField).read (INDEX2 1 0 2)).vy = 0 ∧
    (((GenerateResponseCPU cornerGlobals ⟨0, 0, 0⟩ cornerGrid).m_pulseResponse.read
        (INDEX2 1 0 2)).read 1).vy = 1 := by
  have hz : AllZero (forLoop 0 ((cornerGlobals.gridSizeX + 1) * (cornerGlobals.gridSizeY + 1))
      resetBody cornerGrid.m_grid) := by
    apply reset_allZero
    intro j hj
    have : ¬ (0 ≤ j ∧ j < 4) := by
      intro h; have := h.1; have := h.2; simp [cornerGlobals] at hj; omega
    simp [cornerGrid, this]
  have hb := fun j =>
    (reset_static cornerGlobals.gridSizeX cornerGlobals.gridSizeY cornerGrid.m_grid j).1
  have ha := fun j =>
    (reset_static cornerGlobals.gridSizeX cornerGlobals.gridSizeY cornerGrid.m_grid j).2
  refine ⟨rfl, ?_, ?_, ?_⟩
  · unfold wrapField
    rw [gridBefore_one _ _ _ _ _ _ hz, vyLoop_eq, vxLoop_eq, pressureLoop_eq]
    simp only [hb, ha]
    simp [vySimultaneous, vxSimultaneous, pressureSimultaneous, pressureCell, vxCell, vyCell,
      velocityUpdate, cornerGlobals, cornerGrid, listenerIndex, INDEX2, courant]
  · have h := vyNested_column_zero (courant cornerGlobals) cornerGlobals.gridSizeX
      cornerGlobals.gridSizeY wrapField 1
    have e : INDEX2 ((1 : Nat) : Int) 0 ((cornerGlobals.gridSizeY : Int) + 1) = INDEX2 1 0 2 := by
      decide
    rw [e] at h
    rw [h]
    unfold wrapField
    rw [gridBefore_one _ _ _ _ _ _ hz, vxLoop_eq, pressureLoop_eq]
    simp [vxSimultaneous, pressureSimultaneous, pressureCell, vxCell]
    split_ifs <;> rfl
  · rw [GenerateResponseCPU_response, if_pos (by simp [cornerGlobals, INDEX2])]
    unfold snapshotCPU gridRecorded
    rw [gridBefore_one _ _ _ _ _ _ hz, updatePhases_eq]
    simp only [hb, ha]
    simp [absorbLeftRightSimultaneous, absorbTopBottomSimultaneous, vySimultaneous,
      vxSimultaneous, pressureSimultaneous, pressureCell, vxCell, vyCell, velocityUpdate,
      cornerGlobals, cornerGrid, listenerIndex, INDEX2, courant]

/-- C15 (x velocity sweep): the flat loop `for i = sizeY + 1 .. loopSize - 1` with the
backward neighbour `i - (sizeY + 1)` gives the same field as the nested iteration
`for x in 1..sizeX, for y in 0..sizeY` with the backward neighbour `(x - 1, y)`.  It
stores in `vx` of every cell `(x, y)` of the rows `1..sizeX` the velocity update computed
from that cell and the cell at the same `y` of the previous row, both as they were
before the loop; it leaves the cells of row 0 and the cells outside the grid as they
were, and changes no other field of any cell. -/
theorem x_velocity_sweep (Courant : K) (gridx gridy : Nat) (m : Mem Int (Cell K)) :
    forLoop (gridy + 1) ((gridx + 1) * (gridy + 1)) (vxBody Courant gridy) m
      = vxNested Courant gridx gridy m ∧
    (∀ x y : Nat, 1 ≤ x → x ≤ gridx → y ≤ gridy →
      (forLoop (gridy + 1) ((gridx + 1) * (gridy + 1)) (vxBody Courant gridy) m).read
          (INDEX2 x y (gridy + 1))
        = { m.read (INDEX2 x y (gridy + 1)) with
            vx := velocityUpdate Courant (m.read (INDEX2 ((x : Int) - 1) y (gridy + 1)))
              (m.read (INDEX2 x y (gridy + 1))) (m.read (INDEX2 x y (gridy + 1))).vx }) ∧
    (∀ y : Nat, y ≤ gridy →
      (forLoop (gridy + 1) ((gridx + 1) * (gridy + 1)) (vxBody Courant gridy) m).read
          (INDEX2 0 y (gridy + 1))
        = m.read (INDEX2 0 y (gridy + 1))) ∧
    (∀ j : Int, (j < 0 ∨ (((gridx + 1) * (gridy + 1) : Nat) : Int) ≤ j) →
      (forLoop (gridy + 1) ((gridx + 1) * (gridy + 1)) (vxBody Courant gridy) m).read j
        = m.read j) ∧
    (∀ j : Int,
      ((forLoop (gridy + 1) ((gridx + 1) * (gridy + 1)) (vxBody Courant gridy) m).read j).pr
        = (m.read j).pr ∧
      ((forLoop (gridy + 1) ((gridx + 1) * (gridy + 1)) (vxBody Courant gridy) m).read j).vy
        = (m.read j).vy ∧
      ((forLoop (gridy + 1) ((gridx + 1) * (gridy + 1)) (vxBody Courant gridy) m).read j).b
        = (m.read j).b ∧
      ((forLoop (gridy + 1) ((gridx + 1) * (gridy + 1)) (vxBody Courant gridy) m).read
          j).absorption = (m.read j).absorption) := by
  refine ⟨(vxNested_eq Courant gridx gridy m).symm, ?_, ?_, ?_, ?_⟩
  · intro x y hx1 hx hy
    rw [vxLoop_eq]
    have hin := index_in_grid gridx gridy x y (Int.natCast_nonneg x) (by exact_mod_cast hx)
      (Int.natCast_nonneg y) (by exact_mod_cast hy)
    have hlo : ((gridy + 1 : Nat) : Int) ≤ INDEX2 x y (gridy + 1) := by
      have h1 : (1 : Int) ≤ x := by exact_mod_cast hx1
      have h2 : (0 : Int) ≤ y := Int.natCast_nonneg y
      have h3 : (0 : Int) ≤ gridy := Int.natCast_nonneg gridy
      unfold INDEX2
      push_cast
      nlinarith
    have hp : INDEX2 (x : Int) (y : Int) ((gridy : Int) + 1) - gridy - 1
        = INDEX2 ((x : Int) - 1) (y : Int) ((gridy : Int) + 1) := by
      unfold INDEX2; ring
    simp only [vxSimultaneous, if_pos (And.intro hlo hin.2), vxCell, hp]
  · intro y hy
    rw [vxLoop_eq]
    have hn : ¬ (((gridy + 1 : Nat) : Int) ≤ INDEX2 0 y (gridy + 1) ∧
        INDEX2 0 y (gridy + 1) < (((gridx + 1) * (gridy + 1) : Nat) : Int)) := by
      intro h
      have h1 := h.1
      have h2 : (y : Int) ≤ gridy := by exact_mod_cast hy
      unfold INDEX2 at h1
      push_cast at h1
      omega
    simp only [vxSimultaneous, if_neg hn]
  · intro j hj
    rw [vxLoop_eq]
    have hn : ¬ (((gridy + 1 : Nat) : Int) ≤ j ∧
        j < (((gridx + 1) * (gridy + 1) : Nat) : Int)) := by
      intro h
      have h1 := h.1
      have h2 := h.2
      push_cast at h1
      omega
    simp only [vxSimultaneous, if_neg hn]
  · intro j
    rw [vxLoop_eq]
    simp only [vxSimultaneous, vxCell]
    split_ifs <;> exact ⟨rfl, rfl, rfl, rfl⟩

/-- C15, witness: the cell `(1, 0)` of the 1 by 1 grid is updated from the cell `(0, 0)`. -/
theorem x_velocity_sweep_witness :
    (forLoop (1 + 1) ((1 + 1) * (1 + 1)) (vxBody (1 : ℚ) 1) cornerGrid.m_grid).read
        (INDEX2 ((1 : Nat) : Int) ((0 : Nat) : Int) (((1 : Nat) : Int) + 1))
      = { cornerGrid.m_grid.read
            (INDEX2 ((1 : Nat) : Int) ((0 : Nat) : Int) (((1 : Nat) : Int) + 1)) with
          vx := velocityUpdate (1 : ℚ)
            (cornerGrid.m_grid.read
              (INDEX2 (((1 : Nat) : Int) - 1) ((0 : Nat) : Int) (((1 : Nat) : Int) + 1)))
            (cornerGrid.m_grid.read
              (INDEX2 ((1 : Nat) : Int) ((0 : Nat) : Int) (((1 : Nat) : Int) + 1)))
            (cornerGrid.m_grid.read
              (INDEX2 ((1 : Nat) : Int) ((0 : Nat) : Int) (((1 : Nat) : Int) + 1))).vx } :=
  (x_velocity_sweep (1 : ℚ) 1 1 cornerGrid.m_grid).2.1 1 0 (by decide) (by decide)
    (by decide)

/-! ## Dependence on the excitation -/

/-- The memory at the start of timestep `t` depends on the excitation samples before
`t` only. -/
theorem gridBefore_pulse_congr (Courant : K) (gridx gridy : Nat) (listenerPos : Int)
    (p q : Nat → K) (m0 : Mem Int (Cell K)) (t : Nat) (h : ∀ s, s < t → p s = q s) :
    gridBefore Courant gridx gridy listenerPos p m0 t
      = gridBefore Courant gridx gridy listenerPos q m0 t := by
  induction t with
  | zero => rfl
  | succ t ih =>
    simp only [gridBefore]
    rw [ih (fun s hs => h s (Nat.lt_succ_of_lt hs)), h t (Nat.lt_succ_self t)]

/-- Dependence on the excitation.  With everything but the excitation equal: two
excitations that agree on the samples `0..t-1` give response cubes that agree in every
cell for the timesteps `0..t`; the snapshot of timestep 0 has `pr = vx = vy = 0` in every cell of the
grid for every excitation, rigidity, absorption, listener and prior content of the grid
(the cells past the end of the array, which the pressure loop reads, holding zero); and
two excitations that differ only in the samples from index `responseSampleLength - 1` on
give the same response cube. -/
theorem excitation_prefix (gl : Globals K) (listener : vec3 K) (g : Grid K) (p q : Nat → K) :
    (∀ t : Nat, (∀ s, s < t → p s = q s) → ∀ (i : Int) (s : Nat), s ≤ t →
      ((GenerateResponseCPU gl listener { g with m_pulse := p }).m_pulseResponse.read i).read s
        = ((GenerateResponseCPU gl listener { g with m_pulse := q }).m_pulseResponse.read
            i).read s) ∧
    ((∀ j : Int, (j < 0 ∨ (((gl.gridSizeX + 1) * (gl.gridSizeY + 1) : Nat) : Int) ≤ j) →
        (g.m_grid.read j).pr = 0 ∧ (g.m_grid.read j).vx = 0 ∧ (g.m_grid.read j).vy = 0) →
      0 < gl.responseSampleLength →
      ∀ i : Int, 0 ≤ i ∧ i < (((gl.gridSizeX + 1) * (gl.gridSizeY + 1) : Nat) : Int) →
        (((GenerateResponseCPU gl listener { g with m_pulse := p }).m_pulseResponse.read
            i).read 0).pr = 0 ∧
        (((GenerateResponseCPU gl listener { g with m_pulse := p }).m_pulseResponse.read
            i).read 0).vx = 0 ∧
        (((GenerateResponseCPU gl listener { g with m_pulse := p }).m_pulseResponse.read
            i).read 0).vy = 0) ∧
    ((∀ s, s + 1 < gl.responseSampleLength → p s = q s) →
      (GenerateResponseCPU gl listener { g with m_pulse := p }).m_pulseResponse
        = (GenerateResponseCPU gl listener { g with m_pulse := q }).m_pulseResponse) := by
  have key : ∀ s : Nat, (∀ r, r < s → p r = q r) →
      snapshotCPU gl listener { g with m_pulse := p } s
        = snapshotCPU gl listener { g with m_pulse := q } s := by
    intro s hs
    unfold snapshotCPU gridRecorded
    have hl : listenerIndex gl { g with m_pulse := p } listener
        = listenerIndex gl { g with m_pulse := q } listener := rfl
    rw [hl]
    show updatePhases _ _ _ (gridBefore _ _ _ _ p _ s)
      = updatePhases _ _ _ (gridBefore _ _ _ _ q _ s)
    rw [gridBefore_pulse_congr _ _ _ _ p q _ s hs]
  refine ⟨?_, ?_, ?_⟩
  · intro t h i s hs
    rw [GenerateResponseCPU_response, GenerateResponseCPU_response,
      key s (fun r hr => h r (by omega))]
  · intro hout hlen i hi
    rw [GenerateResponseCPU_response_in gl listener _ i 0 hi hlen]
    exact snapshotCPU_zero_allZero gl listener { g with m_pulse := p } hout i
  · intro h
    apply Mem.ext; intro i
    apply Mem.ext; intro s
    rw [GenerateResponseCPU_response, GenerateResponseCPU_response]
    by_cases hc : 0 ≤ i ∧ i < (((gl.gridSizeX + 1) * (gl.gridSizeY + 1) : Nat) : Int) ∧
        s < gl.responseSampleLength
    · rw [if_pos hc, if_pos hc, key s (fun r hr => h r (by have := hc.2.2; omega))]
    · rw [if_neg hc, if_neg hc]

/-- C16, the code at a failing input: in the run of the 1 by 1 grid `haloGrid` (four air
cells, unit impulse, listener in cell `(0, 1)`, `vx = 1` in the memory after the array)
the snapshot of timestep 0 is not zero: the cell 2 has `pr = -1` and `vy = 1`, the cell 3
has `pr = -1` and `vx = 1`. -/
theorem first_snapshot_not_zero :
    (((GenerateResponseCPU cornerGlobals ⟨0, 0, 0⟩ haloGrid).m_pulseResponse.read 2).read
      0).pr = -1 ∧
    (((GenerateResponseCPU cornerGlobals ⟨0, 0, 0⟩ haloGrid).m_pulseResponse.read 2).read
      0).vy = 1 ∧
    (((GenerateResponseCPU cornerGlobals ⟨0, 0, 0⟩ haloGrid).m_pulseResponse.read 3).read
      0).vx = 1 := by
  refine ⟨?_, ?_, ?_⟩ <;>
    rw [GenerateResponseCPU_response, if_pos (by simp [cornerGlobals]),
      halo_run haloGrid rfl rfl, halo_snapshot] <;>
    simp [haloSnapshot]

/-! ## Linearity in the excitation -/

theorem velocityUpdate_linear (Courant a b : K) (p1 p2 p c1 c2 c : Cell K) (v1 v2 : K)
    (hp : p.pr = a * p1.pr + b * p2.pr) (hpb1 : p1.b = p.b) (hpb2 : p2.b = p.b)
    (hpa1 : p1.absorption = p.absorption) (hpa2 : p2.absorption = p.absorption)
    (hc : c.pr = a * c1.pr + b * c2.pr) (hcb1 : c1.b = c.b) (hcb2 : c2.b = c.b)
    (hca1 : c1.absorption = c.absorption) (hca2 : c2.absorption = c.absorption) :
    velocityUpdate Courant p c (a * v1 + b * v2)
      = a * velocityUpdate Courant p1 c1 v1 + b * velocityUpdate Courant p2 c2 v2 := by
  simp only [velocityUpdate, hp, hpb1, hpb2, hpa1, hpa2, hc, hcb1, hcb2, hca1, hca2]
  ring

theorem pressureSimultaneous_linear (Courant a b : K) (gridx gridy : Nat)
    (m1 m2 m : Mem Int (Cell K)) (h : LinComb a b m1 m2 m) :
    LinComb a b (pressureSimultaneous Courant gridx gridy m1)
      (pressureSimultaneous Courant gridx gridy m2)
      (pressureSimultaneous Courant gridx gridy m) := by
  intro j
  obtain ⟨h1, h2, h3, h4, h5, h6, h7⟩ := h j
  simp only [pressureSimultaneous]
  split_ifs
  · simp only [pressureCell]
    refine ⟨?_, h2, h3, h4, h5, h6, h7⟩
    rw [h1, h2, h3, (h (j + gridy + 1)).2.1, (h (j + 1)).2.2.1, h4, h5]
    ring
  · exact ⟨h1, h2, h3, h4, h5, h6, h7⟩

theorem vxSimultaneous_linear (Courant a b : K) (gridx gridy : Nat)
    (m1 m2 m : Mem Int (Cell K)) (h : LinComb a b m1 m2 m) :
    LinComb a b (vxSimultaneous Courant gridx gridy m1)
      (vxSimultaneous Courant gridx gridy m2) (vxSimultaneous Courant gridx gridy m) := by
  intro j
  obtain ⟨h1, h2, h3, h4, h5, h6, h7⟩ := h j
  obtain ⟨k1, _, _, k4, k5, k6, k7⟩ := h (j - gridy - 1)
  simp only [vxSimultaneous]
  split_ifs
  · simp only [vxCell]
    refine ⟨h1, ?_, h3, h4, h5, h6, h7⟩
    rw [h2]
    exact velocityUpdate_linear Courant a b _ _ _ _ _ _ _ _ k1 k4 k5 k6 k7 h1 h4 h5 h6 h7
  · exact ⟨h1, h2, h3, h4, h5, h6, h7⟩

theorem vySimultaneous_linear (Courant a b : K) (gridx gridy : Nat)
    (m1 m2 m : Mem Int (Cell K)) (h : LinComb a b m1 m2 m) :
    LinComb a b (vySimultaneous Courant gridx gridy m1)
      (vySimultaneous Courant gridx gridy m2) (vySimultaneous Courant gridx gridy m) := by
  intro j
  obtain ⟨h1, h2, h3, h4, h5, h6, h7⟩ := h j
  obtain ⟨k1, _, _, k4, k5, k6, k7⟩ := h (j - 1)
  simp only [vySimultaneous]
  split_ifs
  · simp only [vyCell]
    refine ⟨h1, h2, ?_, h4, h5, h6, h7⟩
    rw [h3]
    exact velocityUpdate_linear Courant a b _ _ _ _ _ _ _ _ k1 k4 k5 k6 k7 h1 h4 h5 h6 h7
  · exact ⟨h1, h2, h3, h4, h5, h6, h7⟩

theorem absorbTopBottomSimultaneous_linear (a b : K) (gridx gridy k : Nat)
    (m1 m2 m : Mem Int (Cell K)) (h : LinComb a b m1 m2 m) :
    LinComb a b (absorbTopBottomSimultaneous gridx gridy k m1)
      (absorbTopBottomSimultaneous gridx gridy k m2)
      (absorbTopBottomSimultaneous gridx gridy k m) := by
  intro j
  obtain ⟨h1, h2, h3, h4, h5, h6, h7⟩ := h j
  simp only [absorbTopBottomSimultaneous]
  split_ifs
  · exact ⟨h1, (h (j - gridy - 1)).1, h3, h4, h5, h6, h7⟩
  · refine ⟨h1, ?_, h3, h4, h5, h6, h7⟩
    show -(m.read j).pr = a * -(m1.read j).pr + b * -(m2.read j).pr
    rw [h1]; ring
  · exact ⟨h1, h2, h3, h4, h5, h6, h7⟩

theorem absorbLeftRightSimultaneous_linear (a b : K) (gridy k : Nat)
    (m1 m2 m : Mem Int (Cell K)) (h : LinComb a b m1 m2 m) :
    LinComb a b (absorbLeftRightSimultaneous gridy k m1)
      (absorbLeftRightSimultaneous gridy k m2) (absorbLeftRightSimultaneous gridy k m) := by
  intro j
  obtain ⟨h1, h2, h3, h4, h5, h6, h7⟩ := h j
  simp only [absorbLeftRightSimultaneous]
  split_ifs
  · exact ⟨h1, h2, (h (j - 1)).1, h4, h5, h6, h7⟩
  · refine ⟨h1, h2, ?_, h4, h5, h6, h7⟩
    show -(m.read j).pr = a * -(m1.read j).pr + b * -(m2.read j).pr
    rw [h1]; ring
  · exact ⟨h1, h2, h3, h4, h5, h6, h7⟩

/-- The update phases of a timestep are linear in pressure and velocities. -/
theorem updatePhases_linear (Courant a b : K) (gridx gridy : Nat)
    (m1 m2 m : Mem Int (Cell K)) (h : LinComb a b m1 m2 m) :
    LinComb a b (updatePhases Courant gridx gridy m1) (updatePhases Courant gridx gridy m2)
      (updatePhases Courant gridx gridy m) := by
  rw [updatePhases_eq, updatePhases_eq, updatePhases_eq]
  exact absorbLeftRightSimultaneous_linear _ _ _ _ _ _ _
    (absorbTopBottomSimultaneous_linear _ _ _ _ _ _ _ _
      (vySimultaneous_linear _ _ _ _ _ _ _ _
        (vxSimultaneous_linear _ _ _ _ _ _ _ _
          (pressureSimultaneous_linear _ _ _ _ _ _ _ _ h))))

theorem injectPulse_linear (listenerPos : Int) (a b p q : K) (m1 m2 m : Mem Int (Cell K))
    (h : LinComb a b m1 m2 m) :
    LinComb a b (injectPulse listenerPos p m1) (injectPulse listenerPos q m2)
      (injectPulse listenerPos (a * p + b * q) m) := by
  intro j
  obtain ⟨h1, h2, h3, h4, h5, h6, h7⟩ := h j
  simp only [injectPulse_read]
  split_ifs
  · refine ⟨?_, h2, h3, h4, h5, h6, h7⟩
    show (m.read j).pr + (a * p + b * q)
      = a * ((m1.read j).pr + p) + b * ((m2.read j).pr + q)
    rw [h1]; ring
  · exact ⟨h1, h2, h3, h4, h5, h6, h7⟩

/-- From a zero start, the memory at the start of every timestep is linear in the
excitation. -/
theorem gridBefore_linear (Courant a b : K) (gridx gridy : Nat) (listenerPos : Int)
    (p q : Nat → K) (m0 : Mem Int (Cell K)) (h0 : AllZero m0) (t : Nat) :
    LinComb a b (gridBefore Courant gridx gridy listenerPos p m0 t)
      (gridBefore Courant gridx gridy listenerPos q m0 t)
      (gridBefore Courant gridx gridy listenerPos (fun s => a * p s + b * q s) m0 t) := by
  induction t with
  | zero =>
    intro j
    obtain ⟨z1, z2, z3⟩ := h0 j
    simp only [gridBefore, z1, z2, z3, mul_zero, add_zero, true_and, and_self]
  | succ t ih =>
    simp only [gridBefore]
    exact injectPulse_linear _ _ _ _ _ _ _ _ (updatePhases_linear _ _ _ _ _ _ _ _ ih)

/-- The update phases keep a memory with zero pressure and velocities as it is. -/
theorem updatePhases_fix (Courant : K) (gridx gridy : Nat) (m : Mem Int (Cell K))
    (h : AllZero m) : updatePhases Courant gridx gridy m = m := by
  apply Mem.ext; intro j
  obtain ⟨z1, z2, z3⟩ := updatePhases_allZero Courant gridx gridy m h j
  obtain ⟨s1, s2⟩ := updatePhases_static Courant gridx gridy m j
  obtain ⟨y1, y2, y3⟩ := h j
  rcases hc : (updatePhases Courant gridx gridy m).read j with ⟨a1, a2, a3, a4, a5⟩
  rcases hd : m.read j with ⟨b1, b2, b3, b4, b5⟩
  rw [hc] at z1 z2 z3 s1 s2
  rw [hd] at y1 y2 y3 s1 s2
  simp only at z1 z2 z3 s1 s2 y1 y2 y3
  subst z1 z2 z3 s1 s2 y1 y2 y3
  rfl

/-- Delaying the excitation by one sample delays the memory by one timestep. -/
theorem gridBefore_delay (Courant : K) (gridx gridy : Nat) (listenerPos : Int)
    (p : Nat → K) (m0 : Mem Int (Cell K)) (h0 : AllZero m0) (t : Nat) :
    gridBefore Courant gridx gridy listenerPos (fun s => if s = 0 then 0 else p (s - 1)) m0
        (t + 1)
      = gridBefore Courant gridx gridy listenerPos p m0 t := by
  induction t with
  | zero =>
    simp only [gridBefore, if_true]
    rw [injectPulse_zero, updatePhases_fix _ _ _ _ h0]
  | succ t ih =>
    rw [gridBefore, ih]
    simp only [Nat.add_one_ne_zero, if_false, Nat.add_sub_cancel]
    rfl

/-- From a zero start, the memory recorded at timestep `t` is the superposition of the
memories recorded for the unit impulse, delayed by `s` and scaled by the sample `s`. -/
theorem gridRecorded_superposition (Courant : K) (gridx gridy : Nat) (listenerPos : Int)
    (m0 : Mem Int (Cell K)) (h0 : AllZero m0) (t : Nat) :
    ∀ (p : Nat → K) (j : Int),
      ((gridRecorded Courant gridx gridy listenerPos p m0 t).read j).pr
        = ∑ s ∈ Finset.range t, p s *
            ((gridRecorded Courant gridx gridy listenerPos (fun s => if s = 0 then 1 else 0)
              m0 (t - s)).read j).pr ∧
      ((gridRecorded Courant gridx gridy listenerPos p m0 t).read j).vx
        = ∑ s ∈ Finset.range t, p s *
            ((gridRecorded Courant gridx gridy listenerPos (fun s => if s = 0 then 1 else 0)
              m0 (t - s)).read j).vx ∧
      ((gridRecorded Courant gridx gridy listenerPos p m0 t).read j).vy
        = ∑ s ∈ Finset.range t, p s *
            ((gridRecorded Courant gridx gridy listenerPos (fun s => if s = 0 then 1 else 0)
              m0 (t - s)).read j).vy := by
  induction t with
  | zero =>
    intro p j
    obtain ⟨z1, z2, z3⟩ := updatePhases_allZero Courant gridx gridy m0 h0 j
    simp only [gridRecorded, gridBefore, Finset.range_zero, Finset.sum_empty]
    exact ⟨z1, z2, z3⟩
  | succ t ih =>
    intro p j
    have hp : p = fun s => p 0 * (if s = 0 then (1 : K) else 0)
        + 1 * (if s = 0 then 0 else p (s - 1 + 1)) := by
      funext s
      by_cases hs : s = 0
      · subst hs; simp
      · have : s - 1 + 1 = s := by omega
        simp [hs, this]
    have hl := updatePhases_linear Courant (p 0) 1 gridx gridy _ _ _
      (gridBefore_linear Courant (p 0) 1 gridx gridy listenerPos
        (fun s => if s = 0 then (1 : K) else 0) (fun s => if s = 0 then 0 else p (s - 1 + 1))
        m0 h0 (t + 1)) j
    rw [← hp] at hl
    rw [gridBefore_delay Courant gridx gridy listenerPos (fun s => p (s + 1)) m0 h0 t] at hl
    obtain ⟨l1, l2, l3, _⟩ := hl
    obtain ⟨i1, i2, i3⟩ := ih (fun s => p (s + 1)) j
    simp only [gridRecorded] at i1 i2 i3 ⊢
    rw [l1, l2, l3, i1, i2, i3]
    simp only [Finset.sum_range_succ' _ t, Nat.add_sub_add_right, Nat.sub_zero, one_mul]
    refine ⟨?_, ?_, ?_⟩ <;> ring

/-- Linearity when the memory outside the array is zero: for fixed grid dimensions, rigidity, absorption,
Courant number and listener cell, the recorded `pr`, `vx` and `vy` of every cell of the
grid at every timestep are linear in the excitation: the response to `r = a * p + b * q` is
`a` times the response to `p` plus `b` times the response to `q`, component by component;
and the response to `p` at timestep `t` is the sum over the samples `s < t` of `p s` times
the response to the unit impulse at timestep `t - s`.  The cells past the end of the
array, which the pressure loop reads, hold zero. -/
theorem linearity_of_zero_memory (gl : Globals K) (listener : vec3 K) (g : Grid K)
    (p q r : Nat → K) (a b : K) (hr : ∀ s, r s = a * p s + b * q s)
    (hout : ∀ j : Int, (j < 0 ∨ (((gl.gridSizeX + 1) * (gl.gridSizeY + 1) : Nat) : Int) ≤ j) →
      (g.m_grid.read j).pr = 0 ∧ (g.m_grid.read j).vx = 0 ∧ (g.m_grid.read j).vy = 0)
    (i : Int) (hi : 0 ≤ i ∧ i < (((gl.gridSizeX + 1) * (gl.gridSizeY + 1) : Nat) : Int))
    (t : Nat) (ht : t < gl.responseSampleLength) :
    ((((GenerateResponseCPU gl listener
          { g with m_pulse := r }).m_pulseResponse.read i).read t).pr
        = a * (((GenerateResponseCPU gl listener
              { g with m_pulse := p }).m_pulseResponse.read i).read t).pr
          + b * (((GenerateResponseCPU gl listener
              { g with m_pulse := q }).m_pulseResponse.read i).read t).pr ∧
      (((GenerateResponseCPU gl listener
          { g with m_pulse := r }).m_pulseResponse.read i).read t).vx
        = a * (((GenerateResponseCPU gl listener
              { g with m_pulse := p }).m_pulseResponse.read i).read t).vx
          + b * (((GenerateResponseCPU gl listener
              { g with m_pulse := q }).m_pulseResponse.read i).read t).vx ∧
      (((GenerateResponseCPU gl listener
          { g with m_pulse := r }).m_pulseResponse.read i).read t).vy
        = a * (((GenerateResponseCPU gl listener
              { g with m_pulse := p }).m_pulseResponse.read i).read t).vy
          + b * (((GenerateResponseCPU gl listener
              { g with m_pulse := q }).m_pulseResponse.read i).read t).vy) ∧
    ((((GenerateResponseCPU gl listener { g with m_pulse := p }).m_pulseResponse.read i).read
          t).pr
        = ∑ s ∈ Finset.range t, p s *
            (((GenerateResponseCPU gl listener
              { g with m_pulse := fun s => if s = 0 then 1 else 0 }).m_pulseResponse.read
                i).read (t - s)).pr ∧
      (((GenerateResponseCPU gl listener { g with m_pulse := p }).m_pulseResponse.read i).read
          t).vx
        = ∑ s ∈ Finset.range t, p s *
            (((GenerateResponseCPU gl listener
              { g with m_pulse := fun s => if s = 0 then 1 else 0 }).m_pulseResponse.read
                i).read (t - s)).vx ∧
      (((GenerateResponseCPU gl listener { g with m_pulse := p }).m_pulseResponse.read i).read
          t).vy
        = ∑ s ∈ Finset.range t, p s *
            (((GenerateResponseCPU gl listener
              { g with m_pulse := fun s => if s = 0 then 1 else 0 }).m_pulseResponse.read
                i).read (t - s)).vy) := by
  have hz := reset_allZero gl.gridSizeX gl.gridSizeY g.m_grid hout
  have hr' : r = fun s => a * p s + b * q s := funext hr
  subst hr'
  constructor
  · rw [GenerateResponseCPU_response_in gl listener _ i t hi ht,
      GenerateResponseCPU_response_in gl listener _ i t hi ht,
      GenerateResponseCPU_response_in gl listener _ i t hi ht]
    have h := updatePhases_linear (courant gl) a b gl.gridSizeX gl.gridSizeY _ _ _
      (gridBefore_linear (courant gl) a b gl.gridSizeX gl.gridSizeY
        (listenerIndex gl g listener) p q
        (forLoop 0 ((gl.gridSizeX + 1) * (gl.gridSizeY + 1)) resetBody g.m_grid) hz t) i
    exact ⟨h.1, h.2.1, h.2.2.1⟩
  · have hs : ∀ s : Nat,
        ((GenerateResponseCPU gl listener
            { g with m_pulse := fun s => if s = 0 then 1 else 0 }).m_pulseResponse.read
              i).read (t - s)
          = (gridRecorded (courant gl) gl.gridSizeX gl.gridSizeY (listenerIndex gl g listener)
              (fun s => if s = 0 then 1 else 0)
              (forLoop 0 ((gl.gridSizeX + 1) * (gl.gridSizeY + 1)) resetBody g.m_grid)
              (t - s)).read i := by
      intro s
      exact GenerateResponseCPU_response_in gl listener _ i (t - s) hi (by omega)
    simp only [hs]
    rw [GenerateResponseCPU_response_in gl listener _ i t hi ht]
    exact gridRecorded_superposition (courant gl) gl.gridSizeX gl.gridSizeY
      (listenerIndex gl g listener) _ hz t p i

/-- C17, the code at a failing input: `haloDoubleGrid` is `haloGrid` with the excitation
`2 * p + 0 * p`, where `p` is the unit impulse of `haloGrid`.  The pressure recorded for
the listener cell 1 at timestep 1 is -1 for `p` and 0 for `2 * p + 0 * p`, which is not
`2 * (-1) + 0 * (-1)`. -/
theorem response_not_linear :
    (∀ s : Nat, haloDoubleGrid.m_pulse s = 2 * haloGrid.m_pulse s + 0 * haloGrid.m_pulse s) ∧
    haloDoubleGrid.m_grid = haloGrid.m_grid ∧
    haloDoubleGrid.WorldToGrid = haloGrid.WorldToGrid ∧
    (((GenerateResponseCPU cornerGlobals ⟨0, 0, 0⟩ haloGrid).m_pulseResponse.read 1).read
      1).pr = -1 ∧
    (((GenerateResponseCPU cornerGlobals ⟨0, 0, 0⟩ haloDoubleGrid).m_pulseResponse.read
      1).read 1).pr = 0 ∧
    (((GenerateResponseCPU cornerGlobals ⟨0, 0, 0⟩ haloDoubleGrid).m_pulseResponse.read
        1).read 1).pr
      ≠ 2 * (((GenerateResponseCPU cornerGlobals ⟨0, 0, 0⟩ haloGrid).m_pulseResponse.read
          1).read 1).pr
        + 0 * (((GenerateResponseCPU cornerGlobals ⟨0, 0, 0⟩ haloGrid).m_pulseResponse.read
          1).read 1).pr := by
  have h1 : (((GenerateResponseCPU cornerGlobals ⟨0, 0, 0⟩ haloGrid).m_pulseResponse.read
      1).read 1).pr = -1 := by
    rw [GenerateResponseCPU_response, if_pos (by simp [cornerGlobals]),
      halo_run haloGrid rfl rfl, halo_second_pressure]
    simp [haloGrid]
    norm_num
  have h2 : (((GenerateResponseCPU cornerGlobals ⟨0, 0, 0⟩ haloDoubleGrid).m_pulseResponse.read
      1).read 1).pr = 0 := by
    rw [GenerateResponseCPU_response, if_pos (by simp [cornerGlobals]),
      halo_run haloDoubleGrid rfl rfl, halo_second_pressure]
    simp [haloDoubleGrid]
  refine ⟨?_, rfl, rfl, h1, h2, ?_⟩
  · intro s
    by_cases hs : s = 0 <;> simp [haloDoubleGrid, haloGrid, hs]
  · rw [h1, h2]
    norm_num

/-! ## Subscripts of the cell array -/

omit [Field K] in
/-- For `sizeX, sizeY ≥ 1` the subscripts of the velocity loops and of the absorption
loops lie inside the array, and so do those of the pressure loop for the cells before the
last row; for the cells `i` of the last row the subscript `i + gridy + 1` lies past the
end. -/
theorem subscripts_in_bounds (gridx gridy : Nat) (hx : 1 ≤ gridx) (hy : 1 ≤ gridy) :
    (∀ i : Nat, gridy + 1 ≤ i → i < (gridx + 1) * (gridy + 1) →
      ∀ j ∈ vxSubscripts gridy i, 0 ≤ j ∧ j < (((gridx + 1) * (gridy + 1) : Nat) : Int)) ∧
    (∀ i : Nat, 1 ≤ i → i < (gridx + 1) * (gridy + 1) →
      ∀ j ∈ vySubscripts i, 0 ≤ j ∧ j < (((gridx + 1) * (gridy + 1) : Nat) : Int)) ∧
    (∀ i : Nat, i < gridy →
      ∀ j ∈ absorbTopBottomSubscripts gridx gridy i,
        0 ≤ j ∧ j < (((gridx + 1) * (gridy + 1) : Nat) : Int)) ∧
    (∀ i : Nat, i < gridx →
      ∀ j ∈ absorbLeftRightSubscripts gridy i,
        0 ≤ j ∧ j < (((gridx + 1) * (gridy + 1) : Nat) : Int)) ∧
    (∀ i : Nat, i + gridy + 1 < (gridx + 1) * (gridy + 1) →
      ∀ j ∈ pressureSubscripts gridy i,
        0 ≤ j ∧ j < (((gridx + 1) * (gridy + 1) : Nat) : Int)) ∧
    (∀ i : Nat, i < (gridx + 1) * (gridy + 1) → (gridx + 1) * (gridy + 1) ≤ i + gridy + 1 →
      (i : Int) + gridy + 1 ∈ pressureSubscripts gridy i ∧
      (((gridx + 1) * (gridy + 1) : Nat) : Int) ≤ (i : Int) + gridy + 1) := by
  have hx' : (1 : Int) ≤ gridx := by exact_mod_cast hx
  have hy' : (1 : Int) ≤ gridy := by exact_mod_cast hy
  have hX : (gridy : Int) + 1 ≤ (gridx : Int) * (gridy + 1) := by nlinarith
  refine ⟨?_, ?_, ?_, ?_, ?_, ?_⟩
  · intro i h1 h2 j hj
    have h1' : ((gridy : Int) + 1) ≤ i := by exact_mod_cast h1
    have h2' : (i : Int) < (((gridx + 1) * (gridy + 1) : Nat) : Int) := by exact_mod_cast h2
    simp only [vxSubscripts, List.mem_cons, List.mem_singleton, List.not_mem_nil,
      or_false] at hj
    rcases hj with h | h <;> subst h <;> constructor <;> omega
  · intro i h1 h2 j hj
    have h1' : (1 : Int) ≤ i := by exact_mod_cast h1
    have h2' : (i : Int) < (((gridx + 1) * (gridy + 1) : Nat) : Int) := by exact_mod_cast h2
    simp only [vySubscripts, List.mem_cons, List.mem_singleton, List.not_mem_nil,
      or_false] at hj
    rcases hj with h | h <;> subst h <;> constructor <;> omega
  · intro i h1 j hj
    have h1' : (i : Int) < gridy := by exact_mod_cast h1
    rw [loopSize_cast]
    simp only [absorbTopBottomSubscripts, List.mem_cons, List.mem_singleton,
      List.not_mem_nil, or_false] at hj
    rcases hj with h | h | h <;> subst h <;> constructor <;> omega
  · intro i h1 j hj
    have h3 := row_lt gridy i gridx h1
    have h4 : (0 : Int) ≤ (i : Int) * (gridy + 1) := by positivity
    rw [loopSize_cast]
    simp only [absorbLeftRightSubscripts, List.mem_cons, List.mem_singleton,
      List.not_mem_nil, or_false] at hj
    rcases hj with h | h | h <;> subst h <;> constructor <;> omega
  · intro i h1 j hj
    have h1' : (i : Int) + gridy + 1 < (((gridx + 1) * (gridy + 1) : Nat) : Int) := by
      exact_mod_cast h1
    simp only [pressureSubscripts, List.mem_cons, List.mem_singleton, List.not_mem_nil,
      or_false] at hj
    rcases hj with h | h | h <;> subst h <;> constructor <;> omega
  · intro i _ h2
    refine ⟨by simp [pressureSubscripts], ?_⟩
    exact_mod_cast h2

/-- C18, the code at a failing input.  For every grid size the last iteration of the
pressure loop, `i = loopSize - 1`, has the subscript `i + gridy + 1 ≥ loopSize`, past the
end of the array.  In the 1 by 1 grid (`loopSize = 4`, listener in cell `(0, 1)`) the
iteration `i = 3` uses the subscripts 3, 5 and 4, and the value read there reaches the
response cube: `cornerGrid` and `haloGrid` have the same four grid cells, excitation and
listener cell and differ only in the memory after the array, and the pressure recorded
for cell 3 at timestep 0 is 0 for the one and -1 for the other. -/
theorem stencil_out_of_bounds :
    (∀ gridx gridy : Nat,
      (((gridx + 1) * (gridy + 1) - 1 : Nat) : Int) + gridy + 1
          ∈ pressureSubscripts gridy ((gridx + 1) * (gridy + 1) - 1) ∧
        (gridx + 1) * (gridy + 1) - 1 < (gridx + 1) * (gridy + 1) ∧
        (((gridx + 1) * (gridy + 1) : Nat) : Int)
          ≤ (((gridx + 1) * (gridy + 1) - 1 : Nat) : Int) + gridy + 1) ∧
    pressureSubscripts cornerGlobals.gridSizeY 3 = [3, 5, 4] ∧
    listenerIndex cornerGlobals cornerGrid ⟨0, 0, 0⟩ = 1 ∧
    (∀ j : Int, 0 ≤ j ∧ j < 4 → haloGrid.m_grid.read j = cornerGrid.m_grid.read j) ∧
    haloGrid.m_pulse = cornerGrid.m_pulse ∧
    haloGrid.WorldToGrid = cornerGrid.WorldToGrid ∧
    (((GenerateResponseCPU cornerGlobals ⟨0, 0, 0⟩ cornerGrid).m_pulseResponse.read 3).read
      0).pr = 0 ∧
    (((GenerateResponseCPU cornerGlobals ⟨0, 0, 0⟩ haloGrid).m_pulseResponse.read 3).read
      0).pr = -1 := by
  refine ⟨?_, by decide, by decide, ?_, rfl, rfl, ?_, ?_⟩
  · intro gridx gridy
    have hpos : 0 < (gridx + 1) * (gridy + 1) := Nat.mul_pos (Nat.succ_pos _) (Nat.succ_pos _)
    refine ⟨by simp [pressureSubscripts], by omega, ?_⟩
    have : (((gridx + 1) * (gridy + 1) - 1 : Nat) : Int)
        = (((gridx + 1) * (gridy + 1) : Nat) : Int) - 1 := by
      rw [Nat.cast_sub hpos]; rfl
    rw [this]
    have : (0 : Int) ≤ gridy := Int.natCast_nonneg gridy
    omega
  · intro j hj
    simp [haloGrid, cornerGrid, hj]
  · rw [GenerateResponseCPU_response, if_pos (by simp [cornerGlobals])]
    refine (snapshotCPU_zero_allZero cornerGlobals ⟨0, 0, 0⟩ cornerGrid ?_ 3).1
    intro j hj
    have : ¬ (0 ≤ j ∧ j < 4) := by
      intro h; have := h.1; have := h.2; simp [cornerGlobals] at hj; omega
    simp [cornerGrid, this]
  · rw [GenerateResponseCPU_response, if_pos (by simp [cornerGlobals])]
    unfold snapshotCPU gridRecorded
    simp only [gridBefore]
    rw [updatePhases_pr, resetLoop_eq]
    simp [pressureSimultaneous, pressureCell, resetSimultaneous, resetCell, haloGrid,
      cornerGlobals, courant]

/-! ## The cells the absorption loops do not visit -/

theorem updatePhases_bulk (Courant : K) (gridx gridy : Nat) (m : Mem Int (Cell K)) :
    updatePhases Courant gridx gridy m
      = forLoop 0 gridx (absorbLeftRightBody gridy)
          (forLoop 0 gridy (absorbTopBottomBody gridx gridy)
            (bulkPhases Courant gridx gridy m)) := rfl

/-- The cells `(0, sizeY)` and `(sizeX, sizeY)` keep the `vx`, and the cells `(sizeX, 0)`
and `(sizeX, sizeY)` the `vy`, that the bulk loops gave them. -/
theorem updatePhases_corner (Courant : K) (gridx gridy : Nat) (hx : 1 ≤ gridx)
    (m : Mem Int (Cell K)) :
    ((updatePhases Courant gridx gridy m).read (INDEX2 0 gridy (gridy + 1))).vx
      = ((bulkPhases Courant gridx gridy m).read (INDEX2 0 gridy (gridy + 1))).vx ∧
    ((updatePhases Courant gridx gridy m).read (INDEX2 gridx gridy (gridy + 1))).vx
      = ((bulkPhases Courant gridx gridy m).read (INDEX2 gridx gridy (gridy + 1))).vx ∧
    ((updatePhases Courant gridx gridy m).read (INDEX2 gridx 0 (gridy + 1))).vy
      = ((bulkPhases Courant gridx gridy m).read (INDEX2 gridx 0 (gridy + 1))).vy ∧
    ((updatePhases Courant gridx gridy m).read (INDEX2 gridx gridy (gridy + 1))).vy
      = ((bulkPhases Courant gridx gridy m).read (INDEX2 gridx gridy (gridy + 1))).vy := by
  have hX : (gridy : Int) + 1 ≤ (gridx : Int) * (gridy + 1) := by
    have : (1 : Int) ≤ gridx := by exact_mod_cast hx
    have : (0 : Int) ≤ gridy := Int.natCast_nonneg gridy
    nlinarith
  have hg : (0 : Int) ≤ gridy := Int.natCast_nonneg gridy
  rw [updatePhases_bulk, absorbLeftRightLoop_eq, absorbTopBottomLoop_eq]
  generalize bulkPhases Courant gridx gridy m = M
  have t1 : ∀ j : Int, ¬ ((gridx : Int) * (gridy + 1) ≤ j ∧
      j < (gridx : Int) * (gridy + 1) + gridy) → ¬ (0 ≤ j ∧ j < (gridy : Int)) →
      ((absorbTopBottomSimultaneous gridx gridy gridy M).read j).vx = (M.read j).vx := by
    intro j h1 h2
    simp only [absorbTopBottomSimultaneous, if_neg h1, if_neg h2]
  have t2 : ∀ j : Int, (¬ ∃ i : Nat, i < gridx ∧ j = (i : Int) * (gridy + 1) + gridy) →
      (¬ ∃ i : Nat, i < gridx ∧ j = (i : Int) * (gridy + 1)) →
      ((absorbLeftRightSimultaneous gridy gridx
        (absorbTopBottomSimultaneous gridx gridy gridy M)).read j).vy = (M.read j).vy := by
    intro j h1 h2
    simp only [absorbLeftRightSimultaneous, if_neg h1, if_neg h2]
    exact (absorbTopBottomSimultaneous_frame _ _ _ _ _).2.1
  refine ⟨?_, ?_, ?_, ?_⟩
  · rw [(absorbLeftRightSimultaneous_frame _ _ _ _).2.1]
    apply t1
    · unfold INDEX2; intro h; have := h.1; omega
    · unfold INDEX2; intro h; have := h.2; omega
  · rw [(absorbLeftRightSimultaneous_frame _ _ _ _).2.1]
    apply t1
    · unfold INDEX2; intro h; have := h.2; omega
    · unfold INDEX2; intro h; have := h.2; omega
  · apply t2
    · rintro ⟨i, hi, he⟩
      have := row_lt gridy i gridx hi
      unfold INDEX2 at he
      omega
    · rintro ⟨i, hi, he⟩
      have := row_lt gridy i gridx hi
      unfold INDEX2 at he
      omega
  · apply t2
    · rintro ⟨i, hi, he⟩
      have := row_lt gridy i gridx hi
      unfold INDEX2 at he
      omega
    · rintro ⟨i, hi, he⟩
      have := row_lt gridy i gridx hi
      unfold INDEX2 at he
      omega

/-- C19 (edge correction coverage): for `sizeX, sizeY ≥ 1`, in the snapshot of every
timestep `t`: for `y < sizeY`, `vx(0, y) = -pr(0, y)` and `vx(sizeX, y) = pr(sizeX - 1, y)`;
for `x < sizeX`, `vy(x, 0) = -pr(x, 0)` and `vy(x, sizeY) = pr(x, sizeY - 1)`.  The
correction loops stop one short of the last index: the cells `(0, sizeY)` and
`(sizeX, sizeY)` have the `vx`, and the cells `(sizeX, 0)` and `(sizeX, sizeY)` the `vy`,
that the bulk loops of that timestep left in them. -/
theorem edge_correction_coverage (gl : Globals K) (listener : vec3 K) (g : Grid K)
    (hx : 1 ≤ gl.gridSizeX) (hy : 1 ≤ gl.gridSizeY)
    (t : Nat) (ht : t < gl.responseSampleLength) :
    (∀ y : Nat, y < gl.gridSizeY →
      (((GenerateResponseCPU gl listener g).m_pulseResponse.read
          (INDEX2 0 y (gl.gridSizeY + 1))).read t).vx
        = -(((GenerateResponseCPU gl listener g).m_pulseResponse.read
          (INDEX2 0 y (gl.gridSizeY + 1))).read t).pr ∧
      (((GenerateResponseCPU gl listener g).m_pulseResponse.read
          (INDEX2 gl.gridSizeX y (gl.gridSizeY + 1))).read t).vx
        = (((GenerateResponseCPU gl listener g).m_pulseResponse.read
          (INDEX2 ((gl.gridSizeX : Int) - 1) y (gl.gridSizeY + 1))).read t).pr) ∧
    (∀ x : Nat, x < gl.gridSizeX →
      (((GenerateResponseCPU gl listener g).m_pulseResponse.read
          (INDEX2 x 0 (gl.gridSizeY + 1))).read t).vy
        = -(((GenerateResponseCPU gl listener g).m_pulseResponse.read
          (INDEX2 x 0 (gl.gridSizeY + 1))).read t).pr ∧
      (((GenerateResponseCPU gl listener g).m_pulseResponse.read
          (INDEX2 x gl.gridSizeY (gl.gridSizeY + 1))).read t).vy
        = (((GenerateResponseCPU gl listener g).m_pulseResponse.read
          (INDEX2 x ((gl.gridSizeY : Int) - 1) (gl.gridSizeY + 1))).read t).pr) ∧
    (((GenerateResponseCPU gl listener g).m_pulseResponse.read
        (INDEX2 0 gl.gridSizeY (gl.gridSizeY + 1))).read t).vx
      = ((bulkPhases (courant gl) gl.gridSizeX gl.gridSizeY
          (gridBefore (courant gl) gl.gridSizeX gl.gridSizeY (listenerIndex gl g listener)
            g.m_pulse
            (forLoop 0 ((gl.gridSizeX + 1) * (gl.gridSizeY + 1)) resetBody g.m_grid) t)).read
          (INDEX2 0 gl.gridSizeY (gl.gridSizeY + 1))).vx ∧
    (((GenerateResponseCPU gl listener g).m_pulseResponse.read
        (INDEX2 gl.gridSizeX gl.gridSizeY (gl.gridSizeY + 1))).read t).vx
      = ((bulkPhases (courant gl) gl.gridSizeX gl.gridSizeY
          (gridBefore (courant gl) gl.gridSizeX gl.gridSizeY (listenerIndex gl g listener)
            g.m_pulse
            (forLoop 0 ((gl.gridSizeX + 1) * (gl.gridSizeY + 1)) resetBody g.m_grid) t)).read
          (INDEX2 gl.gridSizeX gl.gridSizeY (gl.gridSizeY + 1))).vx ∧
    (((GenerateResponseCPU gl listener g).m_pulseResponse.read
        (INDEX2 gl.gridSizeX 0 (gl.gridSizeY + 1))).read t).vy
      = ((bulkPhases (courant gl) gl.gridSizeX gl.gridSizeY
          (gridBefore (courant gl) gl.gridSizeX gl.gridSizeY (listenerIndex gl g listener)
            g.m_pulse
            (forLoop 0 ((gl.gridSizeX + 1) * (gl.gridSizeY + 1)) resetBody g.m_grid) t)).read
          (INDEX2 gl.gridSizeX 0 (gl.gridSizeY + 1))).vy ∧
    (((GenerateResponseCPU gl listener g).m_pulseResponse.read
        (INDEX2 gl.gridSizeX gl.gridSizeY (gl.gridSizeY + 1))).read t).vy
      = ((bulkPhases (courant gl) gl.gridSizeX gl.gridSizeY
          (gridBefore (courant gl) gl.gridSizeX gl.gridSizeY (listenerIndex gl g listener)
            g.m_pulse
            (forLoop 0 ((gl.gridSizeX + 1) * (gl.gridSizeY + 1)) resetBody g.m_grid) t)).read
          (INDEX2 gl.gridSizeX gl.gridSizeY (gl.gridSizeY + 1))).vy := by
  have hx' : (1 : Int) ≤ gl.gridSizeX := by exact_mod_cast hx
  have hy' : (1 : Int) ≤ gl.gridSizeY := by exact_mod_cast hy
  have key := updatePhases_edge (courant gl) gl.gridSizeX gl.gridSizeY hx hy
    (gridBefore (courant gl) gl.gridSizeX gl.gridSizeY (listenerIndex gl g listener) g.m_pulse
      (forLoop 0 ((gl.gridSizeX + 1) * (gl.gridSizeY + 1)) resetBody g.m_grid) t)
  have corner := updatePhases_corner (courant gl) gl.gridSizeX gl.gridSizeY hx
    (gridBefore (courant gl) gl.gridSizeX gl.gridSizeY (listenerIndex gl g listener) g.m_pulse
      (forLoop 0 ((gl.gridSizeX + 1) * (gl.gridSizeY + 1)) resetBody g.m_grid) t)
  have cell : ∀ x y : Int, 0 ≤ x → x ≤ gl.gridSizeX → 0 ≤ y → y ≤ gl.gridSizeY →
      ((GenerateResponseCPU gl listener g).m_pulseResponse.read
          (INDEX2 x y (gl.gridSizeY + 1))).read t
        = (updatePhases (courant gl) gl.gridSizeX gl.gridSizeY
            (gridBefore (courant gl) gl.gridSizeX gl.gridSizeY (listenerIndex gl g listener)
              g.m_pulse
              (forLoop 0 ((gl.gridSizeX + 1) * (gl.gridSizeY + 1)) resetBody g.m_grid)
              t)).read (INDEX2 x y (gl.gridSizeY + 1)) := by
    intro x y h1 h2 h3 h4
    exact GenerateResponseCPU_response_in gl listener g _ t
      (index_in_grid gl.gridSizeX gl.gridSizeY x y h1 h2 h3 h4) ht
  refine ⟨?_, ?_, ?_, ?_, ?_, ?_⟩
  · intro y hyy
    have hyy' : (y : Int) < gl.gridSizeY := by exact_mod_cast hyy
    rw [cell 0 y (le_refl 0) (by omega) (by omega) (by omega),
      cell gl.gridSizeX y (by omega) (le_refl _) (by omega) (by omega),
      cell ((gl.gridSizeX : Int) - 1) y (by omega) (by omega) (by omega) (by omega)]
    exact key.1 y hyy
  · intro x hxx
    have hxx' : (x : Int) < gl.gridSizeX := by exact_mod_cast hxx
    rw [cell x 0 (by omega) (by omega) (le_refl 0) (by omega),
      cell x gl.gridSizeY (by omega) (by omega) (by omega) (le_refl _),
      cell x ((gl.gridSizeY : Int) - 1) (by omega) (by omega) (by omega) (by omega)]
    exact key.2 x hxx
  · rw [cell 0 gl.gridSizeY (le_refl 0) (by omega) (by omega) (le_refl _)]
    exact corner.1
  · rw [cell gl.gridSizeX gl.gridSizeY (by omega) (le_refl _) (by omega) (le_refl _)]
    exact corner.2.1
  · rw [cell gl.gridSizeX 0 (by omega) (le_refl _) (le_refl 0) (by omega)]
    exact corner.2.2.1
  · rw [cell gl.gridSizeX gl.gridSizeY (by omega) (le_refl _) (by omega) (le_refl _)]
    exact corner.2.2.2

/-- C19, witness: the 1 by 1 open field at timestep 1, the corrected cell `(0, 0)` and
the uncorrected cell `(0, 1)`. -/
theorem edge_correction_coverage_witness :
    (((GenerateResponseCPU cornerGlobals ⟨0, 0, 0⟩ cornerGrid).m_pulseResponse.read
        (INDEX2 0 ((0 : Nat) : Int) (cornerGlobals.gridSizeY + 1))).read 1).vx
      = -(((GenerateResponseCPU cornerGlobals ⟨0, 0, 0⟩ cornerGrid).m_pulseResponse.read
        (INDEX2 0 ((0 : Nat) : Int) (cornerGlobals.gridSizeY + 1))).read 1).pr ∧
    (((GenerateResponseCPU cornerGlobals ⟨0, 0, 0⟩ cornerGrid).m_pulseResponse.read
        (INDEX2 0 cornerGlobals.gridSizeY (cornerGlobals.gridSizeY + 1))).read 1).vx
      = ((bulkPhases (courant cornerGlobals) cornerGlobals.gridSizeX cornerGlobals.gridSizeY
          (gridBefore (courant cornerGlobals) cornerGlobals.gridSizeX cornerGlobals.gridSizeY
            (listenerIndex cornerGlobals cornerGrid ⟨0, 0, 0⟩) cornerGrid.m_pulse
            (forLoop 0 ((cornerGlobals.gridSizeX + 1) * (cornerGlobals.gridSizeY + 1))
              resetBody cornerGrid.m_grid) 1)).read
          (INDEX2 0 cornerGlobals.gridSizeY (cornerGlobals.gridSizeY + 1))).vx :=
  ⟨((edge_correction_coverage cornerGlobals ⟨0, 0, 0⟩ cornerGrid (by decide) (by decide) 1
      (by decide)).1 0 (by decide)).1,
   (edge_correction_coverage cornerGlobals ⟨0, 0, 0⟩ cornerGrid (by decide) (by decide) 1
      (by decide)).2.2.1⟩

/-- C20 (fallbacks of `GetOutput`): without a context, or when the emission manager has no
position for the emitter, the output has occlusion `PV_INVALID_DRY_GAIN` and every other
field zero; when the analyzer has no result for the position of the emitter, it has
occlusion 1 and every other field zero; when context, position and result all exist, it
is the result of the analyzer, field for field (`lowpass` from `lowpassIntensity`). -/
theorem GetOutput_fallbacks (PV_INVALID_DRY_GAIN : K) (GetContext : Option (Context K))
    (emitter : EmissionID) :
    (GetContext = none →
      GetOutput PV_INVALID_DRY_GAIN GetContext emitter
        = { occlusion := PV_INVALID_DRY_GAIN, wetGain := 0, lowpass := 0, rt60 := 0,
            direction := ⟨0, 0⟩, sourceDirectivity := ⟨0, 0⟩ }) ∧
    (∀ context : Context K, GetContext = some context →
      context.GetEmissionManager.GetEmitter emitter = none →
      GetOutput PV_INVALID_DRY_GAIN GetContext emitter
        = { occlusion := PV_INVALID_DRY_GAIN, wetGain := 0, lowpass := 0, rt60 := 0,
            direction := ⟨0, 0⟩, sourceDirectivity := ⟨0, 0⟩ }) ∧
    (∀ (context : Context K) (emitterPos : vec3 K), GetContext = some context →
      context.GetEmissionManager.GetEmitter emitter = some emitterPos →
      context.GetAnalyzer.GetResponseResult emitterPos = none →
      GetOutput PV_INVALID_DRY_GAIN GetContext emitter
        = { occlusion := 1, wetGain := 0, lowpass := 0, rt60 := 0,
            direction := ⟨0, 0⟩, sourceDirectivity := ⟨0, 0⟩ }) ∧
    (∀ (context : Context K) (emitterPos : vec3 K) (result : AnalyzerResult K),
      GetContext = some context →
      context.GetEmissionManager.GetEmitter emitter = some emitterPos →
      context.GetAnalyzer.GetResponseResult emitterPos = some result →
      GetOutput PV_INVALID_DRY_GAIN GetContext emitter
        = { occlusion := result.occlusion, wetGain := result.wetGain,
            lowpass := result.lowpassIntensity, rt60 := result.rt60,
            direction := result.direction,
            sourceDirectivity := result.sourceDirectivity }) := by
  refine ⟨?_, ?_, ?_, ?_⟩
  · intro h
    subst h
    rfl
  · intro context h he
    subst h
    simp only [GetOutput, he]
  · intro context emitterPos h he hr
    subst h
    simp only [GetOutput, he, hr]
  · intro context emitterPos result h he hr
    subst h
    simp only [GetOutput, he, hr]

/-- C20, witness: no context; `queryContext` with the unknown emitter 2, with the emitter
1 whose position has no result, and with the emitter 0. -/
theorem GetOutput_fallbacks_witness :
    GetOutput (-1 : ℚ) none 0
      = { occlusion := -1, wetGain := 0, lowpass := 0, rt60 := 0,
          direction := ⟨0, 0⟩, sourceDirectivity := ⟨0, 0⟩ } ∧
    GetOutput (-1 : ℚ) (some queryContext) 2
      = { occlusion := -1, wetGain := 0, lowpass := 0, rt60 := 0,
          direction := ⟨0, 0⟩, sourceDirectivity := ⟨0, 0⟩ } ∧
    GetOutput (-1 : ℚ) (some queryContext) 1
      = { occlusion := 1, wetGain := 0, lowpass := 0, rt60 := 0,
          direction := ⟨0, 0⟩, sourceDirectivity := ⟨0, 0⟩ } ∧
    GetOutput (-1 : ℚ) (some queryContext) 0
      = { occlusion := 1 / 2, wetGain := 1 / 4, lowpass := 3, rt60 := 2,
          direction := ⟨1, 0⟩, sourceDirectivity := ⟨0, 1⟩ } :=
  ⟨(GetOutput_fallbacks (-1 : ℚ) none 0).1 rfl,
   (GetOutput_fallbacks (-1 : ℚ) (some queryContext) 2).2.1 queryContext rfl
      (by simp [queryContext]),
   (GetOutput_fallbacks (-1 : ℚ) (some queryContext) 1).2.2.1 queryContext ⟨0, 0, 0⟩ rfl
      (by simp [queryContext]) (by simp [queryContext]),
   (GetOutput_fallbacks (-1 : ℚ) (some queryContext) 0).2.2.2 queryContext ⟨1, 5, 2⟩
      ⟨1 / 2, 1 / 4, 3, 2, ⟨1, 0⟩, ⟨0, 1⟩⟩ rfl
      (by simp [queryContext]) (by simp [queryContext])⟩

end Phases

end Planeverb
